import Mathlib

/-! ## Provision / verify / cleanup samples

A shallow embedding of the sample programs of the repository.  Every sample is a
straight-line Go `main` that reads the environment, acquires a credential, ensures a
resource group, runs a few SDK calls and optionally deletes the resource group.

The embedding keeps the sequential structure of each `main` and of each helper.  The
vendor SDK is represented by an oracle (`World`) that decides, from the history of the run
and the request, what every SDK call returns.  Every run produces a trace of events that
records each request together with the error it returned.

Go values are represented as follows.  A pointer is an `Option` (`none` is nil), an `error`
is the text it prints, a result pair `(*T, error)` is a pair of options.  The package-level
variable `subscriptionID` of a sample, set once by `main`, is passed to the helpers as an
argument.  `log.Fatal` and a nil dereference end the process; they are the two ways a
piece of program can halt.
-/

namespace Samples

/-! ## Data model -/

/-- A Go `error` value, identified with the text it prints. -/
abbrev Err := String

/-- A parsed `map[string]interface{}`: top-level keys with the text of their values. -/
abbrev JsonMap := List (String × String)

/-- A value of a request body.  Enumeration constants of the SDK are kept by the name
under which the source writes them. -/
inductive Field where
  | str (s : String)
  | int (n : Int)
  | bool (b : Bool)
  | enum (name : String)
  | strs (l : List String)
  | enums (l : List String)
  | json (m : JsonMap)
  deriving DecidableEq, Repr

/-- One SDK request: the client it is sent through, the method, the subscription the
client was built for, the positional name arguments and the body of the request with its
fields flattened to dotted paths. -/
structure Call where
  client : String
  method : String
  subscriptionID : String
  args : List String
  body : List (String × Field) := []
  deriving DecidableEq, Repr

/-- What a successful response carries, as far as the samples look at it.  `id` is the
`ID *string` of a resource model, `rawStatus` is the `Status` of the `RawResponse
*http.Response` (both may be nil), `success` is the answer of an existence check,
`ssoURIValue` the `SsoURIValue *string`, `rendered` the JSON rendering of the model and
`webPages` the `WebPages *WebWebAnswer` of a search response (may be nil). -/
structure Payload where
  id : Option String := none
  rawStatus : Option String := none
  success : Bool := false
  ssoURIValue : Option String := none
  rendered : String := ""
  webPages : Option String := none
  deriving DecidableEq, Repr, Inhabited

/-- A status report of a long-running operation. -/
inductive Status where
  | running
  | succeeded
  | failed (e : Err)
  deriving DecidableEq, Repr

/-- The poller returned by a `Begin*` call.  It stands for a provider-side operation that
reports "running" `running` times and then reaches its terminal state `final`.  An
operation that never reaches a terminal state is not represented: `PollUntilDone` would
block for ever on it (the samples poll under `context.Background()`), and the run would
produce no further event. -/
structure Poller where
  op : Call
  running : Nat
  final : Except Err Payload

/-- Events of a run, in program order. -/
inductive Event where
  /-- `azidentity.NewDefaultAzureCredential` was called and returned this error. -/
  | credential (err : Option Err)
  /-- A synchronous SDK request, with the error it returned. -/
  | call (c : Call) (err : Option Err)
  /-- A `Begin*` SDK request, which starts a long-running operation, with the error it
  returned. -/
  | begin (c : Call) (err : Option Err)
  /-- `PollUntilDone` on the poller of the operation started by `c`, with the status
  reports it received, one per poll, and the error it returned. -/
  | pollUntilDone (c : Call) (reports : List Status) (err : Option Err)
  /-- A line printed by `log.Println`. -/
  | log (line : String)
  deriving DecidableEq, Repr

/-- Everything outside the program: the process environment, the credential chain, the
client constructors, the provider behind the SDK and the local files.  The provider sees
the history of the run, so it may answer every request differently. -/
structure World where
  getenv : String → String
  credential : Option Err
  newClient : String → Option Err
  request : List Event → Call → Except Err Payload
  beginRequest : List Event → Call → Except Err (Nat × Except Err Payload)
  readFile : String → Except Err String
  unmarshalMap : String → Except Err JsonMap

/-- How a process stops before `main` returns. -/
inductive Halt where
  /-- `log.Fatal`: the cause is printed and the process exits with status 1. -/
  | fatal (cause : String)
  /-- A nil pointer dereference: the Go runtime panics, status 2. -/
  | nilDeref
  deriving DecidableEq, Repr

/-- Result of running a piece of program from a given history. -/
inductive Res (α : Type) where
  | ok (a : α) (tr : List Event)
  | halt (h : Halt) (tr : List Event)

/-- A piece of program: a function of the world and of the history so far. -/
def Prog (α : Type) : Type := World → List Event → Res α

/-- The `return` of `Prog`. -/
def Prog.pure {α : Type} (a : α) : Prog α := fun _ tr => .ok a tr

/-- Sequencing: the second part runs only if the first did not halt the process. -/
def Prog.bind {α β : Type} (p : Prog α) (f : α → Prog β) : Prog β := fun w tr =>
  match p w tr with
  | .ok a tr1 => f a w tr1
  | .halt h tr1 => .halt h tr1

instance : Monad Prog where
  pure := Prog.pure
  bind := Prog.bind

/-- The same piece of program with its result passed through `f`. -/
def Prog.map {α β : Type} (f : α → β) (p : Prog α) : Prog β :=
  Prog.bind p (fun a => Prog.pure (f a))

/-! ## Primitives -/

/-- The call `os.Getenv`. -/
def getenv (name : String) : Prog String := fun w tr => .ok (w.getenv name) tr

/-- The call `azidentity.NewDefaultAzureCredential(nil)`; returns the error. -/
def newDefaultAzureCredential : Prog (Option Err) := fun w tr =>
  .ok w.credential (tr ++ [.credential w.credential])

/-- A client or client-factory constructor that can return an error. -/
def newClient (name : String) : Prog (Option Err) := fun w tr => .ok (w.newClient name) tr

/-- The call `log.Fatal(v)`. -/
def logFatal {α : Type} (cause : String) : Prog α := fun _ tr => .halt (.fatal cause) tr

/-- The statement `if err != nil { log.Fatal(err) }`. -/
def fatalIf (err : Option Err) : Prog Unit := fun _ tr =>
  match err with
  | some e => .halt (.fatal e) tr
  | none => .ok () tr

/-- The call `log.Println(label, value)`: operands are separated by a space. -/
def logPrintln (label value : String) : Prog Unit := fun _ tr =>
  .ok () (tr ++ [.log (label ++ " " ++ value)])

/-- The call `log.Println(line)` with one operand. -/
def logPrintln1 (line : String) : Prog Unit := fun _ tr => .ok () (tr ++ [.log line])

/-- Dereference of a pointer: a nil pointer makes the runtime panic. -/
def deref {α : Type} (p : Option α) : Prog α := fun _ tr =>
  match p with
  | some a => .ok a tr
  | none => .halt .nilDeref tr

/-- The expression `*x.ID` for a model pointer `x`. -/
def derefID (x : Option Payload) : Prog String := deref (x.bind Payload.id)

/-- The call `ioutil.ReadFile(path)`. -/
def readFile (path : String) : Prog (Except Err String) := fun w tr => .ok (w.readFile path) tr

/-- The call `json.Unmarshal(data, &m)` for a `map[string]interface{}` target `m`. -/
def unmarshalMap (data : String) : Prog (Except Err JsonMap) := fun w tr =>
  .ok (w.unmarshalMap data) tr

/-- A synchronous SDK request. -/
def request (c : Call) : Prog (Except Err Payload) := fun w tr =>
  match w.request tr c with
  | .ok p => .ok (.ok p) (tr ++ [.call c none])
  | .error e => .ok (.error e) (tr ++ [.call c (some e)])

/-- A `Begin*` SDK request: on success the SDK hands back a poller of the operation. -/
def beginRequest (c : Call) : Prog (Except Err Poller) := fun w tr =>
  match w.beginRequest tr c with
  | .ok (n, fin) => .ok (.ok ⟨c, n, fin⟩) (tr ++ [.begin c none])
  | .error e => .ok (.error e) (tr ++ [.begin c (some e)])

/-- Modelled from the spec: the poll loop of `PollUntilDone` belongs to the vendor SDK and
is not in the repository.  Following the spec ("a bounded-interval poll loop that blocks the
calling stage until the operation reaches a terminal state (succeeded/failed)") the loop
asks for the status, and asks again as long as the answer is "running".  The result is the
list of reports received, one per poll. -/
def pollLoop : Nat → Except Err Payload → List Status
  | 0, .ok _ => [.succeeded]
  | 0, .error e => [.failed e]
  | n + 1, fin => .running :: pollLoop n fin

/-- The call `poller.PollUntilDone(ctx, freq)`: runs the poll loop and returns the terminal
result of the operation. -/
def pollUntilDone (p : Poller) : Prog (Except Err Payload) := fun _ tr =>
  match p.final with
  | .ok r => .ok (.ok r) (tr ++ [.pollUntilDone p.op (pollLoop p.running (.ok r)) none])
  | .error e => .ok (.error e) (tr ++ [.pollUntilDone p.op (pollLoop p.running (.error e)) (some e)])

/-- The Go result pair `(*T, error)` for a resource model `T`. -/
abbrev GoPair := Option Payload × Option Err

/-- The Go result pair `(*http.Response, error)`: the response is kept by its status. -/
abbrev GoRaw := Option String × Option Err

/-- What `log.Println` prints for a `*http.Response` operand. -/
def showRaw (resp : Option String) : String :=
  match resp with
  | some status => "&\x7b" ++ status ++ "\x7d"
  | none => "<nil>"

/-- Ending of a whole process. -/
inductive Outcome where
  | returned
  | halted (h : Halt)
  deriving DecidableEq, Repr

/-- Exit status of the process. -/
def Outcome.status : Outcome → Nat
  | .returned => 0
  | .halted (.fatal _) => 1
  | .halted .nilDeref => 2

/-- The events up to the point a piece of program returned or halted the process. -/
def Res.trace {α : Type} : Res α → List Event
  | .ok _ tr => tr
  | .halt _ tr => tr

/-- The ending of the process if the piece of program is a whole `main`. -/
def Res.outcome {α : Type} : Res α → Outcome
  | .ok _ _ => .returned
  | .halt h _ => .halted h

/-- Runs a `main` from the empty history: how the process ends and its trace. -/
def run (main : Prog Unit) (w : World) : Outcome × List Event :=
  ((main w []).outcome, (main w []).trace)

/-! ## apimanagement/deleted_service/main.go -/

namespace Apimanagement

def location : String := "westus"
def resourceGroupName : String := "sample-resource-group"
def serviceName : String := "sample-api-service"

def deleteServiceCall (subscriptionID : String) : Call :=
  { client := "armapimanagement.DeletedServicesClient", method := "BeginPurge",
    subscriptionID := subscriptionID, args := [serviceName, location] }

def createApiManagementServiceCall (subscriptionID : String) : Call :=
  { client := "armapimanagement.APIManagementServiceClient", method := "BeginCreateOrUpdate",
    subscriptionID := subscriptionID, args := [resourceGroupName, serviceName],
    body := [("Location", .str location),
             ("Properties.PublisherName", .str "sample"),
             ("Properties.PublisherEmail", .str "xxx@wircesoft.com"),
             ("SKU.Name", .enum "armapimanagement.SKUTypeStandard"),
             ("SKU.Capacity", .int 2)] }

def deleteApiManagementServiceCall (subscriptionID : String) : Call :=
  { client := "armapimanagement.APIManagementServiceClient", method := "BeginDelete",
    subscriptionID := subscriptionID, args := [resourceGroupName, serviceName] }

def createResourceGroupCall (subscriptionID : String) : Call :=
  { client := "armresources.ResourceGroupsClient", method := "CreateOrUpdate",
    subscriptionID := subscriptionID, args := [resourceGroupName],
    body := [("Location", .str location)] }

def cleanupCall (subscriptionID : String) : Call :=
  { client := "armresources.ResourceGroupsClient", method := "BeginDelete",
    subscriptionID := subscriptionID, args := [resourceGroupName] }

def deleteService (subscriptionID : String) : Prog GoRaw := do
  match ← beginRequest (deleteServiceCall subscriptionID) with
  | .error err => pure (none, some err)
  | .ok pollerResp =>
  match ← pollUntilDone pollerResp with
  | .error err => pure (none, some err)
  | .ok resp => pure (resp.rawStatus, none)

def createApiManagementService (subscriptionID : String) : Prog GoPair := do
  match ← beginRequest (createApiManagementServiceCall subscriptionID) with
  | .error err => pure (none, some err)
  | .ok pollerResp =>
  match ← pollUntilDone pollerResp with
  | .error err => pure (none, some err)
  | .ok resp => pure (some resp, none)

def deleteApiManagementService (subscriptionID : String) : Prog GoPair := do
  match ← beginRequest (deleteApiManagementServiceCall subscriptionID) with
  | .error err => pure (none, some err)
  | .ok pollerResp =>
  match ← pollUntilDone pollerResp with
  | .error err => pure (none, some err)
  | .ok resp => pure (some resp, none)

def createResourceGroup (subscriptionID : String) : Prog GoPair := do
  match ← request (createResourceGroupCall subscriptionID) with
  | .error err => pure (none, some err)
  | .ok resourceGroupResp => pure (some resourceGroupResp, none)

def cleanup (subscriptionID : String) : Prog GoRaw := do
  match ← beginRequest (cleanupCall subscriptionID) with
  | .error err => pure (none, some err)
  | .ok pollerResp =>
  match ← pollUntilDone pollerResp with
  | .error err => pure (none, some err)
  | .ok resp => pure (resp.rawStatus, none)

/-- The `main` of the sample.  The two stages that create and soft-delete the service
before the purge, and the teardown block, are commented out in the source. -/
def main : Prog Unit := do
  let subscriptionID ← getenv "AZURE_SUBSCRIPTION_ID"
  if subscriptionID.length = 0 then
    logFatal "AZURE_SUBSCRIPTION_ID is not set."
  let err ← newDefaultAzureCredential
  fatalIf err
  let (resourceGroup, err) ← createResourceGroup subscriptionID
  fatalIf err
  logPrintln "resources group:" (← derefID resourceGroup)
  let (resp, err) ← deleteService subscriptionID
  fatalIf err
  logPrintln "delete service:" (showRaw resp)
  let (apiManagementService, err) ← createApiManagementService subscriptionID
  fatalIf err
  logPrintln "api management service again:" (← derefID apiManagementService)

end Apimanagement

/-! ## cdn/cdnManagement/main.go -/

namespace CdnManagement

def location : String := "westus"
def resourceGroupName : String := "sample-resource-group2"
def profileName : String := "sample2cdn2profile"

def createProfileCall (subscriptionID : String) : Call :=
  { client := "armcdn.ProfilesClient", method := "BeginCreate",
    subscriptionID := subscriptionID, args := [resourceGroupName, profileName],
    body := [("TrackedResource.Location", .str "Global"),
             ("SKU.Name", .enum "armcdn.SKUNamePremiumVerizon")] }

def generateSsoURICall (subscriptionID : String) : Call :=
  { client := "armcdn.ProfilesClient", method := "GenerateSsoURI",
    subscriptionID := subscriptionID, args := [resourceGroupName, profileName] }

def createResourceGroupCall (subscriptionID : String) : Call :=
  { client := "armresources.ResourceGroupsClient", method := "CreateOrUpdate",
    subscriptionID := subscriptionID, args := [resourceGroupName],
    body := [("Location", .str location)] }

def cleanupCall (subscriptionID : String) : Call :=
  { client := "armresources.ResourceGroupsClient", method := "BeginDelete",
    subscriptionID := subscriptionID, args := [resourceGroupName] }

def createProfile (subscriptionID : String) : Prog GoPair := do
  match ← beginRequest (createProfileCall subscriptionID) with
  | .error err => pure (none, some err)
  | .ok pollerResp =>
  match ← pollUntilDone pollerResp with
  | .error err => pure (none, some err)
  | .ok resp => pure (some resp, none)

def generateSsoURI (subscriptionID : String) : Prog GoPair := do
  match ← request (generateSsoURICall subscriptionID) with
  | .error err => pure (none, some err)
  | .ok resp => pure (some resp, none)

def createResourceGroup (subscriptionID : String) : Prog GoPair := do
  match ← request (createResourceGroupCall subscriptionID) with
  | .error err => pure (none, some err)
  | .ok resourceGroupResp => pure (some resourceGroupResp, none)

def cleanup (subscriptionID : String) : Prog GoRaw := do
  match ← beginRequest (cleanupCall subscriptionID) with
  | .error err => pure (none, some err)
  | .ok pollerResp =>
  match ← pollUntilDone pollerResp with
  | .error err => pure (none, some err)
  | .ok resp => pure (resp.rawStatus, none)

def main : Prog Unit := do
  let subscriptionID ← getenv "AZURE_SUBSCRIPTION_ID"
  if subscriptionID.length = 0 then
    logFatal "AZURE_SUBSCRIPTION_ID is not set."
  let err ← newDefaultAzureCredential
  fatalIf err
  let (resourceGroup, err) ← createResourceGroup subscriptionID
  fatalIf err
  logPrintln "resources group:" (← derefID resourceGroup)
  let (cdnProfile, err) ← createProfile subscriptionID
  fatalIf err
  logPrintln "cdn profile:" (← derefID cdnProfile)
  let (ssoUri, err) ← generateSsoURI subscriptionID
  fatalIf err
  logPrintln "Sso URI:" (← deref (ssoUri.bind Payload.ssoURIValue))
  let keepResource ← getenv "KEEP_RESOURCE"
  if keepResource.length = 0 then
    let (_, err) ← cleanup subscriptionID
    fatalIf err
    logPrintln1 "cleaned up successfully."

end CdnManagement

/-! ## cdn/endpoint/main.go -/

namespace CdnEndpoint

def location : String := "westus"
def resourceGroupName : String := "sample-resource-group2"
def profileName : String := "sample2cdn2profile"
def endpointName : String := "sample-endpoint"

def createProfileCall (subscriptionID : String) : Call :=
  { client := "armcdn.ProfilesClient", method := "BeginCreate",
    subscriptionID := subscriptionID, args := [resourceGroupName, profileName],
    body := [("Location", .str "Global"),
             ("SKU.Name", .enum "armcdn.SKUNamePremiumVerizon")] }

def createEndpointCall (subscriptionID : String) : Call :=
  { client := "armcdn.EndpointsClient", method := "BeginCreate",
    subscriptionID := subscriptionID, args := [resourceGroupName, profileName, endpointName],
    body := [("Location", .str "Global"),
             ("Properties.Origins[0].Name", .str "sample1"),
             ("Properties.Origins[0].Properties.HostName", .str "sample2.azureedge.net")] }

def purgeContentCall (subscriptionID : String) : Call :=
  { client := "armcdn.EndpointsClient", method := "BeginPurgeContent",
    subscriptionID := subscriptionID, args := [resourceGroupName, profileName, endpointName],
    body := [("ContentPaths", .strs ["/sample"])] }

/-- The request sent by `startEndpoint`: the source calls `BeginStop` there. -/
def startEndpointCall (subscriptionID : String) : Call :=
  { client := "armcdn.EndpointsClient", method := "BeginStop",
    subscriptionID := subscriptionID, args := [resourceGroupName, profileName, endpointName] }

/-- The request sent by `stopEndpoint`: the source calls `BeginStart` there. -/
def stopEndpointCall (subscriptionID : String) : Call :=
  { client := "armcdn.EndpointsClient", method := "BeginStart",
    subscriptionID := subscriptionID, args := [resourceGroupName, profileName, endpointName] }

def createResourceGroupCall (subscriptionID : String) : Call :=
  { client := "armresources.ResourceGroupsClient", method := "CreateOrUpdate",
    subscriptionID := subscriptionID, args := [resourceGroupName],
    body := [("Location", .str location)] }

def cleanupCall (subscriptionID : String) : Call :=
  { client := "armresources.ResourceGroupsClient", method := "BeginDelete",
    subscriptionID := subscriptionID, args := [resourceGroupName] }

def createProfile (subscriptionID : String) : Prog GoPair := do
  match ← beginRequest (createProfileCall subscriptionID) with
  | .error err => pure (none, some err)
  | .ok pollerResp =>
  match ← pollUntilDone pollerResp with
  | .error err => pure (none, some err)
  | .ok resp => pure (some resp, none)

def createEndpoint (subscriptionID : String) : Prog GoPair := do
  match ← beginRequest (createEndpointCall subscriptionID) with
  | .error err => pure (none, some err)
  | .ok pollerResp =>
  match ← pollUntilDone pollerResp with
  | .error err => pure (none, some err)
  | .ok resp => pure (some resp, none)

def purgeContent (subscriptionID : String) : Prog GoRaw := do
  match ← beginRequest (purgeContentCall subscriptionID) with
  | .error err => pure (none, some err)
  | .ok pollerResp =>
  match ← pollUntilDone pollerResp with
  | .error err => pure (none, some err)
  | .ok resp => pure (resp.rawStatus, none)

def startEndpoint (subscriptionID : String) : Prog GoPair := do
  match ← beginRequest (startEndpointCall subscriptionID) with
  | .error err => pure (none, some err)
  | .ok pollerResp =>
  match ← pollUntilDone pollerResp with
  | .error err => pure (none, some err)
  | .ok resp => pure (some resp, none)

def stopEndpoint (subscriptionID : String) : Prog GoPair := do
  match ← beginRequest (stopEndpointCall subscriptionID) with
  | .error err => pure (none, some err)
  | .ok pollerResp =>
  match ← pollUntilDone pollerResp with
  | .error err => pure (none, some err)
  | .ok resp => pure (some resp, none)

def createResourceGroup (subscriptionID : String) : Prog GoPair := do
  match ← request (createResourceGroupCall subscriptionID) with
  | .error err => pure (none, some err)
  | .ok resourceGroupResp => pure (some resourceGroupResp, none)

def cleanup (subscriptionID : String) : Prog GoRaw := do
  match ← beginRequest (cleanupCall subscriptionID) with
  | .error err => pure (none, some err)
  | .ok pollerResp =>
  match ← pollUntilDone pollerResp with
  | .error err => pure (none, some err)
  | .ok resp => pure (resp.rawStatus, none)

def main : Prog Unit := do
  let subscriptionID ← getenv "AZURE_SUBSCRIPTION_ID"
  if subscriptionID.length = 0 then
    logFatal "AZURE_SUBSCRIPTION_ID is not set."
  let err ← newDefaultAzureCredential
  fatalIf err
  let (resourceGroup, err) ← createResourceGroup subscriptionID
  fatalIf err
  logPrintln "resources group:" (← derefID resourceGroup)
  let (cdnProfile, err) ← createProfile subscriptionID
  fatalIf err
  logPrintln "cdn profile:" (← derefID cdnProfile)
  let (endpoint, err) ← createEndpoint subscriptionID
  fatalIf err
  logPrintln "cdn endpoint:" (← derefID endpoint)
  let (purge, err) ← purgeContent subscriptionID
  fatalIf err
  logPrintln "cdn endpoint purge content:" (← deref purge)
  let (stop, err) ← stopEndpoint subscriptionID
  fatalIf err
  logPrintln "cdn endpoint stop:" (← derefID stop)
  let (start, err) ← startEndpoint subscriptionID
  fatalIf err
  logPrintln "cdn endpoint start:" (← derefID start)
  let keepResource ← getenv "KEEP_RESOURCE"
  if keepResource.length = 0 then
    let (_, err) ← cleanup subscriptionID
    fatalIf err
    logPrintln1 "cleaned up successfully."

end CdnEndpoint

/-! ## containerregistry/replication/main.go -/

namespace Containerregistry

def location : String := "westus"
def resourceGroupName : String := "sample-resource-group"
def registryName : String := "sample2registry"
def replicationName : String := "sample2replication"

def createRegistryCall (subscriptionID : String) : Call :=
  { client := "armcontainerregistry.RegistriesClient", method := "BeginCreate",
    subscriptionID := subscriptionID, args := [resourceGroupName, registryName],
    body := [("Resource.Location", .str location),
             ("Resource.Tags", .json [("key", "value")]),
             ("SKU.Name", .enum "armcontainerregistry.SKUNamePremium"),
             ("Properties.AdminUserEnabled", .bool true)] }

def createReplicationCall (subscriptionID : String) : Call :=
  { client := "armcontainerregistry.ReplicationsClient", method := "BeginCreate",
    subscriptionID := subscriptionID,
    args := [resourceGroupName, registryName, replicationName],
    body := [("Resource.Location", .str "eastus")] }

def getReplicationCall (subscriptionID : String) : Call :=
  { client := "armcontainerregistry.ReplicationsClient", method := "Get",
    subscriptionID := subscriptionID,
    args := [resourceGroupName, registryName, replicationName] }

def createResourceGroupCall (subscriptionID : String) : Call :=
  { client := "armresources.ResourceGroupsClient", method := "CreateOrUpdate",
    subscriptionID := subscriptionID, args := [resourceGroupName],
    body := [("Location", .str location)] }

def cleanupCall (subscriptionID : String) : Call :=
  { client := "armresources.ResourceGroupsClient", method := "BeginDelete",
    subscriptionID := subscriptionID, args := [resourceGroupName] }

def createRegistry (subscriptionID : String) : Prog GoPair := do
  match ← beginRequest (createRegistryCall subscriptionID) with
  | .error err => pure (none, some err)
  | .ok pollerResp =>
  match ← pollUntilDone pollerResp with
  | .error err => pure (none, some err)
  | .ok resp => pure (some resp, none)

def createReplication (subscriptionID : String) : Prog GoPair := do
  match ← beginRequest (createReplicationCall subscriptionID) with
  | .error err => pure (none, some err)
  | .ok pollerResp =>
  match ← pollUntilDone pollerResp with
  | .error err => pure (none, some err)
  | .ok resp => pure (some resp, none)

def getReplication (subscriptionID : String) : Prog GoPair := do
  match ← request (getReplicationCall subscriptionID) with
  | .error err => pure (none, some err)
  | .ok resp => pure (some resp, none)

def createResourceGroup (subscriptionID : String) : Prog GoPair := do
  match ← request (createResourceGroupCall subscriptionID) with
  | .error err => pure (none, some err)
  | .ok resourceGroupResp => pure (some resourceGroupResp, none)

def cleanup (subscriptionID : String) : Prog GoRaw := do
  match ← beginRequest (cleanupCall subscriptionID) with
  | .error err => pure (none, some err)
  | .ok pollerResp =>
  match ← pollUntilDone pollerResp with
  | .error err => pure (none, some err)
  | .ok resp => pure (resp.rawStatus, none)

def main : Prog Unit := do
  let subscriptionID ← getenv "AZURE_SUBSCRIPTION_ID"
  if subscriptionID.length = 0 then
    logFatal "AZURE_SUBSCRIPTION_ID is not set."
  let err ← newDefaultAzureCredential
  fatalIf err
  let (resourceGroup, err) ← createResourceGroup subscriptionID
  fatalIf err
  logPrintln "resources group:" (← derefID resourceGroup)
  let (registry, err) ← createRegistry subscriptionID
  fatalIf err
  logPrintln "registry:" (← derefID registry)
  let (replication, err) ← createReplication subscriptionID
  fatalIf err
  logPrintln "replication:" (← derefID replication)
  let (replication, err) ← getReplication subscriptionID
  fatalIf err
  logPrintln "get replication:" (← derefID replication)
  let keepResource ← getenv "KEEP_RESOURCE"
  if keepResource.length = 0 then
    let (_, err) ← cleanup subscriptionID
    fatalIf err
    logPrintln1 "cleaned up successfully."

end Containerregistry

/-! ## resource/deployment/main.go -/

namespace Deployment

def location : String := "westus"
def resourceGroupName : String := "sample-resource-group"
def deploymentName : String := "sample-deployment"

def checkExistDeploymentCall (subscriptionID : String) : Call :=
  { client := "armresources.DeploymentsClient", method := "CheckExistence",
    subscriptionID := subscriptionID, args := [resourceGroupName, deploymentName] }

def createDeploymentCall (subscriptionID : String) (template params : JsonMap) : Call :=
  { client := "armresources.DeploymentsClient", method := "BeginCreateOrUpdate",
    subscriptionID := subscriptionID, args := [resourceGroupName, deploymentName],
    body := [("Properties.Template", .json template),
             ("Properties.Parameters", .json params),
             ("Properties.Mode", .enum "armresources.DeploymentModeIncremental")] }

def validateDeploymentCall (subscriptionID : String) (template params : JsonMap) : Call :=
  { client := "armresources.DeploymentsClient", method := "BeginValidate",
    subscriptionID := subscriptionID, args := [resourceGroupName, deploymentName],
    body := [("Properties.Template", .json template),
             ("Properties.Parameters", .json params),
             ("Properties.Mode", .enum "armresources.DeploymentModeIncremental")] }

def createResourceGroupCall (subscriptionID : String) : Call :=
  { client := "armresources.ResourceGroupsClient", method := "CreateOrUpdate",
    subscriptionID := subscriptionID, args := [resourceGroupName],
    body := [("Location", .str location)] }

def cleanupCall (subscriptionID : String) : Call :=
  { client := "armresources.ResourceGroupsClient", method := "BeginDelete",
    subscriptionID := subscriptionID, args := [resourceGroupName] }

def readJson (path : String) : Prog (Option JsonMap × Option Err) := do
  match ← readFile path with
  | .error err => pure (none, some err)
  | .ok templateFile =>
  match ← unmarshalMap templateFile with
  | .error err => pure (none, some err)
  | .ok template => pure (some template, none)

def checkExistDeployment (subscriptionID : String) : Prog (Bool × Option Err) := do
  match ← request (checkExistDeploymentCall subscriptionID) with
  | .error err => pure (false, some err)
  | .ok boolResp => pure (boolResp.success, none)

def createDeployment (subscriptionID : String) (template params : JsonMap) : Prog GoPair := do
  match ← beginRequest (createDeploymentCall subscriptionID template params) with
  | .error err => pure (none, some ("cannot create deployment: " ++ err))
  | .ok deploymentPollerResp =>
  match ← pollUntilDone deploymentPollerResp with
  | .error err => pure (none, some ("cannot get the create deployment future respone: " ++ err))
  | .ok resp => pure (some resp, none)

def validateDeployment (subscriptionID : String) (template params : JsonMap) : Prog GoPair := do
  match ← beginRequest (validateDeploymentCall subscriptionID template params) with
  | .error err => pure (none, some err)
  | .ok pollerResp =>
  match ← pollUntilDone pollerResp with
  | .error err => pure (none, some err)
  | .ok resp => pure (some resp, none)

def createResourceGroup (subscriptionID : String) : Prog GoPair := do
  match ← request (createResourceGroupCall subscriptionID) with
  | .error err => pure (none, some err)
  | .ok resourceGroupResp => pure (some resourceGroupResp, none)

def cleanup (subscriptionID : String) : Prog GoRaw := do
  match ← beginRequest (cleanupCall subscriptionID) with
  | .error err => pure (none, some err)
  | .ok pollerResp =>
  match ← pollUntilDone pollerResp with
  | .error err => pure (none, some err)
  | .ok resp => pure (resp.rawStatus, none)

/-- What `json.Marshal` followed by `string(data)` gives for a result pointer. -/
def marshal (x : Option Payload) : String :=
  match x with
  | some p => p.rendered
  | none => "null"

/-- A nil map read back by `readJson` is passed on as an empty map. -/
def mapOf (m : Option JsonMap) : JsonMap := m.getD []

def main : Prog Unit := do
  let subscriptionID ← getenv "AZURE_SUBSCRIPTION_ID"
  if subscriptionID.length = 0 then
    logFatal "AZURE_SUBSCRIPTION_ID is not set."
  let err ← newDefaultAzureCredential
  fatalIf err
  let (resourceGroup, err) ← createResourceGroup subscriptionID
  fatalIf err
  logPrintln "resources group:" (← derefID resourceGroup)
  let (exist, err) ← checkExistDeployment subscriptionID
  fatalIf err
  logPrintln "deployment is exist:" (toString exist)
  let (template, err) ← readJson "testdata/template.json"
  fatalIf err
  let (params, err) ← readJson "testdata/parameters.json"
  fatalIf err
  let (deploymentExtended, err) ← createDeployment subscriptionID (mapOf template) (mapOf params)
  fatalIf err
  logPrintln "created deployment:" (← derefID deploymentExtended)
  let (validateResult, err) ← validateDeployment subscriptionID (mapOf template) (mapOf params)
  fatalIf err
  logPrintln "validate deployment:" (marshal validateResult)
  let keepResource ← getenv "KEEP_RESOURCE"
  if keepResource.length = 0 then
    let (_, err) ← cleanup subscriptionID
    fatalIf err
    logPrintln1 "cleaned up successfully."

end Deployment

/-! ## sdk/resourcemanager/mysql/server/main.go -/

namespace Mysql

def location : String := "eastus"
def resourceGroupName : String := "sample-resource-group"
def serverName : String := "sample2server"

def createServerCall (subscriptionID : String) : Call :=
  { client := "armmysql.ServersClient", method := "BeginCreate",
    subscriptionID := subscriptionID, args := [resourceGroupName, serverName],
    body := [("Location", .str location),
             ("Properties.CreateMode", .enum "armmysql.CreateModeDefault"),
             ("SKU.Name", .str "GP_Gen5_2"),
             ("SKU.Tier", .enum "armmysql.SKUTierGeneralPurpose"),
             ("SKU.Capacity", .int 2),
             ("SKU.Family", .str "Gen5")] }

def getServerCall (subscriptionID : String) : Call :=
  { client := "armmysql.ServersClient", method := "Get",
    subscriptionID := subscriptionID, args := [resourceGroupName, serverName] }

def createResourceGroupCall (subscriptionID : String) : Call :=
  { client := "armresources.ResourceGroupsClient", method := "CreateOrUpdate",
    subscriptionID := subscriptionID, args := [resourceGroupName],
    body := [("Location", .str location)] }

def cleanupCall (subscriptionID : String) : Call :=
  { client := "armresources.ResourceGroupsClient", method := "BeginDelete",
    subscriptionID := subscriptionID, args := [resourceGroupName] }

def createServer (subscriptionID : String) : Prog GoPair := do
  match ← newClient "armmysql.NewServersClient" with
  | some err => pure (none, some err)
  | none =>
  match ← beginRequest (createServerCall subscriptionID) with
  | .error err => pure (none, some err)
  | .ok pollerResp =>
  match ← pollUntilDone pollerResp with
  | .error err => pure (none, some err)
  | .ok resp => pure (some resp, none)

def getServer (subscriptionID : String) : Prog GoPair := do
  match ← newClient "armmysql.NewServersClient" with
  | some err => pure (none, some err)
  | none =>
  match ← request (getServerCall subscriptionID) with
  | .error err => pure (none, some err)
  | .ok resp => pure (some resp, none)

def createResourceGroup (subscriptionID : String) : Prog GoPair := do
  match ← newClient "armresources.NewResourceGroupsClient" with
  | some err => pure (none, some err)
  | none =>
  match ← request (createResourceGroupCall subscriptionID) with
  | .error err => pure (none, some err)
  | .ok resourceGroupResp => pure (some resourceGroupResp, none)

def cleanup (subscriptionID : String) : Prog (Option Err) := do
  match ← newClient "armresources.NewResourceGroupsClient" with
  | some err => pure (some err)
  | none =>
  match ← beginRequest (cleanupCall subscriptionID) with
  | .error err => pure (some err)
  | .ok pollerResp =>
  match ← pollUntilDone pollerResp with
  | .error err => pure (some err)
  | .ok _ => pure none

def main : Prog Unit := do
  let subscriptionID ← getenv "AZURE_SUBSCRIPTION_ID"
  if subscriptionID.length = 0 then
    logFatal "AZURE_SUBSCRIPTION_ID is not set."
  let err ← newDefaultAzureCredential
  fatalIf err
  let (resourceGroup, err) ← createResourceGroup subscriptionID
  fatalIf err
  logPrintln "resources group:" (← derefID resourceGroup)
  let (server, err) ← createServer subscriptionID
  fatalIf err
  logPrintln "server:" (← derefID server)
  let (server, err) ← getServer subscriptionID
  fatalIf err
  logPrintln "get server:" (← derefID server)
  let keepResource ← getenv "KEEP_RESOURCE"
  if keepResource.length = 0 then
    let err ← cleanup subscriptionID
    fatalIf err
    logPrintln1 "cleaned up successfully."

end Mysql

/-! ## sdk/resourcemanager/privatedns/privatezone/main.go -/

namespace Privatedns

def location : String := "eastus"
def resourceGroupName : String := "sample-resource-group"
def privateZoneName : String := "sample.private.zone"

def createPrivateZoneCall (subscriptionID : String) : Call :=
  { client := "armprivatedns.PrivateZonesClient", method := "BeginCreateOrUpdate",
    subscriptionID := subscriptionID, args := [resourceGroupName, privateZoneName],
    body := [("Location", .str location)] }

def createResourceGroupCall (subscriptionID : String) : Call :=
  { client := "armresources.ResourceGroupsClient", method := "CreateOrUpdate",
    subscriptionID := subscriptionID, args := [resourceGroupName],
    body := [("Location", .str location)] }

def cleanupCall (subscriptionID : String) : Call :=
  { client := "armresources.ResourceGroupsClient", method := "BeginDelete",
    subscriptionID := subscriptionID, args := [resourceGroupName] }

def createPrivateZone (subscriptionID : String) : Prog GoPair := do
  match ← beginRequest (createPrivateZoneCall subscriptionID) with
  | .error err => pure (none, some err)
  | .ok pollersResp =>
  match ← pollUntilDone pollersResp with
  | .error err => pure (none, some err)
  | .ok resp => pure (some resp, none)

def createResourceGroup (subscriptionID : String) : Prog GoPair := do
  match ← request (createResourceGroupCall subscriptionID) with
  | .error err => pure (none, some err)
  | .ok resourceGroupResp => pure (some resourceGroupResp, none)

def cleanup (subscriptionID : String) : Prog (Option Err) := do
  match ← beginRequest (cleanupCall subscriptionID) with
  | .error err => pure (some err)
  | .ok pollerResp =>
  match ← pollUntilDone pollerResp with
  | .error err => pure (some err)
  | .ok _ => pure none

def main : Prog Unit := do
  let subscriptionID ← getenv "AZURE_SUBSCRIPTION_ID"
  if subscriptionID.length = 0 then
    logFatal "AZURE_SUBSCRIPTION_ID is not set."
  let err ← newDefaultAzureCredential
  fatalIf err
  let err ← newClient "armresources.NewClientFactory"
  fatalIf err
  let err ← newClient "armprivatedns.NewClientFactory"
  fatalIf err
  let (resourceGroup, err) ← createResourceGroup subscriptionID
  fatalIf err
  logPrintln "resources group:" (← derefID resourceGroup)
  let (privateZone, err) ← createPrivateZone subscriptionID
  fatalIf err
  logPrintln "private zone:" (← derefID privateZone)
  let keepResource ← getenv "KEEP_RESOURCE"
  if keepResource.length = 0 then
    let err ← cleanup subscriptionID
    fatalIf err
    logPrintln1 "cleaned up successfully."

end Privatedns

/-! ## sdk/resourcemanager/servicebus/namespace/main.go -/

namespace Servicebus

def location : String := "westus"
def resourceGroupName : String := "sample-resource-group"
def virtualNetworkName : String := "sample-virtual-network"
def subnetName : String := "sample-subnet"
def namespaceName : String := "sample-sb-namespace"
def authorizationRuleName : String := "sample-sb-authorization-rule"

def createVirtualNetworkCall (subscriptionID : String) : Call :=
  { client := "armnetwork.VirtualNetworksClient", method := "BeginCreateOrUpdate",
    subscriptionID := subscriptionID, args := [resourceGroupName, virtualNetworkName],
    body := [("Location", .str location),
             ("Properties.AddressSpace.AddressPrefixes", .strs ["10.0.0.0/16"])] }

def createSubnetCall (subscriptionID : String) : Call :=
  { client := "armnetwork.SubnetsClient", method := "BeginCreateOrUpdate",
    subscriptionID := subscriptionID,
    args := [resourceGroupName, virtualNetworkName, subnetName],
    body := [("Properties.AddressPrefix", .str "10.0.0.0/24")] }

def createNamespaceCall (subscriptionID : String) : Call :=
  { client := "armservicebus.NamespacesClient", method := "BeginCreateOrUpdate",
    subscriptionID := subscriptionID, args := [resourceGroupName, namespaceName],
    body := [("Location", .str location),
             ("SKU.Name", .enum "armservicebus.SKUNamePremium"),
             ("SKU.Tier", .enum "armservicebus.SKUTierPremium")] }

def createNamespaceAuthorizationRuleCall (subscriptionID : String) : Call :=
  { client := "armservicebus.NamespacesClient", method := "CreateOrUpdateAuthorizationRule",
    subscriptionID := subscriptionID,
    args := [resourceGroupName, namespaceName, authorizationRuleName],
    body := [("Properties.Rights",
              .enums ["armservicebus.AccessRightsListen", "armservicebus.AccessRightsSend"])] }

def createNamespaceNetworkRuleSetCall (subscriptionID subnetID : String) : Call :=
  { client := "armservicebus.NamespacesClient", method := "CreateOrUpdateNetworkRuleSet",
    subscriptionID := subscriptionID, args := [resourceGroupName, namespaceName],
    body := [("Properties.DefaultAction", .enum "armservicebus.DefaultActionDeny"),
             ("Properties.VirtualNetworkRules[0].Subnet.ID", .str subnetID),
             ("Properties.VirtualNetworkRules[0].IgnoreMissingVnetServiceEndpoint", .bool true),
             ("Properties.IPRules[0].Action", .enum "armservicebus.NetworkRuleIPActionAllow"),
             ("Properties.IPRules[0].IPMask", .str "1.1.1.1"),
             ("Properties.IPRules[1].Action", .enum "armservicebus.NetworkRuleIPActionAllow"),
             ("Properties.IPRules[1].IPMask", .str "1.1.1.2"),
             ("Properties.IPRules[2].Action", .enum "armservicebus.NetworkRuleIPActionAllow"),
             ("Properties.IPRules[2].IPMask", .str "1.1.1.3"),
             ("Properties.IPRules[3].Action", .enum "armservicebus.NetworkRuleIPActionAllow"),
             ("Properties.IPRules[3].IPMask", .str "1.1.1.4"),
             ("Properties.IPRules[4].Action", .enum "armservicebus.NetworkRuleIPActionAllow"),
             ("Properties.IPRules[4].IPMask", .str "1.1.1.5")] }

def createResourceGroupCall (subscriptionID : String) : Call :=
  { client := "armresources.ResourceGroupsClient", method := "CreateOrUpdate",
    subscriptionID := subscriptionID, args := [resourceGroupName],
    body := [("Location", .str location)] }

def cleanupCall (subscriptionID : String) : Call :=
  { client := "armresources.ResourceGroupsClient", method := "BeginDelete",
    subscriptionID := subscriptionID, args := [resourceGroupName] }

def createVirtualNetwork (subscriptionID : String) : Prog GoPair := do
  match ← beginRequest (createVirtualNetworkCall subscriptionID) with
  | .error err => pure (none, some err)
  | .ok pollerResp =>
  match ← pollUntilDone pollerResp with
  | .error err => pure (none, some err)
  | .ok resp => pure (some resp, none)

def createSubnet (subscriptionID : String) : Prog GoPair := do
  match ← beginRequest (createSubnetCall subscriptionID) with
  | .error err => pure (none, some err)
  | .ok pollerResp =>
  match ← pollUntilDone pollerResp with
  | .error err => pure (none, some err)
  | .ok resp => pure (some resp, none)

def createNamespace (subscriptionID : String) : Prog GoPair := do
  match ← beginRequest (createNamespaceCall subscriptionID) with
  | .error err => pure (none, some err)
  | .ok pollerResp =>
  match ← pollUntilDone pollerResp with
  | .error err => pure (none, some err)
  | .ok resp => pure (some resp, none)

def createNamespaceAuthorizationRule (subscriptionID : String) : Prog GoPair := do
  match ← request (createNamespaceAuthorizationRuleCall subscriptionID) with
  | .error err => pure (none, some err)
  | .ok resp => pure (some resp, none)

def createNamespaceNetworkRuleSet (subscriptionID subnetID : String) : Prog GoPair := do
  match ← request (createNamespaceNetworkRuleSetCall subscriptionID subnetID) with
  | .error err => pure (none, some err)
  | .ok resp => pure (some resp, none)

def createResourceGroup (subscriptionID : String) : Prog GoPair := do
  match ← request (createResourceGroupCall subscriptionID) with
  | .error err => pure (none, some err)
  | .ok resourceGroupResp => pure (some resourceGroupResp, none)

def cleanup (subscriptionID : String) : Prog (Option Err) := do
  match ← beginRequest (cleanupCall subscriptionID) with
  | .error err => pure (some err)
  | .ok pollerResp =>
  match ← pollUntilDone pollerResp with
  | .error err => pure (some err)
  | .ok _ => pure none

def main : Prog Unit := do
  let subscriptionID ← getenv "AZURE_SUBSCRIPTION_ID"
  if subscriptionID.length = 0 then
    logFatal "AZURE_SUBSCRIPTION_ID is not set."
  let err ← newDefaultAzureCredential
  fatalIf err
  let err ← newClient "armresources.NewClientFactory"
  fatalIf err
  let err ← newClient "armnetwork.NewClientFactory"
  fatalIf err
  let err ← newClient "armservicebus.NewClientFactory"
  fatalIf err
  let (resourceGroup, err) ← createResourceGroup subscriptionID
  fatalIf err
  logPrintln "resources group:" (← derefID resourceGroup)
  let (virtualNetwork, err) ← createVirtualNetwork subscriptionID
  fatalIf err
  logPrintln "virtual network:" (← derefID virtualNetwork)
  let (subnet, err) ← createSubnet subscriptionID
  fatalIf err
  logPrintln "subnet:" (← derefID subnet)
  let (sbNamespace, err) ← createNamespace subscriptionID
  fatalIf err
  logPrintln "service bus namespace:" (← derefID sbNamespace)
  let (namespaceAuthorizationRule, err) ← createNamespaceAuthorizationRule subscriptionID
  fatalIf err
  logPrintln "service bus namespace authorization rule:" (← derefID namespaceAuthorizationRule)
  let (namespaceNetworkRuleSet, err) ←
    createNamespaceNetworkRuleSet subscriptionID (← derefID subnet)
  fatalIf err
  logPrintln "service bus namespace network rule set:" (← derefID namespaceNetworkRuleSet)
  let keepResource ← getenv "KEEP_RESOURCE"
  if keepResource.length = 0 then
    let err ← cleanup subscriptionID
    fatalIf err
    logPrintln1 "cleaned up successfully."

end Servicebus

/-! ## web/staticsite/main.go -/

namespace Staticsite

def location : String := "westus"
def resourceGroupName : String := "sample-resource-group"
def appServicePlanName : String := "sample-web-plan"
def staticSiteName : String := "sample-static-site"

/-- Modelled from the spec: `main` calls `createWebApp` and `getAppConfiguration`, which
act on a web app, but no file of src/ declares them or the name of the web app.  The spec
identifies a managed resource "by a (resource-group, name) pair"; this is the name. -/
def webAppName : String := "sample-web-app"

def createAppServicePlanCall (subscriptionID : String) : Call :=
  { client := "armweb.AppServicePlansClient", method := "BeginCreateOrUpdate",
    subscriptionID := subscriptionID, args := [resourceGroupName, appServicePlanName],
    body := [("Resource.Location", .str location),
             ("Resource.Kind", .str "app"),
             ("SKU.Name", .str "S1"),
             ("SKU.Capacity", .int 1),
             ("SKU.Tier", .str "Standard"),
             ("Properties.PerSiteScaling", .bool false),
             ("Properties.IsXenon", .bool false)] }

/-- The request of `createStaticSite`; `token` is a variable the source uses without
declaring it, so it is a parameter here. -/
def createStaticSiteCall (subscriptionID token : String) : Call :=
  { client := "armweb.StaticSitesClient", method := "BeginCreateOrUpdateStaticSite",
    subscriptionID := subscriptionID, args := [resourceGroupName, staticSiteName],
    body := [("Resource.Location", .str location),
             ("SKU.Name", .str "Free"),
             ("Properties.RepositoryURL", .str "https://github.com/colawwj/azure-rest-api-specs"),
             ("Properties.Branch", .str "master"),
             ("Properties.RepositoryToken", .str token),
             ("Properties.BuildProperties.AppLocation", .str "app"),
             ("Properties.BuildProperties.APILocation", .str "api")] }

/-- Modelled from the spec: the request of the missing `createWebApp`, a create call of
the primary workflow scoped to the resource group, which consumes the identifier produced
by the earlier stage ("later steps consume identifiers produced by earlier ones"). -/
def createWebAppCall (subscriptionID appServicePlanID : String) : Call :=
  { client := "armweb.WebAppsClient", method := "BeginCreateOrUpdate",
    subscriptionID := subscriptionID, args := [resourceGroupName, webAppName],
    body := [("Properties.ServerFarmID", .str appServicePlanID)] }

/-- Modelled from the spec: the request of the missing `getAppConfiguration`, a read call
of the primary workflow scoped to the resource group. -/
def getAppConfigurationCall (subscriptionID : String) : Call :=
  { client := "armweb.WebAppsClient", method := "GetConfiguration",
    subscriptionID := subscriptionID, args := [resourceGroupName, webAppName] }

def createResourceGroupCall (subscriptionID : String) : Call :=
  { client := "armresources.ResourceGroupsClient", method := "CreateOrUpdate",
    subscriptionID := subscriptionID, args := [resourceGroupName],
    body := [("Location", .str location)] }

def cleanupCall (subscriptionID : String) : Call :=
  { client := "armresources.ResourceGroupsClient", method := "BeginDelete",
    subscriptionID := subscriptionID, args := [resourceGroupName] }

def createAppServicePlan (subscriptionID : String) : Prog GoPair := do
  match ← beginRequest (createAppServicePlanCall subscriptionID) with
  | .error err => pure (none, some err)
  | .ok pollerResp =>
  match ← pollUntilDone pollerResp with
  | .error err => pure (none, some err)
  | .ok resp => pure (some resp, none)

def createStaticSite (subscriptionID token : String) : Prog GoPair := do
  match ← beginRequest (createStaticSiteCall subscriptionID token) with
  | .error err => pure (none, some err)
  | .ok pollerResp =>
  match ← pollUntilDone pollerResp with
  | .error err => pure (none, some err)
  | .ok resp => pure (some resp, none)

/-- Modelled from the spec: `createWebApp` is called by `main` and declared nowhere in
src/.  By the spec every create call that is a long-running operation "must be followed by
a bounded-interval poll loop that blocks the calling stage until the operation reaches a
terminal state", and errors reach the caller unchanged. -/
def createWebApp (subscriptionID appServicePlanID : String) : Prog GoPair := do
  match ← beginRequest (createWebAppCall subscriptionID appServicePlanID) with
  | .error err => pure (none, some err)
  | .ok pollerResp =>
  match ← pollUntilDone pollerResp with
  | .error err => pure (none, some err)
  | .ok resp => pure (some resp, none)

/-- Modelled from the spec: `getAppConfiguration` is called by `main` and declared nowhere
in src/.  It is the read stage of the primary workflow: one synchronous read whose error
reaches the caller unchanged. -/
def getAppConfiguration (subscriptionID : String) : Prog GoPair := do
  match ← request (getAppConfigurationCall subscriptionID) with
  | .error err => pure (none, some err)
  | .ok resp => pure (some resp, none)

def createResourceGroup (subscriptionID : String) : Prog GoPair := do
  match ← request (createResourceGroupCall subscriptionID) with
  | .error err => pure (none, some err)
  | .ok resourceGroupResp => pure (some resourceGroupResp, none)

def cleanup (subscriptionID : String) : Prog GoRaw := do
  match ← beginRequest (cleanupCall subscriptionID) with
  | .error err => pure (none, some err)
  | .ok pollerResp =>
  match ← pollUntilDone pollerResp with
  | .error err => pure (none, some err)
  | .ok resp => pure (resp.rawStatus, none)

/-- The `main` of the sample; the teardown block is commented out in the source. -/
def main : Prog Unit := do
  let subscriptionID ← getenv "AZURE_SUBSCRIPTION_ID"
  if subscriptionID.length = 0 then
    logFatal "AZURE_SUBSCRIPTION_ID is not set."
  let err ← newDefaultAzureCredential
  fatalIf err
  let (resourceGroup, err) ← createResourceGroup subscriptionID
  fatalIf err
  logPrintln "resources group:" (← derefID resourceGroup)
  let (appServicePlan, err) ← createAppServicePlan subscriptionID
  fatalIf err
  logPrintln "app service plan:" (← derefID appServicePlan)
  let (webApp, err) ← createWebApp subscriptionID (← derefID appServicePlan)
  fatalIf err
  logPrintln "web app:" (← derefID webApp)
  let (appConfiguration, err) ← getAppConfiguration subscriptionID
  fatalIf err
  logPrintln "app configuration:" (← derefID appConfiguration)

end Staticsite

/-! ## The samples together -/

/-- The nine sample programs. -/
inductive Sample where
  | apimanagement
  | cdnManagement
  | cdnEndpoint
  | containerregistry
  | deployment
  | mysql
  | privatedns
  | servicebus
  | staticsite
  deriving DecidableEq, Repr

/-- The `main` of a sample. -/
def Sample.main : Sample → Prog Unit
  | .apimanagement => Apimanagement.main
  | .cdnManagement => CdnManagement.main
  | .cdnEndpoint => CdnEndpoint.main
  | .containerregistry => Containerregistry.main
  | .deployment => Deployment.main
  | .mysql => Mysql.main
  | .privatedns => Privatedns.main
  | .servicebus => Servicebus.main
  | .staticsite => Staticsite.main

/-- The resource-group ensure request of a sample. -/
def Sample.createResourceGroupCall : Sample → String → Call
  | .apimanagement => Apimanagement.createResourceGroupCall
  | .cdnManagement => CdnManagement.createResourceGroupCall
  | .cdnEndpoint => CdnEndpoint.createResourceGroupCall
  | .containerregistry => Containerregistry.createResourceGroupCall
  | .deployment => Deployment.createResourceGroupCall
  | .mysql => Mysql.createResourceGroupCall
  | .privatedns => Privatedns.createResourceGroupCall
  | .servicebus => Servicebus.createResourceGroupCall
  | .staticsite => Staticsite.createResourceGroupCall

/-- The resource-group delete request of the `cleanup` function of a sample. -/
def Sample.cleanupCall : Sample → String → Call
  | .apimanagement => Apimanagement.cleanupCall
  | .cdnManagement => CdnManagement.cleanupCall
  | .cdnEndpoint => CdnEndpoint.cleanupCall
  | .containerregistry => Containerregistry.cleanupCall
  | .deployment => Deployment.cleanupCall
  | .mysql => Mysql.cleanupCall
  | .privatedns => Privatedns.cleanupCall
  | .servicebus => Servicebus.cleanupCall
  | .staticsite => Staticsite.cleanupCall

/-- The `cleanup` function of a sample, with its result reduced to the error. -/
def Sample.cleanup : Sample → String → Prog (Option Err)
  | .apimanagement, sub => Prog.map Prod.snd (Apimanagement.cleanup sub)
  | .cdnManagement, sub => Prog.map Prod.snd (CdnManagement.cleanup sub)
  | .cdnEndpoint, sub => Prog.map Prod.snd (CdnEndpoint.cleanup sub)
  | .containerregistry, sub => Prog.map Prod.snd (Containerregistry.cleanup sub)
  | .deployment, sub => Prog.map Prod.snd (Deployment.cleanup sub)
  | .mysql, sub => Mysql.cleanup sub
  | .privatedns, sub => Privatedns.cleanup sub
  | .servicebus, sub => Servicebus.cleanup sub
  | .staticsite, sub => Prog.map Prod.snd (Staticsite.cleanup sub)

/-- The samples whose `main` contains the `KEEP_RESOURCE` block; in the other two the block
is commented out. -/
def Sample.hasTeardown : Sample → Bool
  | .apimanagement => false
  | .staticsite => false
  | _ => true

/-! ## Observations on traces -/

/-- The resource-group ensure request: `CreateOrUpdate` on the resource-groups client. -/
def isEnsureGroup (c : Call) : Bool :=
  c.client == "armresources.ResourceGroupsClient" && c.method == "CreateOrUpdate"

/-- The teardown request: `BeginDelete` on the resource-groups client. -/
def isTeardown (c : Call) : Bool :=
  c.client == "armresources.ResourceGroupsClient" && c.method == "BeginDelete"

/-- A request about a dependent resource: one sent through any other client than the
resource-groups client, whether it creates, reads, acts on or deletes the resource. -/
def isDependent (c : Call) : Bool :=
  c.client != "armresources.ResourceGroupsClient"

/-- The event is a remote operation that returned an error. -/
def Event.failed : Event → Bool
  | .call _ (some _) => true
  | .begin _ (some _) => true
  | .pollUntilDone _ _ (some _) => true
  | _ => false

/-- The event is a resource-group ensure that returned without error. -/
def Event.ensured : Event → Bool
  | .call c none => isEnsureGroup c
  | _ => false

/-- The event is a request about a dependent resource. -/
def Event.dependent : Event → Bool
  | .call c _ => isDependent c
  | .begin c _ => isDependent c
  | _ => false

/-- The event belongs to the teardown: the delete request or its poll. -/
def Event.teardown : Event → Bool
  | .call c _ => isTeardown c
  | .begin c _ => isTeardown c
  | .pollUntilDone c _ _ => isTeardown c
  | _ => false

/-- The event is a failed resource-group ensure whose error is not the printed cause of
a fatal exit `o`. -/
def Event.ensureErrorLost (o : Outcome) : Event → Bool
  | .call c (some e) => isEnsureGroup c && o != .halted (.fatal e)
  | _ => false

/-- Every event satisfying `q` has an event satisfying `p` somewhere before it. -/
def precededBy (p q : Event → Bool) : List Event → Bool
  | [] => true
  | e :: rest => !q e && (p e || precededBy p q rest)

/-- Every failed remote operation is the last event of the trace. -/
def failFast : List Event → Bool
  | [] => true
  | e :: rest => (!e.failed || rest.isEmpty) && failFast rest

/-- A remote operation without its arguments: client, method, and whether the event is
the poll of the operation rather than its start. -/
structure Op where
  client : String
  method : String
  poll : Bool
  deriving DecidableEq, Repr

/-- The remote operation of an event, if it is one. -/
def Event.op : Event → Option Op
  | .call c _ => some ⟨c.client, c.method, false⟩
  | .begin c _ => some ⟨c.client, c.method, false⟩
  | .pollUntilDone c _ _ => some ⟨c.client, c.method, true⟩
  | _ => none

/-- The remote operations of a trace, in order. -/
def ops (tr : List Event) : List Op := tr.filterMap Event.op

/-- A payload with every pointer set. -/
def fullPayload : Payload :=
  { id := some "/id", rawStatus := some "200 OK", success := true,
    ssoURIValue := some "https://sso", rendered := "\x7b\x7d" }

/-- The world in which everything succeeds at once and no environment variable but the
subscription is set. -/
def happy : World :=
  { getenv := fun n => if n = "AZURE_SUBSCRIPTION_ID" then "sub" else ""
    credential := none
    newClient := fun _ => none
    request := fun _ _ => .ok fullPayload
    beginRequest := fun _ _ => .ok (0, .ok fullPayload)
    readFile := fun _ => .ok "\x7b\x7d"
    unmarshalMap := fun _ => .ok [] }

/-- The remote operations of the fully successful run of a sample, teardown included
where the sample has one: the operations of the sample in program order. -/
def script (s : Sample) : List Op := ops (run s.main happy).2

/-- Every `Begin*` request that returned without error is followed at once by
`PollUntilDone` on the operation it started, and the run goes on after that poll only if
the poll returned no error and its last report was "succeeded". -/
def polled : List Event → Bool
  | [] => true
  | .begin c none :: rest =>
    (match rest with
     | .pollUntilDone c1 reports err :: rest1 =>
       c1 == c && (rest1.isEmpty || (err.isNone && reports.getLast? == some .succeeded))
     | _ => false) && polled rest
  | _ :: rest => polled rest

/-- A request that deletes something: the `BeginDelete` of a client, or the `BeginPurge`
of the deleted-services client (which the source calls through `deleteService`). -/
def isDelete (c : Call) : Bool :=
  c.method == "BeginDelete" || c.method == "BeginPurge"

/-- The request of an event, for the events that send one. -/
def Event.request : Event → Option Call
  | .call c _ => some c
  | .begin c _ => some c
  | _ => none

/-- The delete requests of a trace, in order. -/
def deletes (tr : List Event) : List Call := (tr.filterMap Event.request).filter isDelete

/-- What every run of a sample satisfies; `r` is the result of `main` from the empty
history in the world `w`. -/
@[mk_iff]
structure Checked (s : Sample) (w : World) (r : Res Unit) : Prop where
  ensureFirst : precededBy Event.ensured Event.dependent r.trace = true
  failFast : failFast r.trace = true
  failedExit : r.trace.any Event.failed = true → r.outcome.status = 1
  ensureCause : r.trace.any (Event.ensureErrorLost r.outcome) = false
  scripted : ops r.trace <+: script s
  kept : (w.getenv "KEEP_RESOURCE").length ≠ 0 → r.trace.any Event.teardown = false
  polled : polled r.trace = true
  deletes : ∀ c ∈ deletes r.trace,
    c = s.cleanupCall (w.getenv "AZURE_SUBSCRIPTION_ID") ∨
      (s = .apimanagement ∧
        c = Apimanagement.deleteServiceCall (w.getenv "AZURE_SUBSCRIPTION_ID"))
  noTeardown : s.hasTeardown = false → r.trace.any Event.teardown = false

/-! ## The helper functions -/

/-- A helper function of a sample that sends a request through the SDK: its name, whether
it starts a long-running operation and polls it (otherwise it sends one synchronous
request), the client constructor that may fail before the request (only the mysql sample
checks one), the request, and the function itself with its result reduced to a pair:
whether the first result is non-zero (a non-nil pointer, or `true`), and the error. -/
structure Helper where
  name : String
  lro : Bool
  guard : Option String
  call : Call
  prog : Prog (Bool × Option Err)

/-- Reduction of a `(*T, error)` result. -/
def pairResult (p : Prog GoPair) : Prog (Bool × Option Err) :=
  Prog.map (fun r => (r.1.isSome, r.2)) p

/-- Reduction of a `(*http.Response, error)` result. -/
def rawResult (p : Prog GoRaw) : Prog (Bool × Option Err) :=
  Prog.map (fun r => (r.1.isSome, r.2)) p

/-- Reduction of an `error` result. -/
def errResult (p : Prog (Option Err)) : Prog (Bool × Option Err) :=
  Prog.map (fun e => (false, e)) p

/-- Reduction of a `(bool, error)` result. -/
def boolResult (p : Prog (Bool × Option Err)) : Prog (Bool × Option Err) := p

/-- Every helper function of every sample, for given values of the subscription and of
the parameters that some helpers take: a resource identifier, the repository token, the
template and the parameters of a deployment. -/
def helpers (sub resourceID token : String) (template params : JsonMap) : List Helper :=
  [
    { name := "Apimanagement.deleteService", lro := true, guard := none,
      call := Apimanagement.deleteServiceCall sub,
      prog := rawResult (Apimanagement.deleteService sub) },
    { name := "Apimanagement.createApiManagementService", lro := true, guard := none,
      call := Apimanagement.createApiManagementServiceCall sub,
      prog := pairResult (Apimanagement.createApiManagementService sub) },
    { name := "Apimanagement.deleteApiManagementService", lro := true, guard := none,
      call := Apimanagement.deleteApiManagementServiceCall sub,
      prog := pairResult (Apimanagement.deleteApiManagementService sub) },
    { name := "Apimanagement.createResourceGroup", lro := false, guard := none,
      call := Apimanagement.createResourceGroupCall sub,
      prog := pairResult (Apimanagement.createResourceGroup sub) },
    { name := "Apimanagement.cleanup", lro := true, guard := none,
      call := Apimanagement.cleanupCall sub,
      prog := rawResult (Apimanagement.cleanup sub) },
    { name := "CdnManagement.createProfile", lro := true, guard := none,
      call := CdnManagement.createProfileCall sub,
      prog := pairResult (CdnManagement.createProfile sub) },
    { name := "CdnManagement.generateSsoURI", lro := false, guard := none,
      call := CdnManagement.generateSsoURICall sub,
      prog := pairResult (CdnManagement.generateSsoURI sub) },
    { name := "CdnManagement.createResourceGroup", lro := false, guard := none,
      call := CdnManagement.createResourceGroupCall sub,
      prog := pairResult (CdnManagement.createResourceGroup sub) },
    { name := "CdnManagement.cleanup", lro := true, guard := none,
      call := CdnManagement.cleanupCall sub,
      prog := rawResult (CdnManagement.cleanup sub) },
    { name := "CdnEndpoint.createProfile", lro := true, guard := none,
      call := CdnEndpoint.createProfileCall sub,
      prog := pairResult (CdnEndpoint.createProfile sub) },
    { name := "CdnEndpoint.createEndpoint", lro := true, guard := none,
      call := CdnEndpoint.createEndpointCall sub,
      prog := pairResult (CdnEndpoint.createEndpoint sub) },
    { name := "CdnEndpoint.purgeContent", lro := true, guard := none,
      call := CdnEndpoint.purgeContentCall sub,
      prog := rawResult (CdnEndpoint.purgeContent sub) },
    { name := "CdnEndpoint.startEndpoint", lro := true, guard := none,
      call := CdnEndpoint.startEndpointCall sub,
      prog := pairResult (CdnEndpoint.startEndpoint sub) },
    { name := "CdnEndpoint.stopEndpoint", lro := true, guard := none,
      call := CdnEndpoint.stopEndpointCall sub,
      prog := pairResult (CdnEndpoint.stopEndpoint sub) },
    { name := "CdnEndpoint.createResourceGroup", lro := false, guard := none,
      call := CdnEndpoint.createResourceGroupCall sub,
      prog := pairResult (CdnEndpoint.createResourceGroup sub) },
    { name := "CdnEndpoint.cleanup", lro := true, guard := none,
      call := CdnEndpoint.cleanupCall sub,
      prog := rawResult (CdnEndpoint.cleanup sub) },
    { name := "Containerregistry.createRegistry", lro := true, guard := none,
      call := Containerregistry.createRegistryCall sub,
      prog := pairResult (Containerregistry.createRegistry sub) },
    { name := "Containerregistry.createReplication", lro := true, guard := none,
      call := Containerregistry.createReplicationCall sub,
      prog := pairResult (Containerregistry.createReplication sub) },
    { name := "Containerregistry.getReplication", lro := false, guard := none,
      call := Containerregistry.getReplicationCall sub,
      prog := pairResult (Containerregistry.getReplication sub) },
    { name := "Containerregistry.createResourceGroup", lro := false, guard := none,
      call := Containerregistry.createResourceGroupCall sub,
      prog := pairResult (Containerregistry.createResourceGroup sub) },
    { name := "Containerregistry.cleanup", lro := true, guard := none,
      call := Containerregistry.cleanupCall sub,
      prog := rawResult (Containerregistry.cleanup sub) },
    { name := "Deployment.checkExistDeployment", lro := false, guard := none,
      call := Deployment.checkExistDeploymentCall sub,
      prog := boolResult (Deployment.checkExistDeployment sub) },
    { name := "Deployment.createDeployment", lro := true, guard := none,
      call := Deployment.createDeploymentCall sub template params,
      prog := pairResult (Deployment.createDeployment sub template params) },
    { name := "Deployment.validateDeployment", lro := true, guard := none,
      call := Deployment.validateDeploymentCall sub template params,
      prog := pairResult (Deployment.validateDeployment sub template params) },
    { name := "Deployment.createResourceGroup", lro := false, guard := none,
      call := Deployment.createResourceGroupCall sub,
      prog := pairResult (Deployment.createResourceGroup sub) },
    { name := "Deployment.cleanup", lro := true, guard := none,
      call := Deployment.cleanupCall sub,
      prog := rawResult (Deployment.cleanup sub) },
    { name := "Mysql.createServer", lro := true, guard := some "armmysql.NewServersClient",
      call := Mysql.createServerCall sub,
      prog := pairResult (Mysql.createServer sub) },
    { name := "Mysql.getServer", lro := false, guard := some "armmysql.NewServersClient",
      call := Mysql.getServerCall sub,
      prog := pairResult (Mysql.getServer sub) },
    { name := "Mysql.createResourceGroup", lro := false, guard := some "armresources.NewResourceGroupsClient",
      call := Mysql.createResourceGroupCall sub,
      prog := pairResult (Mysql.createResourceGroup sub) },
    { name := "Mysql.cleanup", lro := true, guard := some "armresources.NewResourceGroupsClient",
      call := Mysql.cleanupCall sub,
      prog := errResult (Mysql.cleanup sub) },
    { name := "Privatedns.createPrivateZone", lro := true, guard := none,
      call := Privatedns.createPrivateZoneCall sub,
      prog := pairResult (Privatedns.createPrivateZone sub) },
    { name := "Privatedns.createResourceGroup", lro := false, guard := none,
      call := Privatedns.createResourceGroupCall sub,
      prog := pairResult (Privatedns.createResourceGroup sub) },
    { name := "Privatedns.cleanup", lro := true, guard := none,
      call := Privatedns.cleanupCall sub,
      prog := errResult (Privatedns.cleanup sub) },
    { name := "Servicebus.createVirtualNetwork", lro := true, guard := none,
      call := Servicebus.createVirtualNetworkCall sub,
      prog := pairResult (Servicebus.createVirtualNetwork sub) },
    { name := "Servicebus.createSubnet", lro := true, guard := none,
      call := Servicebus.createSubnetCall sub,
      prog := pairResult (Servicebus.createSubnet sub) },
    { name := "Servicebus.createNamespace", lro := true, guard := none,
      call := Servicebus.createNamespaceCall sub,
      prog := pairResult (Servicebus.createNamespace sub) },
    { name := "Servicebus.createNamespaceAuthorizationRule", lro := false, guard := none,
      call := Servicebus.createNamespaceAuthorizationRuleCall sub,
      prog := pairResult (Servicebus.createNamespaceAuthorizationRule sub) },
    { name := "Servicebus.createNamespaceNetworkRuleSet", lro := false, guard := none,
      call := Servicebus.createNamespaceNetworkRuleSetCall sub resourceID,
      prog := pairResult (Servicebus.createNamespaceNetworkRuleSet sub resourceID) },
    { name := "Servicebus.createResourceGroup", lro := false, guard := none,
      call := Servicebus.createResourceGroupCall sub,
      prog := pairResult (Servicebus.createResourceGroup sub) },
    { name := "Servicebus.cleanup", lro := true, guard := none,
      call := Servicebus.cleanupCall sub,
      prog := errResult (Servicebus.cleanup sub) },
    { name := "Staticsite.createAppServicePlan", lro := true, guard := none,
      call := Staticsite.createAppServicePlanCall sub,
      prog := pairResult (Staticsite.createAppServicePlan sub) },
    { name := "Staticsite.createStaticSite", lro := true, guard := none,
      call := Staticsite.createStaticSiteCall sub token,
      prog := pairResult (Staticsite.createStaticSite sub token) },
    { name := "Staticsite.createWebApp", lro := true, guard := none,
      call := Staticsite.createWebAppCall sub resourceID,
      prog := pairResult (Staticsite.createWebApp sub resourceID) },
    { name := "Staticsite.getAppConfiguration", lro := false, guard := none,
      call := Staticsite.getAppConfigurationCall sub,
      prog := pairResult (Staticsite.getAppConfiguration sub) },
    { name := "Staticsite.createResourceGroup", lro := false, guard := none,
      call := Staticsite.createResourceGroupCall sub,
      prog := pairResult (Staticsite.createResourceGroup sub) },
    { name := "Staticsite.cleanup", lro := true, guard := none,
      call := Staticsite.cleanupCall sub,
      prog := rawResult (Staticsite.cleanup sub) } ]

/-! ## The shapes of the helper functions

The helper functions of the samples are copies of a few shapes that differ in the request
and in what they return.  Each helper function is equal, by unfolding, to its shape applied
to its request, which lets a fact be proved once for all the helpers of a shape. -/

/-- A long-running operation returning the model of the resource. -/
def Shape.lroPair (c : Call) : Prog GoPair := do
  match ← beginRequest c with
  | .error err => pure (none, some err)
  | .ok pollerResp =>
  match ← pollUntilDone pollerResp with
  | .error err => pure (none, some err)
  | .ok resp => pure (some resp, none)

/-- A long-running operation returning the raw HTTP response. -/
def Shape.lroRaw (c : Call) : Prog GoRaw := do
  match ← beginRequest c with
  | .error err => pure (none, some err)
  | .ok pollerResp =>
  match ← pollUntilDone pollerResp with
  | .error err => pure (none, some err)
  | .ok resp => pure (resp.rawStatus, none)

/-- A long-running operation returning only an error. -/
def Shape.lroErr (c : Call) : Prog (Option Err) := do
  match ← beginRequest c with
  | .error err => pure (some err)
  | .ok pollerResp =>
  match ← pollUntilDone pollerResp with
  | .error err => pure (some err)
  | .ok _ => pure none

/-- A synchronous request returning the model of the resource. -/
def Shape.syncPair (c : Call) : Prog GoPair := do
  match ← request c with
  | .error err => pure (none, some err)
  | .ok resp => pure (some resp, none)

/-- A helper that builds its client first and returns the constructor's error. -/
def Shape.guardedPair (g : String) (p : Prog GoPair) : Prog GoPair := do
  match ← newClient g with
  | some err => pure (none, some err)
  | none => p

/-- A helper returning only an error that builds its client first. -/
def Shape.guardedErr (g : String) (p : Prog (Option Err)) : Prog (Option Err) := do
  match ← newClient g with
  | some err => pure (some err)
  | none => p

/-- The contract of a helper that starts a long-running operation with the request `c`,
from the history `tr` in the world `w`.  If the begin request fails, nothing else is sent
and the helper returns a zero result with an error.  If it succeeds, the next and last
event is `PollUntilDone` on the operation that the request started, receiving the reports
of that operation; the helper returns a nil error exactly when the operation ended well,
and a zero result with an error otherwise. -/
def LroContract (c : Call) (prog : Prog (Bool × Option Err)) (w : World) (tr : List Event) :
    Prop :=
  (∀ e, w.beginRequest tr c = .error e →
    ∃ e1, prog w tr = .ok (false, some e1) (tr ++ [Event.begin c (some e)])) ∧
  (∀ n r, w.beginRequest tr c = .ok (n, .ok r) →
    ∃ b, prog w tr = .ok (b, none)
      (tr ++ [Event.begin c none, Event.pollUntilDone c (pollLoop n (.ok r)) none])) ∧
  (∀ n e, w.beginRequest tr c = .ok (n, .error e) →
    ∃ e1, prog w tr = .ok (false, some e1)
      (tr ++ [Event.begin c none, Event.pollUntilDone c (pollLoop n (.error e)) (some e)]))

/-- The helper returns the error of the SDK unchanged, with a zero result: the error of
its client constructor, of its synchronous request, of its begin request or of its poll. -/
def Verbatim (h : Helper) (w : World) (tr : List Event) : Prop :=
  (∀ g e, h.guard = some g → w.newClient g = some e → h.prog w tr = .ok (false, some e) tr) ∧
  ((∀ g, h.guard = some g → w.newClient g = none) →
    (h.lro = false → ∀ e, w.request tr h.call = .error e →
      h.prog w tr = .ok (false, some e) (tr ++ [Event.call h.call (some e)])) ∧
    (h.lro = true → ∀ e, w.beginRequest tr h.call = .error e →
      h.prog w tr = .ok (false, some e) (tr ++ [Event.begin h.call (some e)])) ∧
    (h.lro = true → ∀ n e, w.beginRequest tr h.call = .ok (n, .error e) →
      h.prog w tr = .ok (false, some e)
        (tr ++ [Event.begin h.call none,
                Event.pollUntilDone h.call (pollLoop n (.error e)) (some e)])))

/-! ## Teardown -/

/-- Every pointer that a sample dereferences in a response is set. -/
def Payload.complete (p : Payload) : Prop :=
  p.id ≠ none ∧ p.rawStatus ≠ none ∧ p.ssoURIValue ≠ none

/-- Every stage before the teardown succeeds in the world `w`: the subscription is
configured, the credential and the clients can be built, the local files can be read and
parsed, and the provider answers every request other than the resource-group delete with
success and a complete response, every long-running operation ending well. -/
structure PrimarySucceeds (w : World) : Prop where
  subscription : w.getenv "AZURE_SUBSCRIPTION_ID" ≠ ""
  credential : w.credential = none
  newClient : ∀ n, w.newClient n = none
  request : ∀ tr c, ∃ p, w.request tr c = .ok p ∧ p.complete
  beginRequest : ∀ tr c, isTeardown c = false →
    ∃ n p, w.beginRequest tr c = .ok (n, .ok p) ∧ p.complete
  readFile : ∀ path, ∃ d, w.readFile path = .ok d
  unmarshalMap : ∀ d, ∃ m, w.unmarshalMap d = .ok m

/-- The operations of the primary workflow of a sample in program order: the script
without the resource-group delete and its poll. -/
def primary (s : Sample) : List Op :=
  (script s).filter
    (fun o => !(o.client == "armresources.ResourceGroupsClient" && o.method == "BeginDelete"))

/-- The part of a trace before its first teardown event. -/
def beforeTeardown (tr : List Event) : List Event := tr.takeWhile (fun e => !e.teardown)

/-- The part of a trace from its first teardown event on. -/
def fromTeardown (tr : List Event) : List Event := tr.dropWhile (fun e => !e.teardown)

/-- The event is the begin request `c`. -/
def Event.begins (c : Call) : Event → Bool
  | .begin c1 _ => c1 == c
  | _ => false

/-- The trace contains the whole primary workflow without a failure, then the
resource-group delete request of the sample, and after it no other request. -/
def TornDownOnce (s : Sample) (sub : String) (tr : List Event) : Prop :=
  ops (beforeTeardown tr) = primary s ∧
  (beforeTeardown tr).any Event.failed = false ∧
  (fromTeardown tr).head?.any (Event.begins (s.cleanupCall sub)) = true ∧
  (fromTeardown tr).tail.all (fun x => x.request.isNone) = true

/-! ## Some concrete worlds -/

/-- A world in which the provider turns every synchronous request down. -/
def denied : World :=
  { happy with request := fun _ _ => .error "AuthorizationFailed" }

/-- A world in which the provider accepts synchronous requests and refuses to start any
long-running operation. -/
def refusing : World :=
  { happy with beginRequest := fun _ _ => .error "Conflict" }

/-- The successful world with `KEEP_RESOURCE` set. -/
def keeping : World :=
  { happy with
    getenv := fun n => if n = "KEEP_RESOURCE" then "true" else happy.getenv n }

/-- A world without `AZURE_SUBSCRIPTION_ID`. -/
def unconfigured : World :=
  { happy with getenv := fun _ => "" }

/-- The successful world in which the creation of the server of the mysql sample (and
every other long-running operation) reports "running" `n` times before it succeeds. -/
def simulated (n : Nat) : World :=
  { happy with beginRequest := fun _ _ => .ok (n, .ok fullPayload) }

/-! ## JSON texts, as `encoding/json` reads them into a map -/

/-- A JSON value (RFC 8259).  Numbers and strings are kept by their text as written. -/
inductive Json where
  | null
  | bool (b : Bool)
  | number (text : String)
  | string (text : String)
  | array (items : List Json)
  | object (members : List (String × Json))

/-- The six kinds of JSON value. -/
inductive JsonKind where
  | null
  | bool
  | number
  | string
  | array
  | object
  deriving DecidableEq, Repr

namespace Json

/-- The kind of a value. -/
def kind : Json → JsonKind
  | .null => .null
  | .bool _ => .bool
  | .number _ => .number
  | .string _ => .string
  | .array _ => .array
  | .object _ => .object

/-- The string delimiter. -/
def quote : Char := Char.ofNat 34

/-- The escape character. -/
def backslash : Char := Char.ofNat 92

/-- Drops insignificant white space: space, tab, line feed, carriage return. -/
def skipWs : List Char → List Char
  | [] => []
  | c :: cs => if c = ' ' ∨ c = '\t' ∨ c = '\n' ∨ c = '\r' then skipWs cs else c :: cs

/-- A hexadecimal digit. -/
def isHex (c : Char) : Bool :=
  c.isDigit || (97 ≤ c.toNat && c.toNat ≤ 102) || (65 ≤ c.toNat && c.toNat ≤ 70)

/-- Where the scanner is inside a string: in plain text, right after a backslash, or
inside the four hexadecimal digits of a `\u` escape with `left` digits to come. -/
inductive StrState where
  | plain
  | escaped
  | hex (left : Nat)

/-- Scans a string after its opening quote: the text up to the closing quote, escapes kept
as written, and the input after the closing quote.  Control characters must be escaped. -/
def stringBody : StrState → List Char → List Char → Option (String × List Char)
  | _, _, [] => none
  | .plain, acc, c :: cs =>
    if c = quote then some (String.mk acc.reverse, cs)
    else if c = backslash then stringBody .escaped (c :: acc) cs
    else if c.toNat < 32 then none
    else stringBody .plain (c :: acc) cs
  | .escaped, acc, c :: cs =>
    if c = 'u' then stringBody (.hex 4) (c :: acc) cs
    else if c = quote ∨ c = backslash ∨ c = '/' ∨ c = 'b' ∨ c = 'f' ∨ c = 'n' ∨ c = 'r'
        ∨ c = 't' then
      stringBody .plain (c :: acc) cs
    else none
  | .hex left, acc, c :: cs =>
    if isHex c then stringBody (if left ≤ 1 then .plain else .hex (left - 1)) (c :: acc) cs
    else none

/-- The integer part of a number: a single `0`, or a non-zero digit followed by digits. -/
def intPart : List Char → Option (List Char × List Char)
  | [] => none
  | c :: cs =>
    if c = '0' then some ([c], cs)
    else if c.isDigit then some (c :: cs.takeWhile Char.isDigit, cs.dropWhile Char.isDigit)
    else none

/-- The optional fraction of a number: a point followed by at least one digit. -/
def fracPart : List Char → Option (List Char × List Char)
  | [] => some ([], [])
  | c :: cs =>
    if c = '.' then
      if (cs.takeWhile Char.isDigit).isEmpty then none
      else some (c :: cs.takeWhile Char.isDigit, cs.dropWhile Char.isDigit)
    else some ([], c :: cs)

/-- The digits of an exponent, at least one. -/
def expDigits (pre cs : List Char) : Option (List Char × List Char) :=
  if (cs.takeWhile Char.isDigit).isEmpty then none
  else some (pre ++ cs.takeWhile Char.isDigit, cs.dropWhile Char.isDigit)

/-- The optional exponent of a number: `e` or `E`, an optional sign, digits. -/
def expPart : List Char → Option (List Char × List Char)
  | [] => some ([], [])
  | c :: cs =>
    if c = 'e' ∨ c = 'E' then
      match cs with
      | [] => none
      | s :: ds => if s = '+' ∨ s = '-' then expDigits [c, s] ds else expDigits [c] (s :: ds)
    else some ([], c :: cs)

/-- Scans a number: optional minus, integer part, optional fraction, optional exponent. -/
def number? (cs : List Char) : Option (String × List Char) :=
  let signed : List Char × List Char :=
    match cs with
    | c :: r => if c = '-' then ([c], r) else ([], c :: r)
    | [] => ([], [])
  match intPart signed.2 with
  | none => none
  | some (i, r1) =>
    match fracPart r1 with
    | none => none
    | some (f, r2) =>
      match expPart r2 with
      | none => none
      | some (e, r3) => some (String.mk (signed.1 ++ i ++ f ++ e), r3)

/-- Scans one of the literal names `null`, `true`, `false`. -/
def literal? (cs : List Char) : Option (Json × List Char) :=
  if "null".toList.isPrefixOf cs then some (.null, cs.drop 4)
  else if "true".toList.isPrefixOf cs then some (.bool true, cs.drop 4)
  else if "false".toList.isPrefixOf cs then some (.bool false, cs.drop 5)
  else none

mutual
/-- Reads one value, white space before it allowed; `fuel` bounds the number of nested
and successive values read. -/
def value? : Nat → List Char → Option (Json × List Char)
  | 0, _ => none
  | fuel + 1, cs =>
    match skipWs cs with
    | [] => none
    | c :: r =>
      if c = '{' then
        match skipWs r with
        | [] => none
        | d :: r1 => if d = '}' then some (.object [], r1) else members? fuel (d :: r1) []
      else if c = '[' then
        match skipWs r with
        | [] => none
        | d :: r1 => if d = ']' then some (.array [], r1) else elements? fuel (d :: r1) []
      else if c = quote then
        match stringBody .plain [] r with
        | none => none
        | some (s, r1) => some (.string s, r1)
      else if c = '-' ∨ c.isDigit then
        match number? (c :: r) with
        | none => none
        | some (n, r1) => some (.number n, r1)
      else literal? (c :: r)
/-- Reads the elements of an array after its opening bracket, up to the closing one. -/
def elements? : Nat → List Char → List Json → Option (Json × List Char)
  | 0, _, _ => none
  | fuel + 1, cs, acc =>
    match value? fuel cs with
    | none => none
    | some (v, r) =>
      match skipWs r with
      | [] => none
      | c :: r1 =>
        if c = ',' then elements? fuel r1 (v :: acc)
        else if c = ']' then some (.array (v :: acc).reverse, r1)
        else none
/-- Reads the members of an object after its opening brace, up to the closing one. -/
def members? : Nat → List Char → List (String × Json) → Option (Json × List Char)
  | 0, _, _ => none
  | fuel + 1, cs, acc =>
    match skipWs cs with
    | [] => none
    | q :: r =>
      if q = quote then
        match stringBody .plain [] r with
        | none => none
        | some (k, r1) =>
          match skipWs r1 with
          | [] => none
          | c :: r2 =>
            if c = ':' then
              match value? fuel r2 with
              | none => none
              | some (v, r3) =>
                match skipWs r3 with
                | [] => none
                | d :: r4 =>
                  if d = ',' then members? fuel r4 ((k, v) :: acc)
                  else if d = '}' then some (.object ((k, v) :: acc).reverse, r4)
                  else none
            else none
      else none
end

/-- Reads a whole JSON text: one value with white space around it and nothing else.  Every
value read consumes a character, so twice the length of the text is fuel enough. -/
def parse (text : String) : Option Json :=
  match value? (2 * text.length + 2) text.toList with
  | none => none
  | some (v, r) => if (skipWs r).isEmpty then some v else none

/-- Whether a text is well-formed JSON. -/
def wellFormed (text : String) : Bool := (parse text).isSome

mutual
/-- The compact text of a value. -/
def render : Json → String
  | .null => "null"
  | .bool b => toString b
  | .number t => t
  | .string t => String.mk [quote] ++ t ++ String.mk [quote]
  | .array items => "[" ++ renderItems items ++ "]"
  | .object members => "\x7b" ++ renderMembers members ++ "\x7d"
/-- The elements of an array, separated by commas. -/
def renderItems : List Json → String
  | [] => ""
  | [v] => render v
  | v :: vs => render v ++ "," ++ renderItems vs
/-- The members of an object, separated by commas. -/
def renderMembers : List (String × Json) → String
  | [] => ""
  | [(k, v)] => String.mk [quote] ++ k ++ String.mk [quote] ++ ":" ++ render v
  | (k, v) :: ms =>
    String.mk [quote] ++ k ++ String.mk [quote] ++ ":" ++ render v ++ "," ++ renderMembers ms
end

/-- A model of `json.Unmarshal(data, &m)` for a non-nil `map[string]interface{}` target,
after the documentation of `encoding/json`: a text that is not valid JSON is a syntax error;
a JSON object fills the map; JSON null leaves no entries and is no error; any other value
cannot be stored in a map and is an `UnmarshalTypeError`.  The limits of the library on the
nesting depth and on the range of numbers are left out. -/
def unmarshalMap (data : String) : Except Err JsonMap :=
  match parse data with
  | none => .error "invalid character or unexpected end of JSON input"
  | some (.object members) => .ok (members.map (fun kv => (kv.1, render kv.2)))
  | some .null => .ok []
  | some (.bool _) =>
    .error "json: cannot unmarshal bool into Go value of type map[string]interface \x7b\x7d"
  | some (.number _) =>
    .error "json: cannot unmarshal number into Go value of type map[string]interface \x7b\x7d"
  | some (.string _) =>
    .error "json: cannot unmarshal string into Go value of type map[string]interface \x7b\x7d"
  | some (.array _) =>
    .error "json: cannot unmarshal array into Go value of type map[string]interface \x7b\x7d"

end Json

/-! ## services/cognitiveservices/customsearch.go -/

namespace Cognitiveservices

/-- A `customsearch.CustomInstanceClient` as far as the file sets it up: the key its
authorizer was built from and the text added to its user agent. -/
structure CustomInstanceClient where
  authorizer : String
  userAgent : String
  deriving DecidableEq, Repr

/-- A parameter that is nil or an integer, as a field of the request if it is set. -/
def optInt (name : String) (v : Option Int) : List (String × Field) :=
  match v with
  | some n => [(name, .int n)]
  | none => []

/-- A parameter that is nil or a boolean, as a field of the request if it is set. -/
def optBool (name : String) (v : Option Bool) : List (String × Field) :=
  match v with
  | some b => [(name, .bool b)]
  | none => []

/-- The request of `CustomInstanceClient.Search`, with the parameters in the order of the
source; the client is not built for a subscription. -/
def searchCall (client : CustomInstanceClient) (customConfig query acceptLanguage userAgent
    clientID clientIP location countryCode : String) (count : Option Int) (market : String)
    (offset : Option Int) (safeSearch setLang : String) (textDecorations : Option Bool)
    (textFormat : String) : Call :=
  { client := "customsearch.CustomInstanceClient", method := "Search",
    subscriptionID := "", args := [customConfig, query],
    body := [("Authorizer", .str client.authorizer),
             ("AddToUserAgent", .str client.userAgent),
             ("Accept-Language", .str acceptLanguage),
             ("User-Agent", .str userAgent),
             ("X-MSEdge-ClientID", .str clientID),
             ("X-MSEdge-ClientIP", .str clientIP),
             ("X-Search-Location", .str location),
             ("countryCode", .str countryCode)]
            ++ optInt "count" count ++ [("market", .str market)] ++ optInt "offset" offset
            ++ [("safeSearch", .enum safeSearch), ("setLang", .str setLang)]
            ++ optBool "textDecorations" textDecorations
            ++ [("textFormat", .enum textFormat)] }

/-- The function `getCustomSearchClient`.  `getFirstKey` and `config.UserAgent` are
declared in files of the repository that src/ does not hold, so both are parameters: pieces
of program that may do anything before they return their string. -/
def getCustomSearchClient (getFirstKey : String → Prog String) (configUserAgent : Prog String)
    (accountName : String) : Prog CustomInstanceClient := do
  let apiKey ← getFirstKey accountName
  let csAuthorizer := apiKey
  let extension ← configUserAgent
  pure { authorizer := csAuthorizer, userAgent := extension }

/-- The function `CustomSearch`: the pair `(*customsearch.WebWebAnswer, error)`. -/
def CustomSearch (getFirstKey : String → Prog String) (configUserAgent : Prog String)
    (accountName : String) : Prog (Option String × Option Err) := do
  let customSearchClient ← getCustomSearchClient getFirstKey configUserAgent accountName
  let query := "Xbox"
  let customConfig := ""
  match ← request (searchCall customSearchClient customConfig query "" "" "" "" "" "" none ""
      none "customsearch.Strict" "" none "customsearch.Raw") with
  | .error err => pure (none, some err)
  | .ok searchResponse => pure (searchResponse.webPages, none)

end Cognitiveservices

/-! ## Further observations on runs -/

/-- The value a piece of program returned, if it returned. -/
def Res.value? {α : Type} : Res α → Option α
  | .ok a _ => some a
  | .halt _ _ => none

/-- The requests of a trace with their arguments, in order. -/
def requests (tr : List Event) : List Call := tr.filterMap Event.request

/-- Whether an event is a printed line. -/
def Event.isLog : Event → Bool
  | .log _ => true
  | _ => false

/-- What the provider can have seen of a run: every event but the printed lines. -/
def remote (tr : List Event) : List Event := tr.filter (fun e => !e.isLog)

/-- The printed lines of a trace, in order. -/
def logs (tr : List Event) : List String :=
  tr.filterMap (fun e => match e with
    | .log line => some line
    | _ => none)

/-- The start of the operation `method` of `client`. -/
def Event.starts (client method : String) : Event → Bool
  | .call c _ => c.client == client && c.method == method
  | .begin c _ => c.client == client && c.method == method
  | _ => false

/-- The poll of the operation `method` of `client` returned success. -/
def Event.pollSucceeded (client method : String) : Event → Bool
  | .pollUntilDone c reports none =>
    c.client == client && c.method == method && reports.getLast? == some .succeeded
  | _ => false

/-- The world `w` with every successful response passed through `f`, which sees the request
it answers.  Which requests fail, with what error, and how often an operation reports
"running" stay as in `w`. -/
def World.mapResponses (f : Call → Payload → Payload) (w : World) : World :=
  { w with
    request := fun tr c =>
      match w.request tr c with
      | .ok p => .ok (f c p)
      | .error e => .error e
    beginRequest := fun tr c =>
      match w.beginRequest tr c with
      | .ok (n, .ok p) => .ok (n, .ok (f c p))
      | .ok (n, .error e) => .ok (n, .error e)
      | .error e => .error e }

/-- The world `w` with a provider that does not see what the program prints: it answers
from the remote events of the history only. -/
def World.blind (w : World) : World :=
  { w with
    request := fun tr c => w.request (remote tr) c
    beginRequest := fun tr c => w.beginRequest (remote tr) c }

/-- The key under which the provider keeps a resource: the client of the resource type,
the subscription and the names (resource group first). -/
def Call.key (c : Call) : String × String × List String := (c.client, c.subscriptionID, c.args)

/-- A provider that echoes a stored resource by key: whenever `w` answers with success,
the resource handed back is the one `store` keeps under the key of the request. -/
def echo (store : String × String × List String → Payload) (w : World) : World :=
  w.mapResponses (fun c _ => store c.key)

/-- The response `p` to the request `c`, with the answer `b` if `c` is an existence check. -/
def setExistence (b : Bool) (c : Call) (p : Payload) : Payload :=
  if c.method = "CheckExistence" then { p with success := b } else p

/-- The world `w` in which the existence check, when it succeeds, answers `b`. -/
def existence (b : Bool) (w : World) : World := w.mapResponses (setExistence b)

/-- What `encoding/json` guarantees about `json.Unmarshal` into a map, as a property of a
world: a text that is not well-formed JSON is an error, and so is a well-formed text whose
top-level value is neither an object nor null. -/
structure World.DecodesIntoMap (w : World) : Prop where
  malformed : ∀ d, Json.parse d = none → ∃ e, w.unmarshalMap d = .error e
  mistyped : ∀ d j, Json.parse d = some j → j.kind ≠ .object → j.kind ≠ .null →
    ∃ e, w.unmarshalMap d = .error e

/-- The world in which every file holds `content`, `json.Unmarshal` is the model
`Json.unmarshalMap`, and everything else succeeds at once. -/
def onDisk (content : String) : World :=
  { happy with
    readFile := fun _ => .ok content
    unmarshalMap := Json.unmarshalMap }

/-- An event in brief: the method of a request, or the line printed. -/
def Event.brief : Event → Option String
  | .call c _ => some c.method
  | .begin c _ => some c.method
  | .log line => some line
  | _ => none

/-- The precondition of nil safety in the CDN endpoint sample: every successful response
carries the pointer that `main` dereferences.  The resource group and the results of the
profile, endpoint, stop and start operations carry a non-nil ID, the result of the purge a
non-nil raw HTTP response. -/
structure CdnEndpoint.NonNil (w : World) : Prop where
  group : ∀ tr c p, w.request tr c = .ok p → p.id ≠ none
  model : ∀ tr c n p, w.beginRequest tr c = .ok (n, .ok p) →
    c.method ≠ "BeginPurgeContent" → c.method ≠ "BeginDelete" → p.id ≠ none
  purge : ∀ tr c n p, w.beginRequest tr c = .ok (n, .ok p) →
    c.method = "BeginPurgeContent" → p.rawStatus ≠ none

/-- A remote event that brought a successful response: a synchronous request or a poll
that returned no error. -/
def Event.responded : Event → Bool
  | .call _ none => true
  | .pollUntilDone _ _ none => true
  | _ => false

/-- The world in which everything succeeds, but no response carries an ID. -/
def withoutID : World :=
  { happy with
    request := fun _ _ => .ok { fullPayload with id := none }
    beginRequest := fun _ _ => .ok (0, .ok { fullPayload with id := none }) }

/-- The world in which everything succeeds, but the result of the purge carries no raw
HTTP response. -/
def withoutRaw : World :=
  { happy with
    beginRequest := fun _ c =>
      if c.method = "BeginPurgeContent" then .ok (0, .ok { fullPayload with rawStatus := none })
      else .ok (0, .ok fullPayload) }

/-! ## Where the arguments of the requests come from -/

/-- The requests that the `main` of a sample can send and whose arguments the program
fixes, the subscription apart. -/
def Sample.constantCalls : Sample → String → List Call
  | .apimanagement, sub =>
    [Apimanagement.createResourceGroupCall sub, Apimanagement.deleteServiceCall sub,
     Apimanagement.createApiManagementServiceCall sub]
  | .cdnManagement, sub =>
    [CdnManagement.createResourceGroupCall sub, CdnManagement.createProfileCall sub,
     CdnManagement.generateSsoURICall sub, CdnManagement.cleanupCall sub]
  | .cdnEndpoint, sub =>
    [CdnEndpoint.createResourceGroupCall sub, CdnEndpoint.createProfileCall sub,
     CdnEndpoint.createEndpointCall sub, CdnEndpoint.purgeContentCall sub,
     CdnEndpoint.stopEndpointCall sub, CdnEndpoint.startEndpointCall sub,
     CdnEndpoint.cleanupCall sub]
  | .containerregistry, sub =>
    [Containerregistry.createResourceGroupCall sub, Containerregistry.createRegistryCall sub,
     Containerregistry.createReplicationCall sub, Containerregistry.getReplicationCall sub,
     Containerregistry.cleanupCall sub]
  | .deployment, sub =>
    [Deployment.createResourceGroupCall sub, Deployment.checkExistDeploymentCall sub,
     Deployment.cleanupCall sub]
  | .mysql, sub =>
    [Mysql.createResourceGroupCall sub, Mysql.createServerCall sub, Mysql.getServerCall sub,
     Mysql.cleanupCall sub]
  | .privatedns, sub =>
    [Privatedns.createResourceGroupCall sub, Privatedns.createPrivateZoneCall sub,
     Privatedns.cleanupCall sub]
  | .servicebus, sub =>
    [Servicebus.createResourceGroupCall sub, Servicebus.createVirtualNetworkCall sub,
     Servicebus.createSubnetCall sub, Servicebus.createNamespaceCall sub,
     Servicebus.createNamespaceAuthorizationRuleCall sub, Servicebus.cleanupCall sub]
  | .staticsite, sub =>
    [Staticsite.createResourceGroupCall sub, Staticsite.createAppServicePlanCall sub,
     Staticsite.getAppConfigurationCall sub]

/-- The map that `readJson` hands back for a file in the world `w`, if it returns one
without error. -/
def Deployment.load (w : World) (path : String) : Option JsonMap :=
  match (Deployment.readJson path w []).value? with
  | some (some m, none) => some m
  | _ => none

/-- Where the arguments of a request `c` in a run of the sample `s` come from.  Either the
program fixes them, or the request is one of the four that take a value an earlier stage
returned: the network rule set of the service-bus sample takes the ID printed for the
subnet, the web app of the static-site sample the ID printed for the app service plan, and
the create and validate requests of the deployment sample the two maps read from the
files. -/
def Argued (s : Sample) (w : World) (tr : List Event) (c : Call) : Prop :=
  c ∈ s.constantCalls (w.getenv "AZURE_SUBSCRIPTION_ID") ∨
  (s = .servicebus ∧ ∃ id,
    c = Servicebus.createNamespaceNetworkRuleSetCall (w.getenv "AZURE_SUBSCRIPTION_ID") id ∧
    Event.log ("subnet: " ++ id) ∈ tr) ∨
  (s = .staticsite ∧ ∃ id,
    c = Staticsite.createWebAppCall (w.getenv "AZURE_SUBSCRIPTION_ID") id ∧
    Event.log ("app service plan: " ++ id) ∈ tr) ∨
  (s = .deployment ∧ ∃ template params,
    Deployment.load w "testdata/template.json" = some template ∧
    Deployment.load w "testdata/parameters.json" = some params ∧
    (c = Deployment.createDeploymentCall (w.getenv "AZURE_SUBSCRIPTION_ID") template params ∨
     c = Deployment.validateDeploymentCall (w.getenv "AZURE_SUBSCRIPTION_ID") template params))

/-- The order of the service-bus sample: the subnet is started after the poll of the
virtual network succeeded, the authorization rule and the network rule set after the poll
of the namespace succeeded, and the network rule set after the poll of the subnet
succeeded. -/
def Servicebus.inOrder (tr : List Event) : Bool :=
  precededBy (Event.pollSucceeded "armnetwork.VirtualNetworksClient" "BeginCreateOrUpdate")
    (Event.starts "armnetwork.SubnetsClient" "BeginCreateOrUpdate") tr &&
  precededBy (Event.pollSucceeded "armservicebus.NamespacesClient" "BeginCreateOrUpdate")
    (Event.starts "armservicebus.NamespacesClient" "CreateOrUpdateAuthorizationRule") tr &&
  precededBy (Event.pollSucceeded "armservicebus.NamespacesClient" "BeginCreateOrUpdate")
    (Event.starts "armservicebus.NamespacesClient" "CreateOrUpdateNetworkRuleSet") tr &&
  precededBy (Event.pollSucceeded "armnetwork.SubnetsClient" "BeginCreateOrUpdate")
    (Event.starts "armservicebus.NamespacesClient" "CreateOrUpdateNetworkRuleSet") tr

/-- The order of the deployment sample: the validation is started after the poll of the
create succeeded. -/
def Deployment.inOrder (tr : List Event) : Bool :=
  precededBy (Event.pollSucceeded "armresources.DeploymentsClient" "BeginCreateOrUpdate")
    (Event.starts "armresources.DeploymentsClient" "BeginValidate") tr

/-- The successful world in which every response carries the ID "/other". -/
def renamed : World := happy.mapResponses (fun _ p => { p with id := some "/other" })

/-- An IPv4 address prefix in CIDR form: the address as a 32-bit number and the number of
leading bits that are fixed. -/
structure Cidr where
  base : Nat
  len : Nat
  deriving DecidableEq, Repr

namespace Cidr

/-- Cuts a text at every occurrence of `sep`. -/
def splitAt (sep : Char) : List Char → List (List Char)
  | [] => [[]]
  | c :: cs =>
    if c = sep then [] :: splitAt sep cs
    else
      match splitAt sep cs with
      | [] => [[c]]
      | part :: parts => (c :: part) :: parts

/-- The value of a decimal numeral given the value `acc` of the digits read so far; `none`
if a character is not a digit. -/
def decimalFrom (acc : Nat) : List Char → Option Nat
  | [] => some acc
  | c :: cs => if c.isDigit then decimalFrom (10 * acc + (c.toNat - 48)) cs else none

/-- The value of a non-empty decimal numeral. -/
def decimal (cs : List Char) : Option Nat :=
  if cs.isEmpty then none else decimalFrom 0 cs

/-- The four octets of a dotted address, most significant first, as one number. -/
def address (cs : List Char) : Option Nat :=
  match (splitAt '.' cs).map decimal with
  | [some a, some b, some c, some d] =>
    if a < 256 ∧ b < 256 ∧ c < 256 ∧ d < 256 then some (((a * 256 + b) * 256 + c) * 256 + d)
    else none
  | _ => none

/-- Reads a prefix written as `a.b.c.d/len` with `len` at most 32. -/
def parse (text : String) : Option Cidr :=
  match splitAt '/' text.toList with
  | [addr, len] =>
    match address addr, decimal len with
    | some base, some n => if n ≤ 32 then some ⟨base, n⟩ else none
    | _, _ => none
  | _ => none

/-- Whether the IPv4 address `a` lies in the range of the prefix: it is a 32-bit number
that agrees with the base on the leading `len` bits. -/
def contains (p : Cidr) (a : Nat) : Bool :=
  a < 2 ^ 32 && a / 2 ^ (32 - p.len) == p.base / 2 ^ (32 - p.len)

end Cidr

/-- The field `name` of the body of a request. -/
def Call.field (c : Call) (name : String) : Option Field := c.body.lookup name

/-- The address prefixes that the virtual-network request of the service-bus sample puts
into the address space, as the source writes them. -/
def Servicebus.addressSpace (subscriptionID : String) : List String :=
  match (createVirtualNetworkCall subscriptionID).field
      "Properties.AddressSpace.AddressPrefixes" with
  | some (.strs prefixes) => prefixes
  | _ => []

/-- The address prefix that the subnet request of the service-bus sample carries, as the
source writes it. -/
def Servicebus.subnetPrefix (subscriptionID : String) : Option String :=
  match (createSubnetCall subscriptionID).field "Properties.AddressPrefix" with
  | some (.str p) => some p
  | _ => none

/-- The order of the container-registry sample: the replication is started after the poll
of the registry's creation succeeded. -/
def Containerregistry.inOrder (tr : List Event) : Bool :=
  precededBy (Event.pollSucceeded "armcontainerregistry.RegistriesClient" "BeginCreate")
    (Event.starts "armcontainerregistry.ReplicationsClient" "BeginCreate") tr

/-! ## Responses without the pointer that is dereferenced -/

/-- The response behind an event that reports a success, with its request: for a
synchronous request answered without error after the history `pre` the response itself, for
an accepted `Begin*` request the result that its operation ends with (what `PollUntilDone`
hands back). -/
def answered (w : World) (pre : List Event) : Event → Option (Call × Payload)
  | .call c none =>
    match w.request pre c with
    | .ok p => some (c, p)
    | .error _ => none
  | .begin c none =>
    match w.beginRequest pre c with
    | .ok (_, .ok p) => some (c, p)
    | _ => none
  | _ => none

/-- Whether the response `p` to the request `c` lacks the pointer that `main` of the CDN
endpoint sample dereferences when it prints the result: the raw HTTP response of the purge,
the ID of the resource group and of the profile, endpoint, stop and start results.  The
result of the teardown is not looked at. -/
def CdnEndpoint.lacksPointer (c : Call) (p : Payload) : Bool :=
  if c.method = "BeginPurgeContent" then p.rawStatus.isNone
  else if c.method = "BeginDelete" then false
  else p.id.isNone

/-- The run ends with the response to the request of `x`: nothing follows a synchronous
request, and only the poll that returned the result follows a `Begin*` request. -/
def stopsAfter : Event → List Event → Bool
  | .call _ _, post => post.isEmpty
  | .begin c _, [.pollUntilDone c1 _ none] => c1 == c
  | _, _ => false

/-- Every successful response of the trace that lacks the dereferenced pointer ends the
run with a nil dereference; `pre` is the history before the trace. -/
def CdnEndpoint.faultsAtNil (w : World) (o : Outcome) : List Event → List Event → Bool
  | _, [] => true
  | pre, x :: post =>
    (match answered w pre x with
     | some (c, p) =>
       !CdnEndpoint.lacksPointer c p || (o == .halted .nilDeref && stopsAfter x post)
     | none => true) && CdnEndpoint.faultsAtNil w o (pre ++ [x]) post

/-- Some successful response of the trace lacks the dereferenced pointer; `pre` is the
history before the trace. -/
def CdnEndpoint.nilAnswered (w : World) : List Event → List Event → Bool
  | _, [] => false
  | pre, x :: post =>
    (match answered w pre x with
     | some (c, p) => CdnEndpoint.lacksPointer c p
     | none => false) || CdnEndpoint.nilAnswered w (pre ++ [x]) post

/-- The successful world in which the result of the profile's creation carries no ID. -/
def withoutProfileID : World :=
  { happy with
    beginRequest := fun _ c =>
      if c.client = "armcdn.ProfilesClient" then .ok (0, .ok { fullPayload with id := none })
      else .ok (0, .ok fullPayload) }

/-- The successful world in which the result of the start action, which `stopEndpoint`
sends, carries no ID. -/
def withoutStopID : World :=
  { happy with
    beginRequest := fun _ c =>
      if c.method = "BeginStart" then .ok (0, .ok { fullPayload with id := none })
      else .ok (0, .ok fullPayload) }


/-! ## Symbolic execution of programs -/

theorem bind_def {α β : Type} (p : Prog α) (f : α → Prog β) : (p >>= f) = Prog.bind p f := rfl

theorem pure_def {α : Type} (a : α) : (pure a : Prog α) = Prog.pure a := rfl

theorem bind_assoc {α β γ : Type} (p : Prog α) (f : α → Prog β) (g : β → Prog γ) :
    Prog.bind (Prog.bind p f) g = Prog.bind p (fun a => Prog.bind (f a) g) := by
  funext w tr
  simp only [Prog.bind]
  cases p w tr <;> rfl

theorem pure_bind {α β : Type} (a : α) (f : α → Prog β) : Prog.bind (Prog.pure a) f = f a := by
  funext w tr
  rfl

theorem ite_run {α : Type} (c : Prop) [Decidable c] (a b : Prog α) (w : World)
    (tr : List Event) : (if c then a else b) w tr = if c then a w tr else b w tr := by
  split <;> rfl

theorem pure_run {α : Type} (a : α) (w : World) (tr : List Event) :
    Prog.pure a w tr = .ok a tr := rfl

theorem getenv_bind {β : Type} (n : String) (f : String → Prog β) (w : World)
    (tr : List Event) : Prog.bind (getenv n) f w tr = f (w.getenv n) w tr := rfl

theorem logFatal_bind {α β : Type} (c : String) (f : α → Prog β) (w : World)
    (tr : List Event) : Prog.bind (logFatal c) f w tr = .halt (.fatal c) tr := rfl

theorem logFatal_run {α : Type} (c : String) (w : World) (tr : List Event) :
    (logFatal c : Prog α) w tr = .halt (.fatal c) tr := rfl

theorem credential_bind {β : Type} (f : Option Err → Prog β) (w : World) (tr : List Event) :
    Prog.bind newDefaultAzureCredential f w tr =
      match w.credential with
      | some e => f (some e) w (tr ++ [.credential (some e)])
      | none => f none w (tr ++ [.credential none]) := by
  simp only [Prog.bind, newDefaultAzureCredential]
  cases w.credential <;> rfl

theorem newClient_bind {β : Type} (n : String) (f : Option Err → Prog β) (w : World)
    (tr : List Event) :
    Prog.bind (newClient n) f w tr =
      match w.newClient n with
      | some e => f (some e) w tr
      | none => f none w tr := by
  simp only [Prog.bind, newClient]
  cases w.newClient n <;> rfl

theorem fatalIf_some_bind {β : Type} (e : Err) (f : Unit → Prog β) (w : World)
    (tr : List Event) : Prog.bind (fatalIf (some e)) f w tr = .halt (.fatal e) tr := rfl

theorem fatalIf_none_bind {β : Type} (f : Unit → Prog β) (w : World) (tr : List Event) :
    Prog.bind (fatalIf none) f w tr = f () w tr := rfl

theorem logPrintln_bind {β : Type} (l v : String) (f : Unit → Prog β) (w : World)
    (tr : List Event) :
    Prog.bind (logPrintln l v) f w tr = f () w (tr ++ [.log (l ++ " " ++ v)]) := rfl

theorem logPrintln_run (l v : String) (w : World) (tr : List Event) :
    logPrintln l v w tr = .ok () (tr ++ [.log (l ++ " " ++ v)]) := rfl

theorem logPrintln1_run (l : String) (w : World) (tr : List Event) :
    logPrintln1 l w tr = .ok () (tr ++ [.log l]) := rfl

theorem logPrintln1_bind {β : Type} (l : String) (f : Unit → Prog β) (w : World)
    (tr : List Event) : Prog.bind (logPrintln1 l) f w tr = f () w (tr ++ [.log l]) := rfl

theorem deref_bind {α β : Type} (x : Option α) (f : α → Prog β) (w : World)
    (tr : List Event) :
    Prog.bind (deref x) f w tr =
      match x with
      | some a => f a w tr
      | none => .halt .nilDeref tr := by
  cases x <;> rfl

theorem derefID_bind {β : Type} (x : Option Payload) (f : String → Prog β) (w : World)
    (tr : List Event) :
    Prog.bind (derefID x) f w tr =
      match x.bind Payload.id with
      | some i => f i w tr
      | none => .halt .nilDeref tr := by
  cases h : x.bind Payload.id <;> simp [derefID, deref, Prog.bind, h]

theorem readFile_bind {β : Type} (path : String) (f : Except Err String → Prog β) (w : World)
    (tr : List Event) :
    Prog.bind (readFile path) f w tr =
      match w.readFile path with
      | .ok d => f (.ok d) w tr
      | .error e => f (.error e) w tr := by
  simp only [Prog.bind, readFile]
  cases w.readFile path <;> rfl

theorem unmarshalMap_bind {β : Type} (d : String) (f : Except Err JsonMap → Prog β) (w : World)
    (tr : List Event) :
    Prog.bind (unmarshalMap d) f w tr =
      match w.unmarshalMap d with
      | .ok m => f (.ok m) w tr
      | .error e => f (.error e) w tr := by
  simp only [Prog.bind, unmarshalMap]
  cases w.unmarshalMap d <;> rfl

theorem request_bind {β : Type} (c : Call) (f : Except Err Payload → Prog β) (w : World)
    (tr : List Event) :
    Prog.bind (request c) f w tr =
      match w.request tr c with
      | .ok p => f (.ok p) w (tr ++ [.call c none])
      | .error e => f (.error e) w (tr ++ [.call c (some e)]) := by
  simp only [Prog.bind, request]
  cases w.request tr c <;> rfl

theorem beginRequest_bind {β : Type} (c : Call) (f : Except Err Poller → Prog β) (w : World)
    (tr : List Event) :
    Prog.bind (beginRequest c) f w tr =
      match w.beginRequest tr c with
      | .ok (n, fin) => f (.ok ⟨c, n, fin⟩) w (tr ++ [.begin c none])
      | .error e => f (.error e) w (tr ++ [.begin c (some e)]) := by
  simp only [Prog.bind, beginRequest]
  cases w.beginRequest tr c <;> rfl

theorem pollUntilDone_bind {β : Type} (p : Poller) (f : Except Err Payload → Prog β)
    (w : World) (tr : List Event) :
    Prog.bind (pollUntilDone p) f w tr =
      match p.final with
      | .ok r => f (.ok r) w (tr ++ [.pollUntilDone p.op (pollLoop p.running (.ok r)) none])
      | .error e =>
        f (.error e) w (tr ++ [.pollUntilDone p.op (pollLoop p.running (.error e)) (some e)]) := by
  simp only [Prog.bind, pollUntilDone]
  cases p.final <;> rfl

/-! ## Scripts -/

theorem pollLoop_ok (n : Nat) (r : Payload) :
    pollLoop n (.ok r) = List.replicate n Status.running ++ [Status.succeeded] := by
  induction n with
  | zero => rfl
  | succ k ih => simp [pollLoop, ih, List.replicate_succ]

theorem pollLoop_error (n : Nat) (e : Err) :
    pollLoop n (.error e) = List.replicate n Status.running ++ [Status.failed e] := by
  induction n with
  | zero => rfl
  | succ k ih => simp [pollLoop, ih, List.replicate_succ]

theorem pollLoop_getLast_ok (n : Nat) (r : Payload) :
    (pollLoop n (.ok r)).getLast? = some Status.succeeded := by
  simp [pollLoop_ok]

theorem script_apimanagement : script .apimanagement =
    [⟨"armresources.ResourceGroupsClient", "CreateOrUpdate", false⟩,
     ⟨"armapimanagement.DeletedServicesClient", "BeginPurge", false⟩,
     ⟨"armapimanagement.DeletedServicesClient", "BeginPurge", true⟩,
     ⟨"armapimanagement.APIManagementServiceClient", "BeginCreateOrUpdate", false⟩,
     ⟨"armapimanagement.APIManagementServiceClient", "BeginCreateOrUpdate", true⟩] := by
  decide

theorem script_cdnManagement : script .cdnManagement =
    [⟨"armresources.ResourceGroupsClient", "CreateOrUpdate", false⟩,
     ⟨"armcdn.ProfilesClient", "BeginCreate", false⟩,
     ⟨"armcdn.ProfilesClient", "BeginCreate", true⟩,
     ⟨"armcdn.ProfilesClient", "GenerateSsoURI", false⟩,
     ⟨"armresources.ResourceGroupsClient", "BeginDelete", false⟩,
     ⟨"armresources.ResourceGroupsClient", "BeginDelete", true⟩] := by
  decide

theorem script_cdnEndpoint : script .cdnEndpoint =
    [⟨"armresources.ResourceGroupsClient", "CreateOrUpdate", false⟩,
     ⟨"armcdn.ProfilesClient", "BeginCreate", false⟩,
     ⟨"armcdn.ProfilesClient", "BeginCreate", true⟩,
     ⟨"armcdn.EndpointsClient", "BeginCreate", false⟩,
     ⟨"armcdn.EndpointsClient", "BeginCreate", true⟩,
     ⟨"armcdn.EndpointsClient", "BeginPurgeContent", false⟩,
     ⟨"armcdn.EndpointsClient", "BeginPurgeContent", true⟩,
     ⟨"armcdn.EndpointsClient", "BeginStart", false⟩,
     ⟨"armcdn.EndpointsClient", "BeginStart", true⟩,
     ⟨"armcdn.EndpointsClient", "BeginStop", false⟩,
     ⟨"armcdn.EndpointsClient", "BeginStop", true⟩,
     ⟨"armresources.ResourceGroupsClient", "BeginDelete", false⟩,
     ⟨"armresources.ResourceGroupsClient", "BeginDelete", true⟩] := by
  decide

theorem script_containerregistry : script .containerregistry =
    [⟨"armresources.ResourceGroupsClient", "CreateOrUpdate", false⟩,
     ⟨"armcontainerregistry.RegistriesClient", "BeginCreate", false⟩,
     ⟨"armcontainerregistry.RegistriesClient", "BeginCreate", true⟩,
     ⟨"armcontainerregistry.ReplicationsClient", "BeginCreate", false⟩,
     ⟨"armcontainerregistry.ReplicationsClient", "BeginCreate", true⟩,
     ⟨"armcontainerregistry.ReplicationsClient", "Get", false⟩,
     ⟨"armresources.ResourceGroupsClient", "BeginDelete", false⟩,
     ⟨"armresources.ResourceGroupsClient", "BeginDelete", true⟩] := by
  decide

theorem script_deployment : script .deployment =
    [⟨"armresources.ResourceGroupsClient", "CreateOrUpdate", false⟩,
     ⟨"armresources.DeploymentsClient", "CheckExistence", false⟩,
     ⟨"armresources.DeploymentsClient", "BeginCreateOrUpdate", false⟩,
     ⟨"armresources.DeploymentsClient", "BeginCreateOrUpdate", true⟩,
     ⟨"armresources.DeploymentsClient", "BeginValidate", false⟩,
     ⟨"armresources.DeploymentsClient", "BeginValidate", true⟩,
     ⟨"armresources.ResourceGroupsClient", "BeginDelete", false⟩,
     ⟨"armresources.ResourceGroupsClient", "BeginDelete", true⟩] := by
  decide

theorem script_mysql : script .mysql =
    [⟨"armresources.ResourceGroupsClient", "CreateOrUpdate", false⟩,
     ⟨"armmysql.ServersClient", "BeginCreate", false⟩,
     ⟨"armmysql.ServersClient", "BeginCreate", true⟩,
     ⟨"armmysql.ServersClient", "Get", false⟩,
     ⟨"armresources.ResourceGroupsClient", "BeginDelete", false⟩,
     ⟨"armresources.ResourceGroupsClient", "BeginDelete", true⟩] := by
  decide

theorem script_privatedns : script .privatedns =
    [⟨"armresources.ResourceGroupsClient", "CreateOrUpdate", false⟩,
     ⟨"armprivatedns.PrivateZonesClient", "BeginCreateOrUpdate", false⟩,
     ⟨"armprivatedns.PrivateZonesClient", "BeginCreateOrUpdate", true⟩,
     ⟨"armresources.ResourceGroupsClient", "BeginDelete", false⟩,
     ⟨"armresources.ResourceGroupsClient", "BeginDelete", true⟩] := by
  decide

theorem script_servicebus : script .servicebus =
    [⟨"armresources.ResourceGroupsClient", "CreateOrUpdate", false⟩,
     ⟨"armnetwork.VirtualNetworksClient", "BeginCreateOrUpdate", false⟩,
     ⟨"armnetwork.VirtualNetworksClient", "BeginCreateOrUpdate", true⟩,
     ⟨"armnetwork.SubnetsClient", "BeginCreateOrUpdate", false⟩,
     ⟨"armnetwork.SubnetsClient", "BeginCreateOrUpdate", true⟩,
     ⟨"armservicebus.NamespacesClient", "BeginCreateOrUpdate", false⟩,
     ⟨"armservicebus.NamespacesClient", "BeginCreateOrUpdate", true⟩,
     ⟨"armservicebus.NamespacesClient", "CreateOrUpdateAuthorizationRule", false⟩,
     ⟨"armservicebus.NamespacesClient", "CreateOrUpdateNetworkRuleSet", false⟩,
     ⟨"armresources.ResourceGroupsClient", "BeginDelete", false⟩,
     ⟨"armresources.ResourceGroupsClient", "BeginDelete", true⟩] := by
  decide

theorem script_staticsite : script .staticsite =
    [⟨"armresources.ResourceGroupsClient", "CreateOrUpdate", false⟩,
     ⟨"armweb.AppServicePlansClient", "BeginCreateOrUpdate", false⟩,
     ⟨"armweb.AppServicePlansClient", "BeginCreateOrUpdate", true⟩,
     ⟨"armweb.WebAppsClient", "BeginCreateOrUpdate", false⟩,
     ⟨"armweb.WebAppsClient", "BeginCreateOrUpdate", true⟩,
     ⟨"armweb.WebAppsClient", "GetConfiguration", false⟩] := by
  decide

theorem primary_apimanagement : primary .apimanagement =
    [⟨"armresources.ResourceGroupsClient", "CreateOrUpdate", false⟩,
     ⟨"armapimanagement.DeletedServicesClient", "BeginPurge", false⟩,
     ⟨"armapimanagement.DeletedServicesClient", "BeginPurge", true⟩,
     ⟨"armapimanagement.APIManagementServiceClient", "BeginCreateOrUpdate", false⟩,
     ⟨"armapimanagement.APIManagementServiceClient", "BeginCreateOrUpdate", true⟩] := by
  decide

theorem primary_cdnManagement : primary .cdnManagement =
    [⟨"armresources.ResourceGroupsClient", "CreateOrUpdate", false⟩,
     ⟨"armcdn.ProfilesClient", "BeginCreate", false⟩,
     ⟨"armcdn.ProfilesClient", "BeginCreate", true⟩,
     ⟨"armcdn.ProfilesClient", "GenerateSsoURI", false⟩] := by
  decide

theorem primary_cdnEndpoint : primary .cdnEndpoint =
    [⟨"armresources.ResourceGroupsClient", "CreateOrUpdate", false⟩,
     ⟨"armcdn.ProfilesClient", "BeginCreate", false⟩,
     ⟨"armcdn.ProfilesClient", "BeginCreate", true⟩,
     ⟨"armcdn.EndpointsClient", "BeginCreate", false⟩,
     ⟨"armcdn.EndpointsClient", "BeginCreate", true⟩,
     ⟨"armcdn.EndpointsClient", "BeginPurgeContent", false⟩,
     ⟨"armcdn.EndpointsClient", "BeginPurgeContent", true⟩,
     ⟨"armcdn.EndpointsClient", "BeginStart", false⟩,
     ⟨"armcdn.EndpointsClient", "BeginStart", true⟩,
     ⟨"armcdn.EndpointsClient", "BeginStop", false⟩,
     ⟨"armcdn.EndpointsClient", "BeginStop", true⟩] := by
  decide

theorem primary_containerregistry : primary .containerregistry =
    [⟨"armresources.ResourceGroupsClient", "CreateOrUpdate", false⟩,
     ⟨"armcontainerregistry.RegistriesClient", "BeginCreate", false⟩,
     ⟨"armcontainerregistry.RegistriesClient", "BeginCreate", true⟩,
     ⟨"armcontainerregistry.ReplicationsClient", "BeginCreate", false⟩,
     ⟨"armcontainerregistry.ReplicationsClient", "BeginCreate", true⟩,
     ⟨"armcontainerregistry.ReplicationsClient", "Get", false⟩] := by
  decide

theorem primary_deployment : primary .deployment =
    [⟨"armresources.ResourceGroupsClient", "CreateOrUpdate", false⟩,
     ⟨"armresources.DeploymentsClient", "CheckExistence", false⟩,
     ⟨"armresources.DeploymentsClient", "BeginCreateOrUpdate", false⟩,
     ⟨"armresources.DeploymentsClient", "BeginCreateOrUpdate", true⟩,
     ⟨"armresources.DeploymentsClient", "BeginValidate", false⟩,
     ⟨"armresources.DeploymentsClient", "BeginValidate", true⟩] := by
  decide

theorem primary_mysql : primary .mysql =
    [⟨"armresources.ResourceGroupsClient", "CreateOrUpdate", false⟩,
     ⟨"armmysql.ServersClient", "BeginCreate", false⟩,
     ⟨"armmysql.ServersClient", "BeginCreate", true⟩,
     ⟨"armmysql.ServersClient", "Get", false⟩] := by
  decide

theorem primary_privatedns : primary .privatedns =
    [⟨"armresources.ResourceGroupsClient", "CreateOrUpdate", false⟩,
     ⟨"armprivatedns.PrivateZonesClient", "BeginCreateOrUpdate", false⟩,
     ⟨"armprivatedns.PrivateZonesClient", "BeginCreateOrUpdate", true⟩] := by
  decide

theorem primary_servicebus : primary .servicebus =
    [⟨"armresources.ResourceGroupsClient", "CreateOrUpdate", false⟩,
     ⟨"armnetwork.VirtualNetworksClient", "BeginCreateOrUpdate", false⟩,
     ⟨"armnetwork.VirtualNetworksClient", "BeginCreateOrUpdate", true⟩,
     ⟨"armnetwork.SubnetsClient", "BeginCreateOrUpdate", false⟩,
     ⟨"armnetwork.SubnetsClient", "BeginCreateOrUpdate", true⟩,
     ⟨"armservicebus.NamespacesClient", "BeginCreateOrUpdate", false⟩,
     ⟨"armservicebus.NamespacesClient", "BeginCreateOrUpdate", true⟩,
     ⟨"armservicebus.NamespacesClient", "CreateOrUpdateAuthorizationRule", false⟩,
     ⟨"armservicebus.NamespacesClient", "CreateOrUpdateNetworkRuleSet", false⟩] := by
  decide

theorem primary_staticsite : primary .staticsite =
    [⟨"armresources.ResourceGroupsClient", "CreateOrUpdate", false⟩,
     ⟨"armweb.AppServicePlansClient", "BeginCreateOrUpdate", false⟩,
     ⟨"armweb.AppServicePlansClient", "BeginCreateOrUpdate", true⟩,
     ⟨"armweb.WebAppsClient", "BeginCreateOrUpdate", false⟩,
     ⟨"armweb.WebAppsClient", "BeginCreateOrUpdate", true⟩,
     ⟨"armweb.WebAppsClient", "GetConfiguration", false⟩] := by
  decide

/-! ## The operations of every sample in program order -/

theorem checked_apimanagement (w : World) : Checked .apimanagement w (Apimanagement.main w []) := by
  simp only [Apimanagement.main, Apimanagement.createResourceGroup, Apimanagement.deleteService,
    Apimanagement.createApiManagementService,
    bind_def, pure_def, bind_assoc, pure_bind, ite_run, pure_run, getenv_bind,
    logFatal_bind, logFatal_run, credential_bind, newClient_bind, fatalIf_some_bind,
    fatalIf_none_bind, logPrintln_bind, logPrintln_run, logPrintln1_bind, logPrintln1_run,
    derefID_bind, deref_bind, readFile_bind, unmarshalMap_bind, request_bind,
    beginRequest_bind, pollUntilDone_bind, Option.some_bind, Option.none_bind,
    List.nil_append, List.append_assoc, List.singleton_append, List.cons_append]
  repeat' split
  all_goals
    rw [checked_iff]
    simp [Res.trace, Res.outcome, Outcome.status, Samples.failFast, precededBy,
      Samples.polled, pollLoop_getLast_ok, Samples.deletes, isDelete, Event.request,
      Event.failed, Event.ensured, Event.dependent, Event.teardown, Event.ensureErrorLost,
      isEnsureGroup, isDependent, isTeardown, ops, Event.op, script_apimanagement,
      Sample.cleanupCall, Sample.hasTeardown,
      Apimanagement.createResourceGroupCall, Apimanagement.deleteServiceCall,
      Apimanagement.createApiManagementServiceCall, Apimanagement.cleanupCall]

theorem checked_cdnManagement (w : World) : Checked .cdnManagement w (CdnManagement.main w []) := by
  simp only [CdnManagement.main, CdnManagement.createResourceGroup, CdnManagement.createProfile,
    CdnManagement.generateSsoURI, CdnManagement.cleanup,
    bind_def, pure_def, bind_assoc, pure_bind, ite_run, pure_run, getenv_bind,
    logFatal_bind, logFatal_run, credential_bind, newClient_bind, fatalIf_some_bind,
    fatalIf_none_bind, logPrintln_bind, logPrintln_run, logPrintln1_bind, logPrintln1_run,
    derefID_bind, deref_bind, readFile_bind, unmarshalMap_bind, request_bind,
    beginRequest_bind, pollUntilDone_bind, Option.some_bind, Option.none_bind,
    List.nil_append, List.append_assoc, List.singleton_append, List.cons_append]
  repeat' split
  all_goals
    rw [checked_iff]
    first
    | simp [Res.trace, Res.outcome, Outcome.status, Samples.failFast, precededBy,
      Samples.polled, pollLoop_getLast_ok, Samples.deletes, isDelete, Event.request,
      Event.failed, Event.ensured, Event.dependent, Event.teardown, Event.ensureErrorLost,
      isEnsureGroup, isDependent, isTeardown, ops, Event.op, script_cdnManagement,
      Sample.cleanupCall, Sample.hasTeardown,
      CdnManagement.createResourceGroupCall, CdnManagement.createProfileCall,
      CdnManagement.generateSsoURICall, CdnManagement.cleanupCall]
      done
    | simp_all [Res.trace, Res.outcome, Outcome.status, Samples.failFast, precededBy,
      Samples.polled, pollLoop_getLast_ok, Samples.deletes, isDelete, Event.request,
      Event.failed, Event.ensured, Event.dependent, Event.teardown, Event.ensureErrorLost,
      isEnsureGroup, isDependent, isTeardown, ops, Event.op, script_cdnManagement,
      Sample.cleanupCall, Sample.hasTeardown,
      CdnManagement.createResourceGroupCall, CdnManagement.createProfileCall,
      CdnManagement.generateSsoURICall, CdnManagement.cleanupCall]

theorem checked_cdnEndpoint (w : World) : Checked .cdnEndpoint w (CdnEndpoint.main w []) := by
  simp only [CdnEndpoint.main, CdnEndpoint.createResourceGroup, CdnEndpoint.createProfile,
    CdnEndpoint.createEndpoint, CdnEndpoint.purgeContent, CdnEndpoint.startEndpoint,
    CdnEndpoint.stopEndpoint, CdnEndpoint.cleanup,
    bind_def, pure_def, bind_assoc, pure_bind, ite_run, pure_run, getenv_bind,
    logFatal_bind, logFatal_run, credential_bind, newClient_bind, fatalIf_some_bind,
    fatalIf_none_bind, logPrintln_bind, logPrintln_run, logPrintln1_bind, logPrintln1_run,
    derefID_bind, deref_bind, readFile_bind, unmarshalMap_bind, request_bind,
    beginRequest_bind, pollUntilDone_bind, Option.some_bind, Option.none_bind,
    List.nil_append, List.append_assoc, List.singleton_append, List.cons_append]
  repeat' split
  all_goals
    rw [checked_iff]
    first
    | simp [Res.trace, Res.outcome, Outcome.status, Samples.failFast, precededBy,
      Samples.polled, pollLoop_getLast_ok, Samples.deletes, isDelete, Event.request,
      Event.failed, Event.ensured, Event.dependent, Event.teardown, Event.ensureErrorLost,
      isEnsureGroup, isDependent, isTeardown, ops, Event.op, script_cdnEndpoint,
      Sample.cleanupCall, Sample.hasTeardown,
      CdnEndpoint.createResourceGroupCall, CdnEndpoint.createProfileCall,
      CdnEndpoint.createEndpointCall, CdnEndpoint.purgeContentCall,
      CdnEndpoint.startEndpointCall, CdnEndpoint.stopEndpointCall, CdnEndpoint.cleanupCall]
      done
    | simp_all [Res.trace, Res.outcome, Outcome.status, Samples.failFast, precededBy,
      Samples.polled, pollLoop_getLast_ok, Samples.deletes, isDelete, Event.request,
      Event.failed, Event.ensured, Event.dependent, Event.teardown, Event.ensureErrorLost,
      isEnsureGroup, isDependent, isTeardown, ops, Event.op, script_cdnEndpoint,
      Sample.cleanupCall, Sample.hasTeardown,
      CdnEndpoint.createResourceGroupCall, CdnEndpoint.createProfileCall,
      CdnEndpoint.createEndpointCall, CdnEndpoint.purgeContentCall,
      CdnEndpoint.startEndpointCall, CdnEndpoint.stopEndpointCall, CdnEndpoint.cleanupCall]

theorem checked_containerregistry (w : World) : Checked .containerregistry w (Containerregistry.main w []) := by
  simp only [Containerregistry.main, Containerregistry.createResourceGroup,
    Containerregistry.createRegistry, Containerregistry.createReplication,
    Containerregistry.getReplication, Containerregistry.cleanup,
    bind_def, pure_def, bind_assoc, pure_bind, ite_run, pure_run, getenv_bind,
    logFatal_bind, logFatal_run, credential_bind, newClient_bind, fatalIf_some_bind,
    fatalIf_none_bind, logPrintln_bind, logPrintln_run, logPrintln1_bind, logPrintln1_run,
    derefID_bind, deref_bind, readFile_bind, unmarshalMap_bind, request_bind,
    beginRequest_bind, pollUntilDone_bind, Option.some_bind, Option.none_bind,
    List.nil_append, List.append_assoc, List.singleton_append, List.cons_append]
  repeat' split
  all_goals
    rw [checked_iff]
    first
    | simp [Res.trace, Res.outcome, Outcome.status, Samples.failFast, precededBy,
      Samples.polled, pollLoop_getLast_ok, Samples.deletes, isDelete, Event.request,
      Event.failed, Event.ensured, Event.dependent, Event.teardown, Event.ensureErrorLost,
      isEnsureGroup, isDependent, isTeardown, ops, Event.op, script_containerregistry,
      Sample.cleanupCall, Sample.hasTeardown,
      Containerregistry.createResourceGroupCall, Containerregistry.createRegistryCall,
      Containerregistry.createReplicationCall, Containerregistry.getReplicationCall,
      Containerregistry.cleanupCall]
      done
    | simp_all [Res.trace, Res.outcome, Outcome.status, Samples.failFast, precededBy,
      Samples.polled, pollLoop_getLast_ok, Samples.deletes, isDelete, Event.request,
      Event.failed, Event.ensured, Event.dependent, Event.teardown, Event.ensureErrorLost,
      isEnsureGroup, isDependent, isTeardown, ops, Event.op, script_containerregistry,
      Sample.cleanupCall, Sample.hasTeardown,
      Containerregistry.createResourceGroupCall, Containerregistry.createRegistryCall,
      Containerregistry.createReplicationCall, Containerregistry.getReplicationCall,
      Containerregistry.cleanupCall]

theorem checked_deployment (w : World) : Checked .deployment w (Deployment.main w []) := by
  simp only [Deployment.main, Deployment.createResourceGroup, Deployment.checkExistDeployment,
    Deployment.readJson, Deployment.createDeployment, Deployment.validateDeployment,
    Deployment.cleanup,
    bind_def, pure_def, bind_assoc, pure_bind, ite_run, pure_run, getenv_bind,
    logFatal_bind, logFatal_run, credential_bind, newClient_bind, fatalIf_some_bind,
    fatalIf_none_bind, logPrintln_bind, logPrintln_run, logPrintln1_bind, logPrintln1_run,
    derefID_bind, deref_bind, readFile_bind, unmarshalMap_bind, request_bind,
    beginRequest_bind, pollUntilDone_bind, Option.some_bind, Option.none_bind,
    List.nil_append, List.append_assoc, List.singleton_append, List.cons_append]
  repeat' split
  all_goals
    rw [checked_iff]
    first
    | simp [Res.trace, Res.outcome, Outcome.status, Samples.failFast, precededBy,
      Samples.polled, pollLoop_getLast_ok, Samples.deletes, isDelete, Event.request,
      Event.failed, Event.ensured, Event.dependent, Event.teardown, Event.ensureErrorLost,
      isEnsureGroup, isDependent, isTeardown, ops, Event.op, script_deployment,
      Sample.cleanupCall, Sample.hasTeardown,
      Deployment.createResourceGroupCall, Deployment.checkExistDeploymentCall,
      Deployment.createDeploymentCall, Deployment.validateDeploymentCall,
      Deployment.cleanupCall]
      done
    | simp_all [Res.trace, Res.outcome, Outcome.status, Samples.failFast, precededBy,
      Samples.polled, pollLoop_getLast_ok, Samples.deletes, isDelete, Event.request,
      Event.failed, Event.ensured, Event.dependent, Event.teardown, Event.ensureErrorLost,
      isEnsureGroup, isDependent, isTeardown, ops, Event.op, script_deployment,
      Sample.cleanupCall, Sample.hasTeardown,
      Deployment.createResourceGroupCall, Deployment.checkExistDeploymentCall,
      Deployment.createDeploymentCall, Deployment.validateDeploymentCall,
      Deployment.cleanupCall]

theorem checked_mysql (w : World) : Checked .mysql w (Mysql.main w []) := by
  simp only [Mysql.main, Mysql.createResourceGroup, Mysql.createServer, Mysql.getServer, Mysql.cleanup,
    bind_def, pure_def, bind_assoc, pure_bind, ite_run, pure_run, getenv_bind,
    logFatal_bind, logFatal_run, credential_bind, newClient_bind, fatalIf_some_bind,
    fatalIf_none_bind, logPrintln_bind, logPrintln_run, logPrintln1_bind, logPrintln1_run,
    derefID_bind, deref_bind, readFile_bind, unmarshalMap_bind, request_bind,
    beginRequest_bind, pollUntilDone_bind, Option.some_bind, Option.none_bind,
    List.nil_append, List.append_assoc, List.singleton_append, List.cons_append]
  repeat' split
  all_goals
    rw [checked_iff]
    first
    | simp [Res.trace, Res.outcome, Outcome.status, Samples.failFast, precededBy,
      Samples.polled, pollLoop_getLast_ok, Samples.deletes, isDelete, Event.request,
      Event.failed, Event.ensured, Event.dependent, Event.teardown, Event.ensureErrorLost,
      isEnsureGroup, isDependent, isTeardown, ops, Event.op, script_mysql,
      Sample.cleanupCall, Sample.hasTeardown,
      Mysql.createResourceGroupCall, Mysql.createServerCall, Mysql.getServerCall,
      Mysql.cleanupCall]
      done
    | simp_all [Res.trace, Res.outcome, Outcome.status, Samples.failFast, precededBy,
      Samples.polled, pollLoop_getLast_ok, Samples.deletes, isDelete, Event.request,
      Event.failed, Event.ensured, Event.dependent, Event.teardown, Event.ensureErrorLost,
      isEnsureGroup, isDependent, isTeardown, ops, Event.op, script_mysql,
      Sample.cleanupCall, Sample.hasTeardown,
      Mysql.createResourceGroupCall, Mysql.createServerCall, Mysql.getServerCall,
      Mysql.cleanupCall]

theorem checked_privatedns (w : World) : Checked .privatedns w (Privatedns.main w []) := by
  simp only [Privatedns.main, Privatedns.createResourceGroup, Privatedns.createPrivateZone,
    Privatedns.cleanup,
    bind_def, pure_def, bind_assoc, pure_bind, ite_run, pure_run, getenv_bind,
    logFatal_bind, logFatal_run, credential_bind, newClient_bind, fatalIf_some_bind,
    fatalIf_none_bind, logPrintln_bind, logPrintln_run, logPrintln1_bind, logPrintln1_run,
    derefID_bind, deref_bind, readFile_bind, unmarshalMap_bind, request_bind,
    beginRequest_bind, pollUntilDone_bind, Option.some_bind, Option.none_bind,
    List.nil_append, List.append_assoc, List.singleton_append, List.cons_append]
  repeat' split
  all_goals
    rw [checked_iff]
    first
    | simp [Res.trace, Res.outcome, Outcome.status, Samples.failFast, precededBy,
      Samples.polled, pollLoop_getLast_ok, Samples.deletes, isDelete, Event.request,
      Event.failed, Event.ensured, Event.dependent, Event.teardown, Event.ensureErrorLost,
      isEnsureGroup, isDependent, isTeardown, ops, Event.op, script_privatedns,
      Sample.cleanupCall, Sample.hasTeardown,
      Privatedns.createResourceGroupCall, Privatedns.createPrivateZoneCall,
      Privatedns.cleanupCall]
      done
    | simp_all [Res.trace, Res.outcome, Outcome.status, Samples.failFast, precededBy,
      Samples.polled, pollLoop_getLast_ok, Samples.deletes, isDelete, Event.request,
      Event.failed, Event.ensured, Event.dependent, Event.teardown, Event.ensureErrorLost,
      isEnsureGroup, isDependent, isTeardown, ops, Event.op, script_privatedns,
      Sample.cleanupCall, Sample.hasTeardown,
      Privatedns.createResourceGroupCall, Privatedns.createPrivateZoneCall,
      Privatedns.cleanupCall]

theorem checked_servicebus (w : World) : Checked .servicebus w (Servicebus.main w []) := by
  simp only [Servicebus.main, Servicebus.createResourceGroup, Servicebus.createVirtualNetwork,
    Servicebus.createSubnet, Servicebus.createNamespace,
    Servicebus.createNamespaceAuthorizationRule, Servicebus.createNamespaceNetworkRuleSet,
    Servicebus.cleanup,
    bind_def, pure_def, bind_assoc, pure_bind, ite_run, pure_run, getenv_bind,
    logFatal_bind, logFatal_run, credential_bind, newClient_bind, fatalIf_some_bind,
    fatalIf_none_bind, logPrintln_bind, logPrintln_run, logPrintln1_bind, logPrintln1_run,
    derefID_bind, deref_bind, readFile_bind, unmarshalMap_bind, request_bind,
    beginRequest_bind, pollUntilDone_bind, Option.some_bind, Option.none_bind,
    List.nil_append, List.append_assoc, List.singleton_append, List.cons_append]
  repeat' split
  all_goals
    rw [checked_iff]
    first
    | simp [Res.trace, Res.outcome, Outcome.status, Samples.failFast, precededBy,
      Samples.polled, pollLoop_getLast_ok, Samples.deletes, isDelete, Event.request,
      Event.failed, Event.ensured, Event.dependent, Event.teardown, Event.ensureErrorLost,
      isEnsureGroup, isDependent, isTeardown, ops, Event.op, script_servicebus,
      Sample.cleanupCall, Sample.hasTeardown,
      Servicebus.createResourceGroupCall, Servicebus.createVirtualNetworkCall,
      Servicebus.createSubnetCall, Servicebus.createNamespaceCall,
      Servicebus.createNamespaceAuthorizationRuleCall,
      Servicebus.createNamespaceNetworkRuleSetCall, Servicebus.cleanupCall]
      done
    | simp_all [Res.trace, Res.outcome, Outcome.status, Samples.failFast, precededBy,
      Samples.polled, pollLoop_getLast_ok, Samples.deletes, isDelete, Event.request,
      Event.failed, Event.ensured, Event.dependent, Event.teardown, Event.ensureErrorLost,
      isEnsureGroup, isDependent, isTeardown, ops, Event.op, script_servicebus,
      Sample.cleanupCall, Sample.hasTeardown,
      Servicebus.createResourceGroupCall, Servicebus.createVirtualNetworkCall,
      Servicebus.createSubnetCall, Servicebus.createNamespaceCall,
      Servicebus.createNamespaceAuthorizationRuleCall,
      Servicebus.createNamespaceNetworkRuleSetCall, Servicebus.cleanupCall]

theorem checked_staticsite (w : World) : Checked .staticsite w (Staticsite.main w []) := by
  simp only [Staticsite.main, Staticsite.createResourceGroup, Staticsite.createAppServicePlan,
    Staticsite.createWebApp, Staticsite.getAppConfiguration,
    bind_def, pure_def, bind_assoc, pure_bind, ite_run, pure_run, getenv_bind,
    logFatal_bind, logFatal_run, credential_bind, newClient_bind, fatalIf_some_bind,
    fatalIf_none_bind, logPrintln_bind, logPrintln_run, logPrintln1_bind, logPrintln1_run,
    derefID_bind, deref_bind, readFile_bind, unmarshalMap_bind, request_bind,
    beginRequest_bind, pollUntilDone_bind, Option.some_bind, Option.none_bind,
    List.nil_append, List.append_assoc, List.singleton_append, List.cons_append]
  repeat' split
  all_goals
    rw [checked_iff]
    simp [Res.trace, Res.outcome, Outcome.status, Samples.failFast, precededBy,
      Samples.polled, pollLoop_getLast_ok, Samples.deletes, isDelete, Event.request,
      Event.failed, Event.ensured, Event.dependent, Event.teardown, Event.ensureErrorLost,
      isEnsureGroup, isDependent, isTeardown, ops, Event.op, script_staticsite,
      Sample.cleanupCall, Sample.hasTeardown,
      Staticsite.createResourceGroupCall, Staticsite.createAppServicePlanCall,
      Staticsite.createWebAppCall, Staticsite.getAppConfigurationCall, Staticsite.cleanupCall]

/-! ## From checks on traces to statements about positions -/

theorem run_fst (p : Prog Unit) (w : World) : (run p w).1 = (p w []).outcome := rfl

theorem run_snd (p : Prog Unit) (w : World) : (run p w).2 = (p w []).trace := rfl

theorem checked (s : Sample) (w : World) : Checked s w (s.main w []) := by
  cases s
  · exact checked_apimanagement w
  · exact checked_cdnManagement w
  · exact checked_cdnEndpoint w
  · exact checked_containerregistry w
  · exact checked_deployment w
  · exact checked_mysql w
  · exact checked_privatedns w
  · exact checked_servicebus w
  · exact checked_staticsite w

theorem precededBy_split (p q : Event → Bool) :
    ∀ (tr pre post : List Event) (x : Event), precededBy p q tr = true →
      tr = pre ++ x :: post → q x = true → ∃ y ∈ pre, p y = true := by
  intro tr
  induction tr with
  | nil =>
    intro pre post x _ h
    simp at h
  | cons e rest ih =>
    intro pre post x hc h hq
    cases pre with
    | nil =>
      simp only [List.nil_append, List.cons.injEq] at h
      obtain ⟨rfl, rfl⟩ := h
      simp [precededBy, hq] at hc
    | cons a pre1 =>
      simp only [List.cons_append, List.cons.injEq] at h
      obtain ⟨rfl, hrest⟩ := h
      simp only [precededBy, Bool.or_eq_true, Bool.and_eq_true] at hc
      rcases hc.2 with hp | hr
      · exact ⟨e, List.mem_cons_self _ _, hp⟩
      · obtain ⟨y, hy, hpy⟩ := ih pre1 post x hr hrest hq
        exact ⟨y, List.mem_cons_of_mem _ hy, hpy⟩

theorem failFast_split :
    ∀ (tr pre post : List Event) (x : Event), failFast tr = true →
      tr = pre ++ x :: post → x.failed = true → post = [] := by
  intro tr
  induction tr with
  | nil =>
    intro pre post x _ h
    simp at h
  | cons e rest ih =>
    intro pre post x hc h hx
    simp only [failFast, Bool.and_eq_true, Bool.or_eq_true, Bool.not_eq_true',
      List.isEmpty_iff] at hc
    cases pre with
    | nil =>
      simp only [List.nil_append, List.cons.injEq] at h
      obtain ⟨rfl, rfl⟩ := h
      rcases hc.1 with h1 | h1
      · simp [hx] at h1
      · exact h1
    | cons a pre1 =>
      simp only [List.cons_append, List.cons.injEq] at h
      exact ih pre1 post x hc.2 h.2 hx

theorem failFast_before (tr pre post : List Event) (x : Event) (hc : failFast tr = true)
    (h : tr = pre ++ x :: post) : ∀ y ∈ pre, y.failed = false := by
  intro y hy
  obtain ⟨a, b, rfl⟩ := List.append_of_mem hy
  cases hf : y.failed with
  | false => rfl
  | true =>
    have := failFast_split tr a (b ++ x :: post) y hc (by simp [h]) hf
    simp at this

theorem length_ne_zero_of_ne_empty (s : String) (h : s ≠ "") : s.length ≠ 0 := by
  intro h0
  apply h
  cases s with
  | mk data =>
    have hd : data = [] := List.length_eq_zero.mp h0
    subst hd
    rfl

theorem script_nodup (s : Sample) : (script s).Nodup := by
  cases s
  · rw [script_apimanagement]; decide
  · rw [script_cdnManagement]; decide
  · rw [script_cdnEndpoint]; decide
  · rw [script_containerregistry]; decide
  · rw [script_deployment]; decide
  · rw [script_mysql]; decide
  · rw [script_privatedns]; decide
  · rw [script_servicebus]; decide
  · rw [script_staticsite]; decide

theorem map_run {α β : Type} (f : α → β) (p : Prog α) (w : World) (tr : List Event) :
    Prog.map f p w tr = Prog.bind p (fun a => Prog.pure (f a)) w tr := rfl

theorem cleanup_events (s : Sample) (sub : String) (w : World) (tr : List Event) :
    ((s.cleanup sub w tr).trace = tr ∧ ∃ e, (s.cleanup sub w tr).outcome = .returned ∧
        s = .mysql ∧ w.newClient "armresources.NewResourceGroupsClient" = some e) ∨
      ∃ err evs, (s.cleanup sub w tr).trace = tr ++ Event.begin (s.cleanupCall sub) err :: evs ∧
        (evs = [] ∨ ∃ rs e, evs = [Event.pollUntilDone (s.cleanupCall sub) rs e]) := by
  cases s <;>
  simp only [Sample.cleanup, Sample.cleanupCall, map_run, Apimanagement.cleanup,
    CdnManagement.cleanup, CdnEndpoint.cleanup, Containerregistry.cleanup, Deployment.cleanup,
    Mysql.cleanup, Privatedns.cleanup, Servicebus.cleanup, Staticsite.cleanup,
    bind_def, pure_def, bind_assoc, pure_bind, pure_run, newClient_bind, beginRequest_bind,
    pollUntilDone_bind, List.append_assoc, List.singleton_append] <;>
  repeat' split
  all_goals
    simp only [Res.trace, Res.outcome]
    first
    | exact Or.inr ⟨_, _, rfl, Or.inl rfl⟩
    | exact Or.inr ⟨_, _, rfl, Or.inr ⟨_, _, rfl⟩⟩
    | (left; simp_all)

theorem cleanup_polls (s : Sample) (sub : String) (w : World) (tr : List Event) :
    ((s.cleanup sub w tr).trace = tr ∧ ∃ e, (s.cleanup sub w tr).outcome = .returned ∧
        s = .mysql ∧ w.newClient "armresources.NewResourceGroupsClient" = some e) ∨
      ∃ err evs, (s.cleanup sub w tr).trace = tr ++ Event.begin (s.cleanupCall sub) err :: evs ∧
        (err = none → ∃ rs e, evs = [Event.pollUntilDone (s.cleanupCall sub) rs e]) ∧
        (err ≠ none → evs = []) := by
  cases s <;>
  simp only [Sample.cleanup, Sample.cleanupCall, map_run, Apimanagement.cleanup,
    CdnManagement.cleanup, CdnEndpoint.cleanup, Containerregistry.cleanup, Deployment.cleanup,
    Mysql.cleanup, Privatedns.cleanup, Servicebus.cleanup, Staticsite.cleanup,
    bind_def, pure_def, bind_assoc, pure_bind, pure_run, newClient_bind, beginRequest_bind,
    pollUntilDone_bind, List.append_assoc, List.singleton_append] <;>
  repeat' split
  all_goals
    simp only [Res.trace, Res.outcome]
    first
    | exact Or.inr ⟨_, _, rfl, fun h => Option.noConfusion h, fun _ => rfl⟩
    | exact Or.inr ⟨_, _, rfl, fun _ => ⟨_, _, rfl⟩, fun h => absurd rfl h⟩
    | (left; simp_all)

theorem polled_tail (a : Event) (rest : List Event) (h : polled (a :: rest) = true) :
    polled rest = true := by
  cases a with
  | begin c err =>
    cases err with
    | none =>
      simp only [polled, Bool.and_eq_true] at h
      exact h.2
    | some e => simpa [polled] using h
  | credential err => simpa [polled] using h
  | call c err => simpa [polled] using h
  | pollUntilDone c rs err => simpa [polled] using h
  | log l => simpa [polled] using h

theorem polled_split :
    ∀ (tr pre post : List Event) (c : Call), polled tr = true →
      tr = pre ++ Event.begin c none :: post →
      ∃ rs err rest, post = Event.pollUntilDone c rs err :: rest ∧
        (rest ≠ [] → err = none ∧ rs.getLast? = some Status.succeeded) := by
  intro tr
  induction tr with
  | nil =>
    intro pre post c _ h
    simp at h
  | cons a rest ih =>
    intro pre post c hp h
    cases pre with
    | nil =>
      simp only [List.nil_append, List.cons.injEq] at h
      obtain ⟨rfl, rfl⟩ := h
      cases rest with
      | nil => simp [polled] at hp
      | cons b rest1 =>
        cases b with
        | pollUntilDone c1 rs err =>
          simp only [polled, Bool.and_eq_true, Bool.or_eq_true, beq_iff_eq,
            List.isEmpty_iff, Option.isNone_iff_eq_none] at hp
          obtain ⟨⟨rfl, hrest⟩, _⟩ := hp
          refine ⟨rs, err, rest1, rfl, ?_⟩
          intro hne
          rcases hrest with h1 | h1
          · exact absurd h1 hne
          · exact h1
        | credential err => simp [polled] at hp
        | call c1 err => simp [polled] at hp
        | begin c1 err => simp [polled] at hp
        | log l => simp [polled] at hp
    | cons a1 pre1 =>
      simp only [List.cons_append, List.cons.injEq] at h
      exact ih pre1 post c (polled_tail a rest hp) h.2


theorem succeeds_functions (w : World) (h : PrimarySucceeds w) :
    ∃ (resp : List Event → Call → Payload) (rid rsso : List Event → Call → String)
      (wait : List Event → Call → Nat) (opresp : List Event → Call → Payload)
      (oid oraw : List Event → Call → String) (file : String → String)
      (parsed : String → JsonMap),
      (w.getenv "AZURE_SUBSCRIPTION_ID").length ≠ 0 ∧ w.credential = none ∧
      (∀ n, w.newClient n = none) ∧
      (∀ tr c, w.request tr c = .ok (resp tr c)) ∧
      (∀ tr c, (resp tr c).id = some (rid tr c)) ∧
      (∀ tr c, (resp tr c).ssoURIValue = some (rsso tr c)) ∧
      (∀ tr c, isTeardown c = false →
        w.beginRequest tr c = .ok (wait tr c, .ok (opresp tr c))) ∧
      (∀ tr c, isTeardown c = false → (opresp tr c).id = some (oid tr c)) ∧
      (∀ tr c, isTeardown c = false → (opresp tr c).rawStatus = some (oraw tr c)) ∧
      (∀ path, w.readFile path = .ok (file path)) ∧
      (∀ d, w.unmarshalMap d = .ok (parsed d)) := by
  obtain ⟨hsub, hcred, hnew, hreq, hbeg, hfile, hjson⟩ := h
  choose resp hresp hcomplete using hreq
  choose! wait opresp hbegin using hbeg
  choose file hfile using hfile
  choose parsed hjson using hjson
  have h1 : ∀ tr c, ∃ i, (resp tr c).id = some i :=
    fun tr c => Option.ne_none_iff_exists'.1 (hcomplete tr c).1
  have h2 : ∀ tr c, ∃ i, (resp tr c).ssoURIValue = some i :=
    fun tr c => Option.ne_none_iff_exists'.1 (hcomplete tr c).2.2
  have h3 : ∀ tr c, isTeardown c = false → ∃ i, (opresp tr c).id = some i :=
    fun tr c hc => Option.ne_none_iff_exists'.1 (hbegin tr c hc).2.1
  have h4 : ∀ tr c, isTeardown c = false → ∃ i, (opresp tr c).rawStatus = some i :=
    fun tr c hc => Option.ne_none_iff_exists'.1 (hbegin tr c hc).2.2.1
  choose rid hrid using h1
  choose rsso hrsso using h2
  choose! oid hoid using h3
  choose! oraw horaw using h4
  exact ⟨resp, rid, rsso, wait, opresp, oid, oraw, file, parsed,
    length_ne_zero_of_ne_empty _ hsub, hcred, hnew, hresp, hrid, hrsso,
    fun tr c hc => (hbegin tr c hc).1, hoid, horaw, hfile, hjson⟩


/-! ## The helper functions, shape by shape -/

theorem lroPair_contract (c : Call) (w : World) (tr : List Event) :
    LroContract c (pairResult (Shape.lroPair c)) w tr := by
  refine ⟨fun e he => ?_, fun n r he => ?_, fun n e he => ?_⟩ <;>
  simp_all [pairResult, rawResult, errResult, map_run, Shape.lroPair,
    bind_def, pure_def, bind_assoc, pure_bind, pure_run, newClient_bind, request_bind,
    beginRequest_bind, pollUntilDone_bind]

theorem lroRaw_contract (c : Call) (w : World) (tr : List Event) :
    LroContract c (rawResult (Shape.lroRaw c)) w tr := by
  refine ⟨fun e he => ?_, fun n r he => ?_, fun n e he => ?_⟩ <;>
  simp_all [pairResult, rawResult, errResult, map_run, Shape.lroRaw,
    bind_def, pure_def, bind_assoc, pure_bind, pure_run, newClient_bind, request_bind,
    beginRequest_bind, pollUntilDone_bind]

theorem lroErr_contract (c : Call) (w : World) (tr : List Event) :
    LroContract c (errResult (Shape.lroErr c)) w tr := by
  refine ⟨fun e he => ?_, fun n r he => ?_, fun n e he => ?_⟩ <;>
  simp_all [pairResult, rawResult, errResult, map_run, Shape.lroErr,
    bind_def, pure_def, bind_assoc, pure_bind, pure_run, newClient_bind, request_bind,
    beginRequest_bind, pollUntilDone_bind]

theorem guarded_lroPair_contract (g : String) (c : Call) (w : World) (tr : List Event)
    (hg : w.newClient g = none) :
    LroContract c (pairResult (Shape.guardedPair g (Shape.lroPair c))) w tr := by
  refine ⟨fun e he => ?_, fun n r he => ?_, fun n e he => ?_⟩ <;>
  simp_all [pairResult, rawResult, errResult, map_run, Shape.lroPair, Shape.guardedPair,
    bind_def, pure_def, bind_assoc, pure_bind, pure_run, newClient_bind, request_bind,
    beginRequest_bind, pollUntilDone_bind]

theorem guarded_lroErr_contract (g : String) (c : Call) (w : World) (tr : List Event)
    (hg : w.newClient g = none) :
    LroContract c (errResult (Shape.guardedErr g (Shape.lroErr c))) w tr := by
  refine ⟨fun e he => ?_, fun n r he => ?_, fun n e he => ?_⟩ <;>
  simp_all [pairResult, rawResult, errResult, map_run, Shape.lroErr, Shape.guardedErr,
    bind_def, pure_def, bind_assoc, pure_bind, pure_run, newClient_bind, request_bind,
    beginRequest_bind, pollUntilDone_bind]

theorem createDeployment_contract (sub : String) (template params : JsonMap)
    (w : World) (tr : List Event) :
    LroContract (Deployment.createDeploymentCall sub template params) (pairResult (Deployment.createDeployment sub template params)) w tr := by
  refine ⟨fun e he => ?_, fun n r he => ?_, fun n e he => ?_⟩ <;>
  simp_all [pairResult, rawResult, errResult, map_run, Deployment.createDeployment,
    bind_def, pure_def, bind_assoc, pure_bind, pure_run, newClient_bind, request_bind,
    beginRequest_bind, pollUntilDone_bind]

theorem lroPair_verbatim (name : String) (c : Call) (w : World) (tr : List Event) :
    Verbatim { name := name, lro := true, guard := none, call := c, prog := pairResult (Shape.lroPair c) } w tr := by
  refine ⟨fun g1 e hg he => ?_, fun hg => ⟨fun hl e he => ?_, fun hl e he => ?_,
    fun hl n e he => ?_⟩⟩ <;>
  simp_all [pairResult, rawResult, errResult, boolResult, map_run, Shape.lroPair,
    bind_def, pure_def, bind_assoc, pure_bind, pure_run, newClient_bind, request_bind,
    beginRequest_bind, pollUntilDone_bind]

theorem lroRaw_verbatim (name : String) (c : Call) (w : World) (tr : List Event) :
    Verbatim { name := name, lro := true, guard := none, call := c, prog := rawResult (Shape.lroRaw c) } w tr := by
  refine ⟨fun g1 e hg he => ?_, fun hg => ⟨fun hl e he => ?_, fun hl e he => ?_,
    fun hl n e he => ?_⟩⟩ <;>
  simp_all [pairResult, rawResult, errResult, boolResult, map_run, Shape.lroRaw,
    bind_def, pure_def, bind_assoc, pure_bind, pure_run, newClient_bind, request_bind,
    beginRequest_bind, pollUntilDone_bind]

theorem lroErr_verbatim (name : String) (c : Call) (w : World) (tr : List Event) :
    Verbatim { name := name, lro := true, guard := none, call := c, prog := errResult (Shape.lroErr c) } w tr := by
  refine ⟨fun g1 e hg he => ?_, fun hg => ⟨fun hl e he => ?_, fun hl e he => ?_,
    fun hl n e he => ?_⟩⟩ <;>
  simp_all [pairResult, rawResult, errResult, boolResult, map_run, Shape.lroErr,
    bind_def, pure_def, bind_assoc, pure_bind, pure_run, newClient_bind, request_bind,
    beginRequest_bind, pollUntilDone_bind]

theorem syncPair_verbatim (name : String) (c : Call) (w : World) (tr : List Event) :
    Verbatim { name := name, lro := false, guard := none, call := c, prog := pairResult (Shape.syncPair c) } w tr := by
  refine ⟨fun g1 e hg he => ?_, fun hg => ⟨fun hl e he => ?_, fun hl e he => ?_,
    fun hl n e he => ?_⟩⟩ <;>
  simp_all [pairResult, rawResult, errResult, boolResult, map_run, Shape.syncPair,
    bind_def, pure_def, bind_assoc, pure_bind, pure_run, newClient_bind, request_bind,
    beginRequest_bind, pollUntilDone_bind]

theorem guarded_lroPair_verbatim (name : String) (g : String) (c : Call) (w : World) (tr : List Event) :
    Verbatim { name := name, lro := true, guard := some g, call := c, prog := pairResult (Shape.guardedPair g (Shape.lroPair c)) } w tr := by
  refine ⟨fun g1 e hg he => ?_, fun hg => ⟨fun hl e he => ?_, fun hl e he => ?_,
    fun hl n e he => ?_⟩⟩ <;>
  simp_all [pairResult, rawResult, errResult, boolResult, map_run, Shape.lroPair, Shape.guardedPair,
    bind_def, pure_def, bind_assoc, pure_bind, pure_run, newClient_bind, request_bind,
    beginRequest_bind, pollUntilDone_bind]

theorem guarded_syncPair_verbatim (name : String) (g : String) (c : Call) (w : World) (tr : List Event) :
    Verbatim { name := name, lro := false, guard := some g, call := c, prog := pairResult (Shape.guardedPair g (Shape.syncPair c)) } w tr := by
  refine ⟨fun g1 e hg he => ?_, fun hg => ⟨fun hl e he => ?_, fun hl e he => ?_,
    fun hl n e he => ?_⟩⟩ <;>
  simp_all [pairResult, rawResult, errResult, boolResult, map_run, Shape.syncPair, Shape.guardedPair,
    bind_def, pure_def, bind_assoc, pure_bind, pure_run, newClient_bind, request_bind,
    beginRequest_bind, pollUntilDone_bind]

theorem guarded_lroErr_verbatim (name : String) (g : String) (c : Call) (w : World) (tr : List Event) :
    Verbatim { name := name, lro := true, guard := some g, call := c, prog := errResult (Shape.guardedErr g (Shape.lroErr c)) } w tr := by
  refine ⟨fun g1 e hg he => ?_, fun hg => ⟨fun hl e he => ?_, fun hl e he => ?_,
    fun hl n e he => ?_⟩⟩ <;>
  simp_all [pairResult, rawResult, errResult, boolResult, map_run, Shape.lroErr, Shape.guardedErr,
    bind_def, pure_def, bind_assoc, pure_bind, pure_run, newClient_bind, request_bind,
    beginRequest_bind, pollUntilDone_bind]

theorem checkExistDeployment_verbatim (sub : String) (w : World) (tr : List Event) :
    Verbatim { name := "Deployment.checkExistDeployment", lro := false, guard := none,
               call := Deployment.checkExistDeploymentCall sub,
               prog := boolResult (Deployment.checkExistDeployment sub) } w tr := by
  refine ⟨fun g1 e hg he => ?_, fun hg => ⟨fun hl e he => ?_, fun hl e he => ?_,
    fun hl n e he => ?_⟩⟩ <;>
  simp_all [boolResult, Deployment.checkExistDeployment,
    bind_def, pure_def, bind_assoc, pure_bind, pure_run, newClient_bind, request_bind,
    beginRequest_bind, pollUntilDone_bind]

theorem helpers_poll (sub resourceID token : String) (template params : JsonMap) :
    ∀ h ∈ helpers sub resourceID token template params, h.lro = true →
      ∀ (w : World) (tr : List Event), (∀ g, h.guard = some g → w.newClient g = none) →
        LroContract h.call h.prog w tr := by
  intro h hm
  unfold helpers at hm
  -- Apimanagement.deleteService
  rcases List.mem_cons.1 hm with rfl | hm
  · intro hl w tr hg
    exact lroRaw_contract _ w tr
  -- Apimanagement.createApiManagementService
  rcases List.mem_cons.1 hm with rfl | hm
  · intro hl w tr hg
    exact lroPair_contract _ w tr
  -- Apimanagement.deleteApiManagementService
  rcases List.mem_cons.1 hm with rfl | hm
  · intro hl w tr hg
    exact lroPair_contract _ w tr
  -- Apimanagement.createResourceGroup
  rcases List.mem_cons.1 hm with rfl | hm
  · intro hl w tr hg
    exact Bool.noConfusion hl
  -- Apimanagement.cleanup
  rcases List.mem_cons.1 hm with rfl | hm
  · intro hl w tr hg
    exact lroRaw_contract _ w tr
  -- CdnManagement.createProfile
  rcases List.mem_cons.1 hm with rfl | hm
  · intro hl w tr hg
    exact lroPair_contract _ w tr
  -- CdnManagement.generateSsoURI
  rcases List.mem_cons.1 hm with rfl | hm
  · intro hl w tr hg
    exact Bool.noConfusion hl
  -- CdnManagement.createResourceGroup
  rcases List.mem_cons.1 hm with rfl | hm
  · intro hl w tr hg
    exact Bool.noConfusion hl
  -- CdnManagement.cleanup
  rcases List.mem_cons.1 hm with rfl | hm
  · intro hl w tr hg
    exact lroRaw_contract _ w tr
  -- CdnEndpoint.createProfile
  rcases List.mem_cons.1 hm with rfl | hm
  · intro hl w tr hg
    exact lroPair_contract _ w tr
  -- CdnEndpoint.createEndpoint
  rcases List.mem_cons.1 hm with rfl | hm
  · intro hl w tr hg
    exact lroPair_contract _ w tr
  -- CdnEndpoint.purgeContent
  rcases List.mem_cons.1 hm with rfl | hm
  · intro hl w tr hg
    exact lroRaw_contract _ w tr
  -- CdnEndpoint.startEndpoint
  rcases List.mem_cons.1 hm with rfl | hm
  · intro hl w tr hg
    exact lroPair_contract _ w tr
  -- CdnEndpoint.stopEndpoint
  rcases List.mem_cons.1 hm with rfl | hm
  · intro hl w tr hg
    exact lroPair_contract _ w tr
  -- CdnEndpoint.createResourceGroup
  rcases List.mem_cons.1 hm with rfl | hm
  · intro hl w tr hg
    exact Bool.noConfusion hl
  -- CdnEndpoint.cleanup
  rcases List.mem_cons.1 hm with rfl | hm
  · intro hl w tr hg
    exact lroRaw_contract _ w tr
  -- Containerregistry.createRegistry
  rcases List.mem_cons.1 hm with rfl | hm
  · intro hl w tr hg
    exact lroPair_contract _ w tr
  -- Containerregistry.createReplication
  rcases List.mem_cons.1 hm with rfl | hm
  · intro hl w tr hg
    exact lroPair_contract _ w tr
  -- Containerregistry.getReplication
  rcases List.mem_cons.1 hm with rfl | hm
  · intro hl w tr hg
    exact Bool.noConfusion hl
  -- Containerregistry.createResourceGroup
  rcases List.mem_cons.1 hm with rfl | hm
  · intro hl w tr hg
    exact Bool.noConfusion hl
  -- Containerregistry.cleanup
  rcases List.mem_cons.1 hm with rfl | hm
  · intro hl w tr hg
    exact lroRaw_contract _ w tr
  -- Deployment.checkExistDeployment
  rcases List.mem_cons.1 hm with rfl | hm
  · intro hl w tr hg
    exact Bool.noConfusion hl
  -- Deployment.createDeployment
  rcases List.mem_cons.1 hm with rfl | hm
  · intro hl w tr hg
    exact createDeployment_contract sub template params w tr
  -- Deployment.validateDeployment
  rcases List.mem_cons.1 hm with rfl | hm
  · intro hl w tr hg
    exact lroPair_contract _ w tr
  -- Deployment.createResourceGroup
  rcases List.mem_cons.1 hm with rfl | hm
  · intro hl w tr hg
    exact Bool.noConfusion hl
  -- Deployment.cleanup
  rcases List.mem_cons.1 hm with rfl | hm
  · intro hl w tr hg
    exact lroRaw_contract _ w tr
  -- Mysql.createServer
  rcases List.mem_cons.1 hm with rfl | hm
  · intro hl w tr hg
    exact guarded_lroPair_contract _ _ w tr (hg _ rfl)
  -- Mysql.getServer
  rcases List.mem_cons.1 hm with rfl | hm
  · intro hl w tr hg
    exact Bool.noConfusion hl
  -- Mysql.createResourceGroup
  rcases List.mem_cons.1 hm with rfl | hm
  · intro hl w tr hg
    exact Bool.noConfusion hl
  -- Mysql.cleanup
  rcases List.mem_cons.1 hm with rfl | hm
  · intro hl w tr hg
    exact guarded_lroErr_contract _ _ w tr (hg _ rfl)
  -- Privatedns.createPrivateZone
  rcases List.mem_cons.1 hm with rfl | hm
  · intro hl w tr hg
    exact lroPair_contract _ w tr
  -- Privatedns.createResourceGroup
  rcases List.mem_cons.1 hm with rfl | hm
  · intro hl w tr hg
    exact Bool.noConfusion hl
  -- Privatedns.cleanup
  rcases List.mem_cons.1 hm with rfl | hm
  · intro hl w tr hg
    exact lroErr_contract _ w tr
  -- Servicebus.createVirtualNetwork
  rcases List.mem_cons.1 hm with rfl | hm
  · intro hl w tr hg
    exact lroPair_contract _ w tr
  -- Servicebus.createSubnet
  rcases List.mem_cons.1 hm with rfl | hm
  · intro hl w tr hg
    exact lroPair_contract _ w tr
  -- Servicebus.createNamespace
  rcases List.mem_cons.1 hm with rfl | hm
  · intro hl w tr hg
    exact lroPair_contract _ w tr
  -- Servicebus.createNamespaceAuthorizationRule
  rcases List.mem_cons.1 hm with rfl | hm
  · intro hl w tr hg
    exact Bool.noConfusion hl
  -- Servicebus.createNamespaceNetworkRuleSet
  rcases List.mem_cons.1 hm with rfl | hm
  · intro hl w tr hg
    exact Bool.noConfusion hl
  -- Servicebus.createResourceGroup
  rcases List.mem_cons.1 hm with rfl | hm
  · intro hl w tr hg
    exact Bool.noConfusion hl
  -- Servicebus.cleanup
  rcases List.mem_cons.1 hm with rfl | hm
  · intro hl w tr hg
    exact lroErr_contract _ w tr
  -- Staticsite.createAppServicePlan
  rcases List.mem_cons.1 hm with rfl | hm
  · intro hl w tr hg
    exact lroPair_contract _ w tr
  -- Staticsite.createStaticSite
  rcases List.mem_cons.1 hm with rfl | hm
  · intro hl w tr hg
    exact lroPair_contract _ w tr
  -- Staticsite.createWebApp
  rcases List.mem_cons.1 hm with rfl | hm
  · intro hl w tr hg
    exact lroPair_contract _ w tr
  -- Staticsite.getAppConfiguration
  rcases List.mem_cons.1 hm with rfl | hm
  · intro hl w tr hg
    exact Bool.noConfusion hl
  -- Staticsite.createResourceGroup
  rcases List.mem_cons.1 hm with rfl | hm
  · intro hl w tr hg
    exact Bool.noConfusion hl
  -- Staticsite.cleanup
  rcases List.mem_cons.1 hm with rfl | hm
  · intro hl w tr hg
    exact lroRaw_contract _ w tr
  exact absurd hm (List.not_mem_nil _)

theorem helpers_verbatim (sub resourceID token : String) (template params : JsonMap) :
    ∀ h ∈ helpers sub resourceID token template params,
      h.name ≠ "Deployment.createDeployment" → ∀ (w : World) (tr : List Event),
        Verbatim h w tr := by
  intro h hm
  unfold helpers at hm
  -- Apimanagement.deleteService
  rcases List.mem_cons.1 hm with rfl | hm
  · intro _ w tr
    exact lroRaw_verbatim _ _ w tr
  -- Apimanagement.createApiManagementService
  rcases List.mem_cons.1 hm with rfl | hm
  · intro _ w tr
    exact lroPair_verbatim _ _ w tr
  -- Apimanagement.deleteApiManagementService
  rcases List.mem_cons.1 hm with rfl | hm
  · intro _ w tr
    exact lroPair_verbatim _ _ w tr
  -- Apimanagement.createResourceGroup
  rcases List.mem_cons.1 hm with rfl | hm
  · intro _ w tr
    exact syncPair_verbatim _ _ w tr
  -- Apimanagement.cleanup
  rcases List.mem_cons.1 hm with rfl | hm
  · intro _ w tr
    exact lroRaw_verbatim _ _ w tr
  -- CdnManagement.createProfile
  rcases List.mem_cons.1 hm with rfl | hm
  · intro _ w tr
    exact lroPair_verbatim _ _ w tr
  -- CdnManagement.generateSsoURI
  rcases List.mem_cons.1 hm with rfl | hm
  · intro _ w tr
    exact syncPair_verbatim _ _ w tr
  -- CdnManagement.createResourceGroup
  rcases List.mem_cons.1 hm with rfl | hm
  · intro _ w tr
    exact syncPair_verbatim _ _ w tr
  -- CdnManagement.cleanup
  rcases List.mem_cons.1 hm with rfl | hm
  · intro _ w tr
    exact lroRaw_verbatim _ _ w tr
  -- CdnEndpoint.createProfile
  rcases List.mem_cons.1 hm with rfl | hm
  · intro _ w tr
    exact lroPair_verbatim _ _ w tr
  -- CdnEndpoint.createEndpoint
  rcases List.mem_cons.1 hm with rfl | hm
  · intro _ w tr
    exact lroPair_verbatim _ _ w tr
  -- CdnEndpoint.purgeContent
  rcases List.mem_cons.1 hm with rfl | hm
  · intro _ w tr
    exact lroRaw_verbatim _ _ w tr
  -- CdnEndpoint.startEndpoint
  rcases List.mem_cons.1 hm with rfl | hm
  · intro _ w tr
    exact lroPair_verbatim _ _ w tr
  -- CdnEndpoint.stopEndpoint
  rcases List.mem_cons.1 hm with rfl | hm
  · intro _ w tr
    exact lroPair_verbatim _ _ w tr
  -- CdnEndpoint.createResourceGroup
  rcases List.mem_cons.1 hm with rfl | hm
  · intro _ w tr
    exact syncPair_verbatim _ _ w tr
  -- CdnEndpoint.cleanup
  rcases List.mem_cons.1 hm with rfl | hm
  · intro _ w tr
    exact lroRaw_verbatim _ _ w tr
  -- Containerregistry.createRegistry
  rcases List.mem_cons.1 hm with rfl | hm
  · intro _ w tr
    exact lroPair_verbatim _ _ w tr
  -- Containerregistry.createReplication
  rcases List.mem_cons.1 hm with rfl | hm
  · intro _ w tr
    exact lroPair_verbatim _ _ w tr
  -- Containerregistry.getReplication
  rcases List.mem_cons.1 hm with rfl | hm
  · intro _ w tr
    exact syncPair_verbatim _ _ w tr
  -- Containerregistry.createResourceGroup
  rcases List.mem_cons.1 hm with rfl | hm
  · intro _ w tr
    exact syncPair_verbatim _ _ w tr
  -- Containerregistry.cleanup
  rcases List.mem_cons.1 hm with rfl | hm
  · intro _ w tr
    exact lroRaw_verbatim _ _ w tr
  -- Deployment.checkExistDeployment
  rcases List.mem_cons.1 hm with rfl | hm
  · intro _ w tr
    exact checkExistDeployment_verbatim sub w tr
  -- Deployment.createDeployment
  rcases List.mem_cons.1 hm with rfl | hm
  · intro hne w tr
    exact absurd rfl hne
  -- Deployment.validateDeployment
  rcases List.mem_cons.1 hm with rfl | hm
  · intro _ w tr
    exact lroPair_verbatim _ _ w tr
  -- Deployment.createResourceGroup
  rcases List.mem_cons.1 hm with rfl | hm
  · intro _ w tr
    exact syncPair_verbatim _ _ w tr
  -- Deployment.cleanup
  rcases List.mem_cons.1 hm with rfl | hm
  · intro _ w tr
    exact lroRaw_verbatim _ _ w tr
  -- Mysql.createServer
  rcases List.mem_cons.1 hm with rfl | hm
  · intro _ w tr
    exact guarded_lroPair_verbatim _ _ _ w tr
  -- Mysql.getServer
  rcases List.mem_cons.1 hm with rfl | hm
  · intro _ w tr
    exact guarded_syncPair_verbatim _ _ _ w tr
  -- Mysql.createResourceGroup
  rcases List.mem_cons.1 hm with rfl | hm
  · intro _ w tr
    exact guarded_syncPair_verbatim _ _ _ w tr
  -- Mysql.cleanup
  rcases List.mem_cons.1 hm with rfl | hm
  · intro _ w tr
    exact guarded_lroErr_verbatim _ _ _ w tr
  -- Privatedns.createPrivateZone
  rcases List.mem_cons.1 hm with rfl | hm
  · intro _ w tr
    exact lroPair_verbatim _ _ w tr
  -- Privatedns.createResourceGroup
  rcases List.mem_cons.1 hm with rfl | hm
  · intro _ w tr
    exact syncPair_verbatim _ _ w tr
  -- Privatedns.cleanup
  rcases List.mem_cons.1 hm with rfl | hm
  · intro _ w tr
    exact lroErr_verbatim _ _ w tr
  -- Servicebus.createVirtualNetwork
  rcases List.mem_cons.1 hm with rfl | hm
  · intro _ w tr
    exact lroPair_verbatim _ _ w tr
  -- Servicebus.createSubnet
  rcases List.mem_cons.1 hm with rfl | hm
  · intro _ w tr
    exact lroPair_verbatim _ _ w tr
  -- Servicebus.createNamespace
  rcases List.mem_cons.1 hm with rfl | hm
  · intro _ w tr
    exact lroPair_verbatim _ _ w tr
  -- Servicebus.createNamespaceAuthorizationRule
  rcases List.mem_cons.1 hm with rfl | hm
  · intro _ w tr
    exact syncPair_verbatim _ _ w tr
  -- Servicebus.createNamespaceNetworkRuleSet
  rcases List.mem_cons.1 hm with rfl | hm
  · intro _ w tr
    exact syncPair_verbatim _ _ w tr
  -- Servicebus.createResourceGroup
  rcases List.mem_cons.1 hm with rfl | hm
  · intro _ w tr
    exact syncPair_verbatim _ _ w tr
  -- Servicebus.cleanup
  rcases List.mem_cons.1 hm with rfl | hm
  · intro _ w tr
    exact lroErr_verbatim _ _ w tr
  -- Staticsite.createAppServicePlan
  rcases List.mem_cons.1 hm with rfl | hm
  · intro _ w tr
    exact lroPair_verbatim _ _ w tr
  -- Staticsite.createStaticSite
  rcases List.mem_cons.1 hm with rfl | hm
  · intro _ w tr
    exact lroPair_verbatim _ _ w tr
  -- Staticsite.createWebApp
  rcases List.mem_cons.1 hm with rfl | hm
  · intro _ w tr
    exact lroPair_verbatim _ _ w tr
  -- Staticsite.getAppConfiguration
  rcases List.mem_cons.1 hm with rfl | hm
  · intro _ w tr
    exact syncPair_verbatim _ _ w tr
  -- Staticsite.createResourceGroup
  rcases List.mem_cons.1 hm with rfl | hm
  · intro _ w tr
    exact syncPair_verbatim _ _ w tr
  -- Staticsite.cleanup
  rcases List.mem_cons.1 hm with rfl | hm
  · intro _ w tr
    exact lroRaw_verbatim _ _ w tr
  exact absurd hm (List.not_mem_nil _)

/-! ## Teardown after a successful primary workflow -/

theorem torn_cdnManagement (w : World) (h : PrimarySucceeds w)
    (hk : w.getenv "KEEP_RESOURCE" = "") :
    TornDownOnce .cdnManagement (w.getenv "AZURE_SUBSCRIPTION_ID") (CdnManagement.main w []).trace := by
  obtain ⟨resp, rid, rsso, wait, opresp, oid, oraw, file, parsed, hlen, hcred, hnew, hresp,
    hrid, hsso, hb1, hoid, hraw, hfile, hjson⟩ := succeeds_functions w h
  have nt_createProfileCall : ∀ sub, isTeardown (CdnManagement.createProfileCall sub) = false := by
    intros
    rfl
  have nt_generateSsoURICall : ∀ sub, isTeardown (CdnManagement.generateSsoURICall sub) = false := by
    intros
    rfl
  simp only [CdnManagement.main, CdnManagement.createResourceGroup, CdnManagement.createProfile,
    CdnManagement.generateSsoURI, CdnManagement.cleanup,
    bind_def, pure_def, bind_assoc, pure_bind, ite_run, pure_run, getenv_bind,
    logFatal_bind, logFatal_run, credential_bind, newClient_bind, fatalIf_some_bind,
    fatalIf_none_bind, logPrintln_bind, logPrintln_run, logPrintln1_bind, logPrintln1_run,
    derefID_bind, deref_bind, readFile_bind, unmarshalMap_bind, request_bind,
    beginRequest_bind, pollUntilDone_bind, Option.some_bind, Option.none_bind,
    List.nil_append, List.append_assoc, List.singleton_append, List.cons_append,
    hcred, hnew, hresp, hrid, hsso, hb1, hoid, hraw, hfile, hjson, hk, hlen, if_false,
    String.length_empty, if_true, nt_createProfileCall, nt_generateSsoURICall]
  repeat' split
  all_goals
    simp [TornDownOnce, beforeTeardown, fromTeardown, Res.trace, List.takeWhile_cons,
      List.dropWhile_cons, Event.teardown, Event.failed, Event.request, Event.begins,
      isTeardown, ops, Event.op, primary_cdnManagement, Sample.cleanupCall,
      CdnManagement.createResourceGroupCall, CdnManagement.createProfileCall,
      CdnManagement.generateSsoURICall, CdnManagement.cleanupCall]

theorem torn_cdnEndpoint (w : World) (h : PrimarySucceeds w)
    (hk : w.getenv "KEEP_RESOURCE" = "") :
    TornDownOnce .cdnEndpoint (w.getenv "AZURE_SUBSCRIPTION_ID") (CdnEndpoint.main w []).trace := by
  obtain ⟨resp, rid, rsso, wait, opresp, oid, oraw, file, parsed, hlen, hcred, hnew, hresp,
    hrid, hsso, hb1, hoid, hraw, hfile, hjson⟩ := succeeds_functions w h
  have nt_createProfileCall : ∀ sub, isTeardown (CdnEndpoint.createProfileCall sub) = false := by
    intros
    rfl
  have nt_createEndpointCall : ∀ sub, isTeardown (CdnEndpoint.createEndpointCall sub) = false := by
    intros
    rfl
  have nt_purgeContentCall : ∀ sub, isTeardown (CdnEndpoint.purgeContentCall sub) = false := by
    intros
    rfl
  have nt_startEndpointCall : ∀ sub, isTeardown (CdnEndpoint.startEndpointCall sub) = false := by
    intros
    rfl
  have nt_stopEndpointCall : ∀ sub, isTeardown (CdnEndpoint.stopEndpointCall sub) = false := by
    intros
    rfl
  simp only [CdnEndpoint.main, CdnEndpoint.createResourceGroup, CdnEndpoint.createProfile,
    CdnEndpoint.createEndpoint, CdnEndpoint.purgeContent, CdnEndpoint.startEndpoint,
    CdnEndpoint.stopEndpoint, CdnEndpoint.cleanup,
    bind_def, pure_def, bind_assoc, pure_bind, ite_run, pure_run, getenv_bind,
    logFatal_bind, logFatal_run, credential_bind, newClient_bind, fatalIf_some_bind,
    fatalIf_none_bind, logPrintln_bind, logPrintln_run, logPrintln1_bind, logPrintln1_run,
    derefID_bind, deref_bind, readFile_bind, unmarshalMap_bind, request_bind,
    beginRequest_bind, pollUntilDone_bind, Option.some_bind, Option.none_bind,
    List.nil_append, List.append_assoc, List.singleton_append, List.cons_append,
    hcred, hnew, hresp, hrid, hsso, hb1, hoid, hraw, hfile, hjson, hk, hlen, if_false,
    String.length_empty, if_true, nt_createProfileCall, nt_createEndpointCall, nt_purgeContentCall, nt_startEndpointCall, nt_stopEndpointCall]
  repeat' split
  all_goals
    simp [TornDownOnce, beforeTeardown, fromTeardown, Res.trace, List.takeWhile_cons,
      List.dropWhile_cons, Event.teardown, Event.failed, Event.request, Event.begins,
      isTeardown, ops, Event.op, primary_cdnEndpoint, Sample.cleanupCall,
      CdnEndpoint.createResourceGroupCall, CdnEndpoint.createProfileCall,
      CdnEndpoint.createEndpointCall, CdnEndpoint.purgeContentCall,
      CdnEndpoint.startEndpointCall, CdnEndpoint.stopEndpointCall, CdnEndpoint.cleanupCall]

theorem torn_containerregistry (w : World) (h : PrimarySucceeds w)
    (hk : w.getenv "KEEP_RESOURCE" = "") :
    TornDownOnce .containerregistry (w.getenv "AZURE_SUBSCRIPTION_ID") (Containerregistry.main w []).trace := by
  obtain ⟨resp, rid, rsso, wait, opresp, oid, oraw, file, parsed, hlen, hcred, hnew, hresp,
    hrid, hsso, hb1, hoid, hraw, hfile, hjson⟩ := succeeds_functions w h
  have nt_createRegistryCall : ∀ sub, isTeardown (Containerregistry.createRegistryCall sub) = false := by
    intros
    rfl
  have nt_createReplicationCall : ∀ sub, isTeardown (Containerregistry.createReplicationCall sub) = false := by
    intros
    rfl
  have nt_getReplicationCall : ∀ sub, isTeardown (Containerregistry.getReplicationCall sub) = false := by
    intros
    rfl
  simp only [Containerregistry.main, Containerregistry.createResourceGroup,
    Containerregistry.createRegistry, Containerregistry.createReplication,
    Containerregistry.getReplication, Containerregistry.cleanup,
    bind_def, pure_def, bind_assoc, pure_bind, ite_run, pure_run, getenv_bind,
    logFatal_bind, logFatal_run, credential_bind, newClient_bind, fatalIf_some_bind,
    fatalIf_none_bind, logPrintln_bind, logPrintln_run, logPrintln1_bind, logPrintln1_run,
    derefID_bind, deref_bind, readFile_bind, unmarshalMap_bind, request_bind,
    beginRequest_bind, pollUntilDone_bind, Option.some_bind, Option.none_bind,
    List.nil_append, List.append_assoc, List.singleton_append, List.cons_append,
    hcred, hnew, hresp, hrid, hsso, hb1, hoid, hraw, hfile, hjson, hk, hlen, if_false,
    String.length_empty, if_true, nt_createRegistryCall, nt_createReplicationCall, nt_getReplicationCall]
  repeat' split
  all_goals
    simp [TornDownOnce, beforeTeardown, fromTeardown, Res.trace, List.takeWhile_cons,
      List.dropWhile_cons, Event.teardown, Event.failed, Event.request, Event.begins,
      isTeardown, ops, Event.op, primary_containerregistry, Sample.cleanupCall,
      Containerregistry.createResourceGroupCall, Containerregistry.createRegistryCall,
      Containerregistry.createReplicationCall, Containerregistry.getReplicationCall,
      Containerregistry.cleanupCall]

theorem torn_deployment (w : World) (h : PrimarySucceeds w)
    (hk : w.getenv "KEEP_RESOURCE" = "") :
    TornDownOnce .deployment (w.getenv "AZURE_SUBSCRIPTION_ID") (Deployment.main w []).trace := by
  obtain ⟨resp, rid, rsso, wait, opresp, oid, oraw, file, parsed, hlen, hcred, hnew, hresp,
    hrid, hsso, hb1, hoid, hraw, hfile, hjson⟩ := succeeds_functions w h
  have nt_checkExistDeploymentCall : ∀ sub, isTeardown (Deployment.checkExistDeploymentCall sub) = false := by
    intros
    rfl
  have nt_createDeploymentCall : ∀ sub t p, isTeardown (Deployment.createDeploymentCall sub t p) = false := by
    intros
    rfl
  have nt_validateDeploymentCall : ∀ sub t p, isTeardown (Deployment.validateDeploymentCall sub t p) = false := by
    intros
    rfl
  simp only [Deployment.main, Deployment.createResourceGroup, Deployment.checkExistDeployment,
    Deployment.readJson, Deployment.createDeployment, Deployment.validateDeployment,
    Deployment.cleanup,
    bind_def, pure_def, bind_assoc, pure_bind, ite_run, pure_run, getenv_bind,
    logFatal_bind, logFatal_run, credential_bind, newClient_bind, fatalIf_some_bind,
    fatalIf_none_bind, logPrintln_bind, logPrintln_run, logPrintln1_bind, logPrintln1_run,
    derefID_bind, deref_bind, readFile_bind, unmarshalMap_bind, request_bind,
    beginRequest_bind, pollUntilDone_bind, Option.some_bind, Option.none_bind,
    List.nil_append, List.append_assoc, List.singleton_append, List.cons_append,
    hcred, hnew, hresp, hrid, hsso, hb1, hoid, hraw, hfile, hjson, hk, hlen, if_false,
    String.length_empty, if_true, nt_checkExistDeploymentCall, nt_createDeploymentCall, nt_validateDeploymentCall]
  repeat' split
  all_goals
    simp [TornDownOnce, beforeTeardown, fromTeardown, Res.trace, List.takeWhile_cons,
      List.dropWhile_cons, Event.teardown, Event.failed, Event.request, Event.begins,
      isTeardown, ops, Event.op, primary_deployment, Sample.cleanupCall,
      Deployment.createResourceGroupCall, Deployment.checkExistDeploymentCall,
      Deployment.createDeploymentCall, Deployment.validateDeploymentCall,
      Deployment.cleanupCall]

theorem torn_mysql (w : World) (h : PrimarySucceeds w)
    (hk : w.getenv "KEEP_RESOURCE" = "") :
    TornDownOnce .mysql (w.getenv "AZURE_SUBSCRIPTION_ID") (Mysql.main w []).trace := by
  obtain ⟨resp, rid, rsso, wait, opresp, oid, oraw, file, parsed, hlen, hcred, hnew, hresp,
    hrid, hsso, hb1, hoid, hraw, hfile, hjson⟩ := succeeds_functions w h
  have nt_createServerCall : ∀ sub, isTeardown (Mysql.createServerCall sub) = false := by
    intros
    rfl
  have nt_getServerCall : ∀ sub, isTeardown (Mysql.getServerCall sub) = false := by
    intros
    rfl
  simp only [Mysql.main, Mysql.createResourceGroup, Mysql.createServer, Mysql.getServer, Mysql.cleanup,
    bind_def, pure_def, bind_assoc, pure_bind, ite_run, pure_run, getenv_bind,
    logFatal_bind, logFatal_run, credential_bind, newClient_bind, fatalIf_some_bind,
    fatalIf_none_bind, logPrintln_bind, logPrintln_run, logPrintln1_bind, logPrintln1_run,
    derefID_bind, deref_bind, readFile_bind, unmarshalMap_bind, request_bind,
    beginRequest_bind, pollUntilDone_bind, Option.some_bind, Option.none_bind,
    List.nil_append, List.append_assoc, List.singleton_append, List.cons_append,
    hcred, hnew, hresp, hrid, hsso, hb1, hoid, hraw, hfile, hjson, hk, hlen, if_false,
    String.length_empty, if_true, nt_createServerCall, nt_getServerCall]
  repeat' split
  all_goals
    simp [TornDownOnce, beforeTeardown, fromTeardown, Res.trace, List.takeWhile_cons,
      List.dropWhile_cons, Event.teardown, Event.failed, Event.request, Event.begins,
      isTeardown, ops, Event.op, primary_mysql, Sample.cleanupCall,
      Mysql.createResourceGroupCall, Mysql.createServerCall, Mysql.getServerCall,
      Mysql.cleanupCall]

theorem torn_privatedns (w : World) (h : PrimarySucceeds w)
    (hk : w.getenv "KEEP_RESOURCE" = "") :
    TornDownOnce .privatedns (w.getenv "AZURE_SUBSCRIPTION_ID") (Privatedns.main w []).trace := by
  obtain ⟨resp, rid, rsso, wait, opresp, oid, oraw, file, parsed, hlen, hcred, hnew, hresp,
    hrid, hsso, hb1, hoid, hraw, hfile, hjson⟩ := succeeds_functions w h
  have nt_createPrivateZoneCall : ∀ sub, isTeardown (Privatedns.createPrivateZoneCall sub) = false := by
    intros
    rfl
  simp only [Privatedns.main, Privatedns.createResourceGroup, Privatedns.createPrivateZone,
    Privatedns.cleanup,
    bind_def, pure_def, bind_assoc, pure_bind, ite_run, pure_run, getenv_bind,
    logFatal_bind, logFatal_run, credential_bind, newClient_bind, fatalIf_some_bind,
    fatalIf_none_bind, logPrintln_bind, logPrintln_run, logPrintln1_bind, logPrintln1_run,
    derefID_bind, deref_bind, readFile_bind, unmarshalMap_bind, request_bind,
    beginRequest_bind, pollUntilDone_bind, Option.some_bind, Option.none_bind,
    List.nil_append, List.append_assoc, List.singleton_append, List.cons_append,
    hcred, hnew, hresp, hrid, hsso, hb1, hoid, hraw, hfile, hjson, hk, hlen, if_false,
    String.length_empty, if_true, nt_createPrivateZoneCall]
  repeat' split
  all_goals
    simp [TornDownOnce, beforeTeardown, fromTeardown, Res.trace, List.takeWhile_cons,
      List.dropWhile_cons, Event.teardown, Event.failed, Event.request, Event.begins,
      isTeardown, ops, Event.op, primary_privatedns, Sample.cleanupCall,
      Privatedns.createResourceGroupCall, Privatedns.createPrivateZoneCall,
      Privatedns.cleanupCall]

theorem torn_servicebus (w : World) (h : PrimarySucceeds w)
    (hk : w.getenv "KEEP_RESOURCE" = "") :
    TornDownOnce .servicebus (w.getenv "AZURE_SUBSCRIPTION_ID") (Servicebus.main w []).trace := by
  obtain ⟨resp, rid, rsso, wait, opresp, oid, oraw, file, parsed, hlen, hcred, hnew, hresp,
    hrid, hsso, hb1, hoid, hraw, hfile, hjson⟩ := succeeds_functions w h
  have nt_createVirtualNetworkCall : ∀ sub, isTeardown (Servicebus.createVirtualNetworkCall sub) = false := by
    intros
    rfl
  have nt_createSubnetCall : ∀ sub, isTeardown (Servicebus.createSubnetCall sub) = false := by
    intros
    rfl
  have nt_createNamespaceCall : ∀ sub, isTeardown (Servicebus.createNamespaceCall sub) = false := by
    intros
    rfl
  have nt_createNamespaceAuthorizationRuleCall : ∀ sub, isTeardown (Servicebus.createNamespaceAuthorizationRuleCall sub) = false := by
    intros
    rfl
  have nt_createNamespaceNetworkRuleSetCall : ∀ sub i, isTeardown (Servicebus.createNamespaceNetworkRuleSetCall sub i) = false := by
    intros
    rfl
  simp only [Servicebus.main, Servicebus.createResourceGroup, Servicebus.createVirtualNetwork,
    Servicebus.createSubnet, Servicebus.createNamespace,
    Servicebus.createNamespaceAuthorizationRule, Servicebus.createNamespaceNetworkRuleSet,
    Servicebus.cleanup,
    bind_def, pure_def, bind_assoc, pure_bind, ite_run, pure_run, getenv_bind,
    logFatal_bind, logFatal_run, credential_bind, newClient_bind, fatalIf_some_bind,
    fatalIf_none_bind, logPrintln_bind, logPrintln_run, logPrintln1_bind, logPrintln1_run,
    derefID_bind, deref_bind, readFile_bind, unmarshalMap_bind, request_bind,
    beginRequest_bind, pollUntilDone_bind, Option.some_bind, Option.none_bind,
    List.nil_append, List.append_assoc, List.singleton_append, List.cons_append,
    hcred, hnew, hresp, hrid, hsso, hb1, hoid, hraw, hfile, hjson, hk, hlen, if_false,
    String.length_empty, if_true, nt_createVirtualNetworkCall, nt_createSubnetCall, nt_createNamespaceCall, nt_createNamespaceAuthorizationRuleCall, nt_createNamespaceNetworkRuleSetCall]
  repeat' split
  all_goals
    simp [TornDownOnce, beforeTeardown, fromTeardown, Res.trace, List.takeWhile_cons,
      List.dropWhile_cons, Event.teardown, Event.failed, Event.request, Event.begins,
      isTeardown, ops, Event.op, primary_servicebus, Sample.cleanupCall,
      Servicebus.createResourceGroupCall, Servicebus.createVirtualNetworkCall,
      Servicebus.createSubnetCall, Servicebus.createNamespaceCall,
      Servicebus.createNamespaceAuthorizationRuleCall,
      Servicebus.createNamespaceNetworkRuleSetCall, Servicebus.cleanupCall]

theorem torn (s : Sample) (w : World) (hs : s.hasTeardown = true) (h : PrimarySucceeds w)
    (hk : w.getenv "KEEP_RESOURCE" = "") :
    TornDownOnce s (w.getenv "AZURE_SUBSCRIPTION_ID") (s.main w []).trace := by
  cases s
  · exact Bool.noConfusion hs
  · exact torn_cdnManagement w h hk
  · exact torn_cdnEndpoint w h hk
  · exact torn_containerregistry w h hk
  · exact torn_deployment w h hk
  · exact torn_mysql w h hk
  · exact torn_privatedns w h hk
  · exact torn_servicebus w h hk
  · exact Bool.noConfusion hs

theorem request_teardown (x : Event) (c : Call) (h : x.request = some c) :
    x.teardown = isTeardown c := by
  cases x <;> simp_all [Event.request, Event.teardown]

theorem tornDownOnce_split (s : Sample) (sub : String) (tr : List Event)
    (h : TornDownOnce s sub tr) :
    ∃ pre err rest, tr = pre ++ Event.begin (s.cleanupCall sub) err :: rest ∧
      ops pre = primary s ∧ (∀ x ∈ pre, x.failed = false ∧ x.teardown = false) ∧
      (∀ x ∈ rest, x.request = none) := by
  obtain ⟨hops, hfail, hhead, htail⟩ := h
  have happ : beforeTeardown tr ++ fromTeardown tr = tr := List.takeWhile_append_dropWhile _ _
  cases hf : fromTeardown tr with
  | nil => simp [hf] at hhead
  | cons e rest =>
    rw [hf] at hhead htail happ
    cases e with
    | begin c err =>
      simp only [List.head?_cons, Option.any_some, Event.begins, beq_iff_eq] at hhead
      subst hhead
      refine ⟨beforeTeardown tr, err, rest, happ.symm, hops, ?_, ?_⟩
      · intro x hx
        constructor
        · rw [List.any_eq_false] at hfail
          simpa using hfail x hx
        · have := List.mem_takeWhile_imp hx
          simpa using this
      · intro x hx
        simp only [List.tail_cons, List.all_eq_true, Option.isNone_iff_eq_none] at htail
        exact htail x hx
    | credential err => simp [Event.begins] at hhead
    | call c err => simp [Event.begins] at hhead
    | pollUntilDone c rs err => simp [Event.begins] at hhead
    | log l => simp [Event.begins] at hhead

theorem fullPayload_complete : fullPayload.complete := by
  simp [Payload.complete, fullPayload]

theorem happy_succeeds : PrimarySucceeds happy where
  subscription := by decide
  credential := rfl
  newClient := fun _ => rfl
  request := fun _ _ => ⟨fullPayload, rfl, fullPayload_complete⟩
  beginRequest := fun _ _ _ => ⟨0, fullPayload, rfl, fullPayload_complete⟩
  readFile := fun _ => ⟨_, rfl⟩
  unmarshalMap := fun _ => ⟨_, rfl⟩

/-! ## The orchestration contract -/

/-- C1: in every run of every sample, a request about a dependent resource (in particular
every create request) comes after a resource-group `CreateOrUpdate` request that the
provider acknowledged. -/
theorem ensure_precedes_dependent (s : Sample) (w : World) (pre post : List Event)
    (x : Event) (h : (run s.main w).2 = pre ++ x :: post) (hx : x.dependent = true) :
    ∃ c, isEnsureGroup c = true ∧ Event.call c none ∈ pre := by
  obtain ⟨y, hy, hp⟩ :=
    precededBy_split Event.ensured Event.dependent _ pre post x (checked s w).ensureFirst h hx
  cases y with
  | call c err =>
    cases err with
    | none => exact ⟨c, hp, hy⟩
    | some e => simp [Event.ensured] at hp
  | credential err => simp [Event.ensured] at hp
  | begin c err => simp [Event.ensured] at hp
  | pollUntilDone c rs err => simp [Event.ensured] at hp
  | log l => simp [Event.ensured] at hp

theorem ensure_precedes_dependent_witness :
    (run (Sample.main .mysql) refusing).2 =
        [Event.credential none,
         Event.call (Mysql.createResourceGroupCall "sub") none,
         Event.log "resources group: /id"] ++
          Event.begin (Mysql.createServerCall "sub") (some "Conflict") :: [] ∧
      (Event.begin (Mysql.createServerCall "sub") (some "Conflict")).dependent = true ∧
      ∃ c, isEnsureGroup c = true ∧
        Event.call c none ∈
          [Event.credential none,
           Event.call (Mysql.createResourceGroupCall "sub") none,
           Event.log "resources group: /id"] :=
  ⟨by decide, by decide,
    ensure_precedes_dependent .mysql refusing
      [Event.credential none,
       Event.call (Mysql.createResourceGroupCall "sub") none,
       Event.log "resources group: /id"] []
      (Event.begin (Mysql.createServerCall "sub") (some "Conflict")) (by decide) (by decide)⟩

/-- C2: in every run of every sample, if the resource-group `CreateOrUpdate` request
returns an error, it is the last event of the run (no create, read, action or delete
request follows), and the process exits through `log.Fatal` with that error as the printed
cause, so with status 1. -/
theorem ensure_failure_stops (s : Sample) (w : World) (pre post : List Event) (c : Call)
    (e : Err) (h : (run s.main w).2 = pre ++ Event.call c (some e) :: post)
    (hc : isEnsureGroup c = true) :
    post = [] ∧ (run s.main w).1 = .halted (.fatal e) ∧ (run s.main w).1.status = 1 := by
  have hk := checked s w
  have hpost : post = [] := failFast_split _ pre post _ hk.failFast h rfl
  have hmem : Event.call c (some e) ∈ (s.main w []).trace := by
    rw [← run_snd, h]
    simp
  have hlost := hk.ensureCause
  rw [List.any_eq_false] at hlost
  have hx := hlost _ hmem
  simp only [Event.ensureErrorLost, hc, Bool.true_and, bne_iff_ne, ne_eq, Decidable.not_not,
    Bool.not_eq_true, bne_eq_false_iff_eq] at hx
  have ho : (run s.main w).1 = .halted (.fatal e) := hx
  exact ⟨hpost, ho, by rw [ho]; rfl⟩

theorem ensure_failure_stops_witness :
    (run (Sample.main .servicebus) denied).2 =
        [Event.credential none] ++
          Event.call (Servicebus.createResourceGroupCall "sub") (some "AuthorizationFailed") ::
            [] ∧
      isEnsureGroup (Servicebus.createResourceGroupCall "sub") = true ∧
      (([] : List Event) = [] ∧
        (run (Sample.main .servicebus) denied).1 = .halted (.fatal "AuthorizationFailed") ∧
        (run (Sample.main .servicebus) denied).1.status = 1) :=
  ⟨by decide, by decide,
    ensure_failure_stops .servicebus denied [Event.credential none] []
      (Servicebus.createResourceGroupCall "sub") "AuthorizationFailed" (by decide)
      (by decide)⟩

/-- C3: in every run of every sample in which `KEEP_RESOURCE` has a non-empty value,
whatever the provider answers, no event of the run belongs to the teardown: neither the
resource-group delete request nor its poll is issued. -/
theorem keep_resource_suppresses_teardown (s : Sample) (w : World)
    (h : w.getenv "KEEP_RESOURCE" ≠ "") :
    ∀ x ∈ (run s.main w).2, x.teardown = false := by
  have hk := (checked s w).kept (length_ne_zero_of_ne_empty _ h)
  rw [List.any_eq_false] at hk
  intro x hx
  have := hk x hx
  simpa using this

theorem keep_resource_suppresses_teardown_witness :
    keeping.getenv "KEEP_RESOURCE" ≠ "" ∧
      ∀ x ∈ (run (Sample.main .cdnEndpoint) keeping).2, x.teardown = false :=
  ⟨by decide, keep_resource_suppresses_teardown .cdnEndpoint keeping (by decide)⟩

/-- C5: in every sample, when `AZURE_SUBSCRIPTION_ID` is absent or empty (`os.Getenv`
gives the empty string in both cases), the process exits through `log.Fatal` with status 1
and the trace is empty: no credential was acquired and no remote call was issued. -/
theorem missing_subscription_aborts (s : Sample) (w : World)
    (h : w.getenv "AZURE_SUBSCRIPTION_ID" = "") :
    run s.main w = (.halted (.fatal "AZURE_SUBSCRIPTION_ID is not set."), []) ∧
      (run s.main w).1.status = 1 := by
  have hrun : run s.main w = (.halted (.fatal "AZURE_SUBSCRIPTION_ID is not set."), []) := by
    cases s <;>
    simp [run, Sample.main, Apimanagement.main, CdnManagement.main, CdnEndpoint.main,
      Containerregistry.main, Deployment.main, Mysql.main, Privatedns.main, Servicebus.main,
      Staticsite.main, bind_def, getenv_bind, ite_run, logFatal_bind, h, Res.outcome,
      Res.trace]
  rw [hrun]
  exact ⟨rfl, rfl⟩

theorem missing_subscription_aborts_witness :
    unconfigured.getenv "AZURE_SUBSCRIPTION_ID" = "" ∧
      run (Sample.main .privatedns) unconfigured =
        (.halted (.fatal "AZURE_SUBSCRIPTION_ID is not set."), []) ∧
      (run (Sample.main .privatedns) unconfigured).1.status = 1 :=
  ⟨rfl, missing_subscription_aborts .privatedns unconfigured rfl⟩

/-- C6: fail-fast.  In every run of every sample, if a remote operation (request, begin
request or poll) returns an error, then it is the last event of the run, so nothing is
issued again and no teardown or rollback follows; no earlier operation had failed; the
operations issued are exactly an initial segment of the operations of the sample in program
order, each issued once; and the process exits with status 1. -/
theorem fail_fast (s : Sample) (w : World) (pre post : List Event) (x : Event)
    (h : (run s.main w).2 = pre ++ x :: post) (hx : x.failed = true) :
    post = [] ∧ (∀ y ∈ pre, y.failed = false) ∧ ops (pre ++ [x]) <+: script s ∧
      (ops (pre ++ [x])).Nodup ∧ (run s.main w).1.status = 1 := by
  have hk := checked s w
  have hpost : post = [] := failFast_split _ pre post x hk.failFast h hx
  have htr : (s.main w []).trace = pre ++ [x] := by
    rw [← run_snd, h, hpost]
  have hpre : ops (pre ++ [x]) <+: script s := by
    rw [← htr]
    exact hk.scripted
  refine ⟨hpost, failFast_before _ pre post x hk.failFast h, hpre, ?_, ?_⟩
  · exact (script_nodup s).sublist hpre.sublist
  · rw [run_fst]
    apply hk.failedExit
    rw [htr]
    simp [hx]

theorem fail_fast_witness :
    (run (Sample.main .containerregistry) refusing).2 =
        [Event.credential none,
         Event.call (Containerregistry.createResourceGroupCall "sub") none,
         Event.log "resources group: /id"] ++
          Event.begin (Containerregistry.createRegistryCall "sub") (some "Conflict") :: [] ∧
      (Event.begin (Containerregistry.createRegistryCall "sub") (some "Conflict")).failed =
        true ∧
      (([] : List Event) = [] ∧
        (∀ y ∈ [Event.credential none,
                Event.call (Containerregistry.createResourceGroupCall "sub") none,
                Event.log "resources group: /id"], y.failed = false) ∧
        ops ([Event.credential none,
              Event.call (Containerregistry.createResourceGroupCall "sub") none,
              Event.log "resources group: /id"] ++
            [Event.begin (Containerregistry.createRegistryCall "sub") (some "Conflict")]) <+:
          script .containerregistry ∧
        (ops ([Event.credential none,
               Event.call (Containerregistry.createResourceGroupCall "sub") none,
               Event.log "resources group: /id"] ++
             [Event.begin (Containerregistry.createRegistryCall "sub")
                (some "Conflict")])).Nodup ∧
        (run (Sample.main .containerregistry) refusing).1.status = 1) :=
  ⟨by decide, by decide,
    fail_fast .containerregistry refusing
      [Event.credential none,
       Event.call (Containerregistry.createResourceGroupCall "sub") none,
       Event.log "resources group: /id"] []
      (Event.begin (Containerregistry.createRegistryCall "sub") (some "Conflict"))
      (by decide) (by decide)⟩

/-- C10 (as stated) fails: the run of the API-management sample in which every request
succeeds issues, from `deleteService`, a `BeginPurge` of the individual service
`sample-api-service`, a delete request that is not the resource-group delete. -/
theorem purge_is_not_the_group_delete :
    Apimanagement.deleteServiceCall "sub" ∈ deletes (run (Sample.main .apimanagement) happy).2 ∧
      isDelete (Apimanagement.deleteServiceCall "sub") = true ∧
      isTeardown (Apimanagement.deleteServiceCall "sub") = false ∧
      (Apimanagement.deleteServiceCall "sub").args = ["sample-api-service", "westus"] := by
  decide

/-- C10 (amended): in every sample the delete request of `cleanup` is `BeginDelete` on
the resource-groups client for the very name and subscription that `createResourceGroup`
ensured; `cleanup` issues that one request, followed by exactly its poll if the request was
accepted and by nothing if it was refused (in the mysql sample nothing at all when the
client cannot be built); and in every run of every `main` each delete request is that
resource-group delete or, in the API-management sample only, the purge issued by
`deleteService`. -/
theorem cleanup_deletes_only_the_group (s : Sample) (sub : String) (w : World)
    (tr : List Event) :
    ((s.cleanupCall sub).client = "armresources.ResourceGroupsClient" ∧
        (s.cleanupCall sub).method = "BeginDelete" ∧
        (s.cleanupCall sub).args = (s.createResourceGroupCall sub).args ∧
        (s.cleanupCall sub).subscriptionID = (s.createResourceGroupCall sub).subscriptionID) ∧
      (((s.cleanup sub w tr).trace = tr ∧ ∃ e, (s.cleanup sub w tr).outcome = .returned ∧
          s = .mysql ∧ w.newClient "armresources.NewResourceGroupsClient" = some e) ∨
        ∃ err evs,
          (s.cleanup sub w tr).trace = tr ++ Event.begin (s.cleanupCall sub) err :: evs ∧
            (err = none → ∃ rs e, evs = [Event.pollUntilDone (s.cleanupCall sub) rs e]) ∧
            (err ≠ none → evs = [])) ∧
      ∀ c ∈ deletes (run s.main w).2,
        c = s.cleanupCall (w.getenv "AZURE_SUBSCRIPTION_ID") ∨
          (s = .apimanagement ∧
            c = Apimanagement.deleteServiceCall (w.getenv "AZURE_SUBSCRIPTION_ID")) := by
  refine ⟨?_, cleanup_polls s sub w tr, (checked s w).deletes⟩
  cases s <;> exact ⟨rfl, rfl, rfl, rfl⟩

theorem cleanup_deletes_only_the_group_witness :
    (Sample.cleanup .cdnEndpoint "sub" happy []).trace =
        [Event.begin (CdnEndpoint.cleanupCall "sub") none,
         Event.pollUntilDone (CdnEndpoint.cleanupCall "sub") [Status.succeeded] none] ∧
      (Sample.cleanup .cdnEndpoint "sub" refusing []).trace =
        [Event.begin (CdnEndpoint.cleanupCall "sub") (some "Conflict")] ∧
      Mysql.cleanupCall "sub" ∈ deletes (run (Sample.main .mysql) happy).2 ∧
      (Mysql.cleanupCall "sub" = Sample.cleanupCall .mysql (happy.getenv "AZURE_SUBSCRIPTION_ID") ∨
        (Sample.mysql = .apimanagement ∧
          Mysql.cleanupCall "sub" =
            Apimanagement.deleteServiceCall (happy.getenv "AZURE_SUBSCRIPTION_ID"))) :=
  ⟨by decide, by decide, by decide,
    (cleanup_deletes_only_the_group .mysql "sub" happy []).2.2 (Mysql.cleanupCall "sub")
      (by decide)⟩

/-- C4 (as stated) fails: in the static-site sample (and in the API-management sample)
the `KEEP_RESOURCE` block of `main` is commented out; with `KEEP_RESOURCE` unset and every
stage succeeding the process returns normally and no teardown event occurs. -/
theorem no_teardown_in_staticsite :
    happy.getenv "KEEP_RESOURCE" = "" ∧
      (run (Sample.main .staticsite) happy).1 = .returned ∧
      (run (Sample.main .staticsite) happy).2.any Event.failed = false ∧
      (run (Sample.main .staticsite) happy).2.any Event.teardown = false ∧
      (run (Sample.main .apimanagement) happy).1 = .returned ∧
      (run (Sample.main .apimanagement) happy).2.any Event.teardown = false := by
  decide

/-- C4 (amended): in each of the seven samples whose `main` has the `KEEP_RESOURCE`
block, if `KEEP_RESOURCE` is unset or empty and every earlier stage succeeds (with the
identifiers that `main` prints present in the responses), the trace is the whole primary
workflow, free of failures and of teardown events, followed by the resource-group delete
request of the sample and then by no other request (only its poll and the final log line):
the delete is requested exactly once and is the last request of the run.  The other two
samples (API management, static site) never issue a teardown event. -/
theorem teardown_once_after_success (s : Sample) (w : World) (hs : s.hasTeardown = true)
    (h : PrimarySucceeds w) (hk : w.getenv "KEEP_RESOURCE" = "") :
    (∃ pre err rest,
        (run s.main w).2 =
          pre ++ Event.begin (s.cleanupCall (w.getenv "AZURE_SUBSCRIPTION_ID")) err :: rest ∧
        ops pre = primary s ∧ (∀ x ∈ pre, x.failed = false ∧ x.teardown = false) ∧
        (∀ x ∈ rest, x.request = none)) ∧
      ((run s.main w).2.filterMap Event.request).count
        (s.cleanupCall (w.getenv "AZURE_SUBSCRIPTION_ID")) = 1 ∧
      ∀ (s1 : Sample) (w1 : World), s1.hasTeardown = false →
        ∀ x ∈ (run s1.main w1).2, x.teardown = false := by
  have hsplit := tornDownOnce_split s _ _ (torn s w hs h hk)
  refine ⟨hsplit, ?_, ?_⟩
  · obtain ⟨pre, err, rest, htr, _, hpre, hrest⟩ := hsplit
    have hc : isTeardown (s.cleanupCall (w.getenv "AZURE_SUBSCRIPTION_ID")) = true := by
      cases s <;> rfl
    have h1 : (pre.filterMap Event.request).count
        (s.cleanupCall (w.getenv "AZURE_SUBSCRIPTION_ID")) = 0 := by
      rw [List.count_eq_zero]
      intro hmem
      obtain ⟨x, hx, hreq⟩ := List.mem_filterMap.1 hmem
      have := request_teardown x _ hreq
      rw [(hpre x hx).2, hc] at this
      exact Bool.noConfusion this
    have h2 : rest.filterMap Event.request = [] := by
      rw [List.filterMap_eq_nil_iff]
      exact hrest
    rw [run_snd, htr, List.filterMap_append, List.filterMap_cons]
    simp [Event.request, h1, h2]
  · intro s1 w1 hs1 x hx
    have hk1 := (checked s1 w1).noTeardown hs1
    rw [List.any_eq_false] at hk1
    simpa using hk1 x hx

theorem teardown_once_after_success_witness :
    Sample.hasTeardown .privatedns = true ∧ PrimarySucceeds happy ∧
      happy.getenv "KEEP_RESOURCE" = "" ∧
      ((∃ pre err rest,
          (run (Sample.main .privatedns) happy).2 =
            pre ++
              Event.begin (Sample.cleanupCall .privatedns
                (happy.getenv "AZURE_SUBSCRIPTION_ID")) err :: rest ∧
          ops pre = primary .privatedns ∧
          (∀ x ∈ pre, x.failed = false ∧ x.teardown = false) ∧
          (∀ x ∈ rest, x.request = none)) ∧
        ((run (Sample.main .privatedns) happy).2.filterMap Event.request).count
          (Sample.cleanupCall .privatedns (happy.getenv "AZURE_SUBSCRIPTION_ID")) = 1 ∧
        ∀ (s1 : Sample) (w1 : World), s1.hasTeardown = false →
          ∀ x ∈ (run s1.main w1).2, x.teardown = false) :=
  ⟨rfl, happy_succeeds, rfl,
    teardown_once_after_success .privatedns happy rfl happy_succeeds rfl⟩

/-- C7: every helper function that starts a long-running operation obeys the contract
`LroContract`: when its begin request fails nothing else is sent and it returns a zero
result with an error; when the begin request succeeds its next and last event is
`PollUntilDone` on the operation that the request started, and it returns a nil error only
if that poll returned without error, a zero result with an error otherwise.  Consequently,
in every run of every `main`, a begin request that succeeded is followed at once by its
poll, and any event after that poll occurs only if the poll returned no error with
"succeeded" as its last report. -/
theorem begin_is_polled (sub resourceID token : String) (template params : JsonMap)
    (h : Helper) (hm : h ∈ helpers sub resourceID token template params)
    (hl : h.lro = true) (w : World) (tr : List Event)
    (hg : ∀ g, h.guard = some g → w.newClient g = none) :
    LroContract h.call h.prog w tr ∧
      ∀ (s : Sample) (w1 : World) (pre post : List Event) (c : Call),
        (run s.main w1).2 = pre ++ Event.begin c none :: post →
        ∃ rs err rest, post = Event.pollUntilDone c rs err :: rest ∧
          (rest ≠ [] → err = none ∧ rs.getLast? = some Status.succeeded) := by
  refine ⟨helpers_poll sub resourceID token template params h hm hl w tr hg, ?_⟩
  intro s w1 pre post c htr
  exact polled_split _ pre post c (checked s w1).polled htr

theorem begin_is_polled_witness :
    (∀ g, (none : Option String) = some g → happy.newClient g = none) ∧
      (LroContract (Apimanagement.deleteServiceCall "sub")
          (rawResult (Apimanagement.deleteService "sub")) happy [] ∧
        ∀ (s : Sample) (w1 : World) (pre post : List Event) (c : Call),
          (run s.main w1).2 = pre ++ Event.begin c none :: post →
          ∃ rs err rest, post = Event.pollUntilDone c rs err :: rest ∧
            (rest ≠ [] → err = none ∧ rs.getLast? = some Status.succeeded)) :=
  ⟨fun _ _ => rfl,
    begin_is_polled "sub" "" "" [] []
      { name := "Apimanagement.deleteService", lro := true, guard := none,
        call := Apimanagement.deleteServiceCall "sub",
        prog := rawResult (Apimanagement.deleteService "sub") }
      (List.mem_cons_self _ _) rfl happy [] (fun _ _ => rfl)⟩

/-- C8: against a simulated operation that reports "running" `N` times and then
"succeeded", the poll loop receives exactly those `N + 1` reports, one poll per reported
state; and in the run of the mysql sample in which the creation of the server is such an
operation, the poll of `createServer` records these `N + 1` reports and `getServer`, the
next request, is issued after it, that is after the report "succeeded". -/
theorem polls_once_per_state (N : Nat) (w : World) (rg server : Payload) (gid sid : String)
    (hsub : w.getenv "AZURE_SUBSCRIPTION_ID" ≠ "") (hcred : w.credential = none)
    (hnew : ∀ n, w.newClient n = none)
    (hrg : ∀ tr, w.request tr
      (Mysql.createResourceGroupCall (w.getenv "AZURE_SUBSCRIPTION_ID")) = .ok rg)
    (hgid : rg.id = some gid)
    (hop : ∀ tr, w.beginRequest tr
      (Mysql.createServerCall (w.getenv "AZURE_SUBSCRIPTION_ID")) = .ok (N, .ok server))
    (hsid : server.id = some sid) :
    pollLoop N (.ok server) = List.replicate N Status.running ++ [Status.succeeded] ∧
      (pollLoop N (.ok server)).length = N + 1 ∧
      ∃ err post, (run Mysql.main w).2 =
        [Event.credential none,
         Event.call (Mysql.createResourceGroupCall (w.getenv "AZURE_SUBSCRIPTION_ID")) none,
         Event.log ("resources group: " ++ gid),
         Event.begin (Mysql.createServerCall (w.getenv "AZURE_SUBSCRIPTION_ID")) none,
         Event.pollUntilDone (Mysql.createServerCall (w.getenv "AZURE_SUBSCRIPTION_ID"))
           (List.replicate N Status.running ++ [Status.succeeded]) none,
         Event.log ("server: " ++ sid),
         Event.call (Mysql.getServerCall (w.getenv "AZURE_SUBSCRIPTION_ID")) err] ++ post := by
  have hlen := length_ne_zero_of_ne_empty _ hsub
  refine ⟨pollLoop_ok N server, by simp [pollLoop_ok], ?_⟩
  rw [run_snd]
  simp only [Mysql.main, Mysql.createResourceGroup, Mysql.createServer, Mysql.getServer,
    Mysql.cleanup, bind_def, pure_def, bind_assoc, pure_bind, ite_run, pure_run, getenv_bind,
    logFatal_bind, logFatal_run, credential_bind, newClient_bind, fatalIf_some_bind,
    fatalIf_none_bind, logPrintln_bind, logPrintln_run, logPrintln1_bind, logPrintln1_run,
    derefID_bind, deref_bind, request_bind, beginRequest_bind, pollUntilDone_bind,
    Option.some_bind, Option.none_bind, List.nil_append, List.append_assoc,
    List.singleton_append, List.cons_append, hcred, hnew, hrg, hgid, hop, hsid, hlen,
    if_false, pollLoop_ok]
  repeat' split
  all_goals exact ⟨_, _, rfl⟩

theorem polls_once_per_state_witness :
    (simulated 3).getenv "AZURE_SUBSCRIPTION_ID" ≠ "" ∧
      pollLoop 3 (.ok fullPayload) =
        [Status.running, Status.running, Status.running, Status.succeeded] ∧
      (pollLoop 3 (.ok fullPayload) =
          List.replicate 3 Status.running ++ [Status.succeeded] ∧
        (pollLoop 3 (.ok fullPayload)).length = 3 + 1 ∧
        ∃ err post, (run Mysql.main (simulated 3)).2 =
          [Event.credential none,
           Event.call (Mysql.createResourceGroupCall
             ((simulated 3).getenv "AZURE_SUBSCRIPTION_ID")) none,
           Event.log ("resources group: " ++ "/id"),
           Event.begin (Mysql.createServerCall
             ((simulated 3).getenv "AZURE_SUBSCRIPTION_ID")) none,
           Event.pollUntilDone (Mysql.createServerCall
             ((simulated 3).getenv "AZURE_SUBSCRIPTION_ID"))
             (List.replicate 3 Status.running ++ [Status.succeeded]) none,
           Event.log ("server: " ++ "/id"),
           Event.call (Mysql.getServerCall
             ((simulated 3).getenv "AZURE_SUBSCRIPTION_ID")) err] ++ post) :=
  ⟨by decide, rfl,
    polls_once_per_state 3 (simulated 3) fullPayload fullPayload "/id" "/id" (by decide) rfl
      (fun _ => rfl) (fun _ => rfl) rfl (fun _ => rfl) rfl⟩

/-- C9 (as stated) fails: when the begin request of `createDeployment` fails with the
error "Conflict", the helper does not return that error but a new one whose text is
"cannot create deployment: Conflict". -/
theorem createDeployment_rewords_the_error :
    refusing.beginRequest [] (Deployment.createDeploymentCall "sub" [] []) =
        .error "Conflict" ∧
      Deployment.createDeployment "sub" [] [] refusing [] =
        .ok (none, some "cannot create deployment: Conflict")
          [Event.begin (Deployment.createDeploymentCall "sub" [] []) (some "Conflict")] ∧
      (some "cannot create deployment: Conflict" : Option Err) ≠ some "Conflict" :=
  ⟨rfl, rfl, by decide⟩

/-- C9 (amended): every helper function of every sample other than `createDeployment`
returns the error of the SDK unchanged with a zero result, be it the error of its client
constructor, of its synchronous request, of its begin request or of its poll;
`createDeployment` returns a nil result with a new error whose text is the text of the
SDK error after the prefix "cannot create deployment: " (begin request) or "cannot get the
create deployment future respone: " (poll). -/
theorem errors_surface (sub resourceID token : String) (template params : JsonMap)
    (h : Helper) (hm : h ∈ helpers sub resourceID token template params) (w : World)
    (tr : List Event) :
    (h.name ≠ "Deployment.createDeployment" → Verbatim h w tr) ∧
      (∀ e, w.beginRequest tr (Deployment.createDeploymentCall sub template params) =
          .error e →
        Deployment.createDeployment sub template params w tr =
          .ok (none, some ("cannot create deployment: " ++ e))
            (tr ++ [Event.begin (Deployment.createDeploymentCall sub template params)
              (some e)])) ∧
      (∀ n e, w.beginRequest tr (Deployment.createDeploymentCall sub template params) =
          .ok (n, .error e) →
        Deployment.createDeployment sub template params w tr =
          .ok (none, some ("cannot get the create deployment future respone: " ++ e))
            (tr ++ [Event.begin (Deployment.createDeploymentCall sub template params) none,
              Event.pollUntilDone (Deployment.createDeploymentCall sub template params)
                (pollLoop n (.error e)) (some e)])) := by
  refine ⟨fun hne => helpers_verbatim sub resourceID token template params h hm hne w tr,
    fun e he => ?_, fun n e he => ?_⟩ <;>
  simp [Deployment.createDeployment, bind_def, pure_def, pure_run, beginRequest_bind,
    pollUntilDone_bind, he]

theorem errors_surface_witness :
    ("Mysql.getServer" ≠ "Deployment.createDeployment" →
        Verbatim
          { name := "Mysql.getServer", lro := false,
            guard := some "armmysql.NewServersClient",
            call := Mysql.getServerCall "sub",
            prog := pairResult (Mysql.getServer "sub") } denied []) ∧
      (∀ e, denied.beginRequest [] (Deployment.createDeploymentCall "sub" [] []) = .error e →
        Deployment.createDeployment "sub" [] [] denied [] =
          .ok (none, some ("cannot create deployment: " ++ e))
            ([] ++ [Event.begin (Deployment.createDeploymentCall "sub" [] []) (some e)])) ∧
      (∀ n e, denied.beginRequest [] (Deployment.createDeploymentCall "sub" [] []) =
          .ok (n, .error e) →
        Deployment.createDeployment "sub" [] [] denied [] =
          .ok (none, some ("cannot get the create deployment future respone: " ++ e))
            ([] ++ [Event.begin (Deployment.createDeploymentCall "sub" [] []) none,
              Event.pollUntilDone (Deployment.createDeploymentCall "sub" [] [])
                (pollLoop n (.error e)) (some e)])) :=
  errors_surface "sub" "" "" [] []
    { name := "Mysql.getServer", lro := false, guard := some "armmysql.NewServersClient",
      call := Mysql.getServerCall "sub", prog := pairResult (Mysql.getServer "sub") }
    (by simp [helpers]) denied []

/-! ## Symbolic execution in transformed worlds -/

theorem mapResponses_getenv (g : Call → Payload → Payload) (w : World) (n : String) :
    (w.mapResponses g).getenv n = w.getenv n := rfl

theorem mapResponses_credential (g : Call → Payload → Payload) (w : World) :
    (w.mapResponses g).credential = w.credential := rfl

theorem mapResponses_newClient (g : Call → Payload → Payload) (w : World) (n : String) :
    (w.mapResponses g).newClient n = w.newClient n := rfl

theorem mapResponses_readFile (g : Call → Payload → Payload) (w : World) (p : String) :
    (w.mapResponses g).readFile p = w.readFile p := rfl

theorem mapResponses_unmarshalMap (g : Call → Payload → Payload) (w : World) (d : String) :
    (w.mapResponses g).unmarshalMap d = w.unmarshalMap d := rfl

theorem request_bind_mapped {β : Type} (g : Call → Payload → Payload) (c : Call)
    (f : Except Err Payload → Prog β) (w : World) (tr : List Event) :
    Prog.bind (request c) f (w.mapResponses g) tr =
      match w.request tr c with
      | .ok p => f (.ok (g c p)) (w.mapResponses g) (tr ++ [.call c none])
      | .error e => f (.error e) (w.mapResponses g) (tr ++ [.call c (some e)]) := by
  simp only [Prog.bind, request, World.mapResponses]
  cases w.request tr c <;> rfl

theorem beginRequest_bind_mapped {β : Type} (g : Call → Payload → Payload) (c : Call)
    (f : Except Err Poller → Prog β) (w : World) (tr : List Event) :
    Prog.bind (beginRequest c) f (w.mapResponses g) tr =
      match w.beginRequest tr c with
      | .ok (n, .ok p) => f (.ok ⟨c, n, .ok (g c p)⟩) (w.mapResponses g) (tr ++ [.begin c none])
      | .ok (n, .error e) => f (.ok ⟨c, n, .error e⟩) (w.mapResponses g) (tr ++ [.begin c none])
      | .error e => f (.error e) (w.mapResponses g) (tr ++ [.begin c (some e)]) := by
  simp only [Prog.bind, beginRequest, World.mapResponses]
  rcases w.beginRequest tr c with e | ⟨n, e | p⟩ <;> rfl

theorem blind_getenv (w : World) (n : String) : w.blind.getenv n = w.getenv n := rfl

theorem blind_credential (w : World) : w.blind.credential = w.credential := rfl

theorem blind_newClient (w : World) (n : String) : w.blind.newClient n = w.newClient n := rfl

theorem blind_readFile (w : World) (p : String) : w.blind.readFile p = w.readFile p := rfl

theorem blind_unmarshalMap (w : World) (d : String) :
    w.blind.unmarshalMap d = w.unmarshalMap d := rfl

theorem blind_request (w : World) (tr : List Event) (c : Call) :
    w.blind.request tr c = w.request (remote tr) c := rfl

theorem blind_beginRequest (w : World) (tr : List Event) (c : Call) :
    w.blind.beginRequest tr c = w.beginRequest (remote tr) c := rfl

/-! ## Round trips: the read uses the key of the create -/

theorem key_getServer (sub : String) :
    (Mysql.getServerCall sub).key = (Mysql.createServerCall sub).key := rfl

theorem key_getReplication (sub : String) :
    (Containerregistry.getReplicationCall sub).key =
      (Containerregistry.createReplicationCall sub).key := rfl

theorem roundtrip_mysql (store : String × String × List String → Payload) (w : World) :
    Event.call (Mysql.getServerCall (w.getenv "AZURE_SUBSCRIPTION_ID")) none ∈
        (Mysql.main (echo store w) []).trace →
      ∃ id, (store (Mysql.createServerCall (w.getenv "AZURE_SUBSCRIPTION_ID")).key).id = some id ∧
        (logs (Mysql.main (echo store w) []).trace)[1]? = some ("server: " ++ id) ∧
        (logs (Mysql.main (echo store w) []).trace)[2]? = some ("get server: " ++ id) := by
  simp only [echo, Mysql.main, Mysql.createResourceGroup, Mysql.createServer, Mysql.getServer,
    Mysql.cleanup,
    bind_def, pure_def, bind_assoc, pure_bind, ite_run, pure_run, getenv_bind,
    logFatal_bind, logFatal_run, credential_bind, newClient_bind, fatalIf_some_bind,
    fatalIf_none_bind, logPrintln_bind, logPrintln_run, logPrintln1_bind, logPrintln1_run,
    derefID_bind, deref_bind, readFile_bind, unmarshalMap_bind, request_bind_mapped,
    beginRequest_bind_mapped, pollUntilDone_bind, Option.some_bind, Option.none_bind,
    List.nil_append, List.append_assoc, List.singleton_append, List.cons_append,
    mapResponses_getenv, mapResponses_credential, mapResponses_newClient, key_getServer]
  repeat' split
  all_goals
    simp_all [Res.trace, logs, Mysql.createResourceGroupCall, Mysql.createServerCall,
      Mysql.getServerCall, Mysql.cleanupCall]

theorem roundtrip_registry (store : String × String × List String → Payload) (w : World) :
    Event.call (Containerregistry.getReplicationCall (w.getenv "AZURE_SUBSCRIPTION_ID")) none ∈
        (Containerregistry.main (echo store w) []).trace →
      ∃ id, (store (Containerregistry.createReplicationCall
            (w.getenv "AZURE_SUBSCRIPTION_ID")).key).id = some id ∧
        (logs (Containerregistry.main (echo store w) []).trace)[2]? =
          some ("replication: " ++ id) ∧
        (logs (Containerregistry.main (echo store w) []).trace)[3]? =
          some ("get replication: " ++ id) := by
  simp only [echo, Containerregistry.main, Containerregistry.createResourceGroup,
    Containerregistry.createRegistry, Containerregistry.createReplication,
    Containerregistry.getReplication, Containerregistry.cleanup,
    bind_def, pure_def, bind_assoc, pure_bind, ite_run, pure_run, getenv_bind,
    logFatal_bind, logFatal_run, credential_bind, newClient_bind, fatalIf_some_bind,
    fatalIf_none_bind, logPrintln_bind, logPrintln_run, logPrintln1_bind, logPrintln1_run,
    derefID_bind, deref_bind, readFile_bind, unmarshalMap_bind, request_bind_mapped,
    beginRequest_bind_mapped, pollUntilDone_bind, Option.some_bind, Option.none_bind,
    List.nil_append, List.append_assoc, List.singleton_append, List.cons_append,
    mapResponses_getenv, mapResponses_credential, mapResponses_newClient, key_getReplication]
  repeat' split
  all_goals
    simp_all [Res.trace, logs, Containerregistry.createResourceGroupCall,
      Containerregistry.createRegistryCall, Containerregistry.createReplicationCall,
      Containerregistry.getReplicationCall, Containerregistry.cleanupCall]

/-! ## The existence check of the deployment sample -/

theorem setExistence_group (b : Bool) (sub : String) (p : Payload) :
    setExistence b (Deployment.createResourceGroupCall sub) p = p := rfl

theorem setExistence_create (b : Bool) (sub : String) (t q : JsonMap) (p : Payload) :
    setExistence b (Deployment.createDeploymentCall sub t q) p = p := rfl

theorem setExistence_validate (b : Bool) (sub : String) (t q : JsonMap) (p : Payload) :
    setExistence b (Deployment.validateDeploymentCall sub t q) p = p := rfl

theorem setExistence_cleanup (b : Bool) (sub : String) (p : Payload) :
    setExistence b (Deployment.cleanupCall sub) p = p := rfl

theorem setExistence_check (b : Bool) (sub : String) (p : Payload) :
    (setExistence b (Deployment.checkExistDeploymentCall sub) p).success = b := rfl

theorem existence_deployment (w : World) (b1 b2 : Bool) :
    remote (Deployment.main (existence b1 w.blind) []).trace =
        remote (Deployment.main (existence b2 w.blind) []).trace ∧
      (Deployment.main (existence b1 w.blind) []).outcome =
        (Deployment.main (existence b2 w.blind) []).outcome := by
  simp only [existence, Deployment.main, Deployment.createResourceGroup,
    Deployment.checkExistDeployment, Deployment.readJson, Deployment.createDeployment,
    Deployment.validateDeployment, Deployment.cleanup, Deployment.marshal,
    bind_def, pure_def, bind_assoc, pure_bind, ite_run, pure_run, getenv_bind,
    logFatal_bind, logFatal_run, credential_bind, newClient_bind, fatalIf_some_bind,
    fatalIf_none_bind, logPrintln_bind, logPrintln_run, logPrintln1_bind, logPrintln1_run,
    derefID_bind, deref_bind, readFile_bind, unmarshalMap_bind, request_bind_mapped,
    beginRequest_bind_mapped, pollUntilDone_bind, Option.some_bind, Option.none_bind,
    List.nil_append, List.append_assoc, List.singleton_append, List.cons_append,
    mapResponses_getenv, mapResponses_credential, mapResponses_newClient,
    mapResponses_readFile, mapResponses_unmarshalMap, blind_getenv, blind_credential,
    blind_newClient, blind_readFile, blind_unmarshalMap, blind_request, blind_beginRequest,
    setExistence_group, setExistence_create, setExistence_validate, setExistence_cleanup,
    setExistence_check,
    remote, List.filter, Event.isLog, Bool.not_true, Bool.not_false]
  repeat' split
  all_goals
    simp_all [Res.trace, Res.outcome, remote, Event.isLog]

theorem existence_answer (w : World) (b : Bool) (sub : String) (tr : List Event) :
    (Deployment.checkExistDeployment sub (existence b w.blind) tr).value? =
      match w.request (remote tr) (Deployment.checkExistDeploymentCall sub) with
      | .ok _ => some (b, none)
      | .error e => some (false, some e) := by
  simp only [existence, Deployment.checkExistDeployment, bind_def, pure_def,
    request_bind_mapped, blind_request, pure_run, setExistence_check]
  cases w.request (remote tr) (Deployment.checkExistDeploymentCall sub) <;> rfl

/-! ## Nil dereferences in the CDN endpoint sample -/

theorem nilsafe_cdnEndpoint (w : World) :
    (CdnEndpoint.NonNil w → (CdnEndpoint.main w []).outcome ≠ .halted .nilDeref) ∧
    ((CdnEndpoint.main w []).outcome = .halted .nilDeref →
      (CdnEndpoint.main w []).trace.any Event.failed = false ∧
      (CdnEndpoint.main w []).trace.getLast?.map Event.responded = some true ∧
      CdnEndpoint.nilAnswered w [] (CdnEndpoint.main w []).trace = true) ∧
    CdnEndpoint.faultsAtNil w (CdnEndpoint.main w []).outcome []
      (CdnEndpoint.main w []).trace = true := by
  simp only [CdnEndpoint.main, CdnEndpoint.createResourceGroup, CdnEndpoint.createProfile,
    CdnEndpoint.createEndpoint, CdnEndpoint.purgeContent, CdnEndpoint.stopEndpoint,
    CdnEndpoint.startEndpoint, CdnEndpoint.cleanup,
    bind_def, pure_def, bind_assoc, pure_bind, ite_run, pure_run, getenv_bind,
    logFatal_bind, logFatal_run, credential_bind, newClient_bind, fatalIf_some_bind,
    fatalIf_none_bind, logPrintln_bind, logPrintln_run, logPrintln1_bind, logPrintln1_run,
    derefID_bind, deref_bind, readFile_bind, unmarshalMap_bind, request_bind,
    beginRequest_bind, pollUntilDone_bind, Option.some_bind, Option.none_bind,
    List.nil_append, List.append_assoc, List.singleton_append, List.cons_append]
  repeat' split
  all_goals
    refine ⟨fun h => ?_, ?_, ?_⟩
    · first
      | simp [Res.outcome]; done
      | exact fun _ => (h.group _ _ _ ‹_›) ‹_›
      | exact fun _ => (h.purge _ _ _ _ ‹_› (by simp [CdnEndpoint.purgeContentCall])) ‹_›
      | exact fun _ => (h.model _ _ _ _ ‹_›
          (by simp [CdnEndpoint.createProfileCall, CdnEndpoint.createEndpointCall,
            CdnEndpoint.stopEndpointCall, CdnEndpoint.startEndpointCall])
          (by simp [CdnEndpoint.createProfileCall, CdnEndpoint.createEndpointCall,
            CdnEndpoint.stopEndpointCall, CdnEndpoint.startEndpointCall])) ‹_›
    · simp_all [Res.outcome, Res.trace, Event.failed, Event.responded,
        CdnEndpoint.nilAnswered, answered, CdnEndpoint.lacksPointer,
        CdnEndpoint.createResourceGroupCall, CdnEndpoint.createProfileCall,
        CdnEndpoint.createEndpointCall, CdnEndpoint.purgeContentCall,
        CdnEndpoint.stopEndpointCall, CdnEndpoint.startEndpointCall, CdnEndpoint.cleanupCall]
    · simp_all [Res.outcome, Res.trace, CdnEndpoint.faultsAtNil, answered,
        CdnEndpoint.lacksPointer, stopsAfter, CdnEndpoint.createResourceGroupCall,
        CdnEndpoint.createProfileCall, CdnEndpoint.createEndpointCall,
        CdnEndpoint.purgeContentCall, CdnEndpoint.stopEndpointCall,
        CdnEndpoint.startEndpointCall, CdnEndpoint.cleanupCall]

theorem faultsAtNil_split (w : World) (o : Outcome) :
    ∀ (tr pre0 pre post : List Event) (x : Event) (c : Call) (p : Payload),
      CdnEndpoint.faultsAtNil w o pre0 tr = true → tr = pre ++ x :: post →
      answered w (pre0 ++ pre) x = some (c, p) → CdnEndpoint.lacksPointer c p = true →
      o = .halted .nilDeref ∧ stopsAfter x post = true := by
  intro tr
  induction tr with
  | nil =>
    intro pre0 pre post x c p _ h
    simp at h
  | cons a rest ih =>
    intro pre0 pre post x c p hf h ha hl
    cases pre with
    | nil =>
      simp only [List.nil_append, List.cons.injEq] at h
      obtain ⟨rfl, rfl⟩ := h
      simp only [List.append_nil] at ha
      simp only [CdnEndpoint.faultsAtNil, ha, hl, Bool.not_true, Bool.false_or,
        Bool.and_eq_true, beq_iff_eq] at hf
      exact hf.1
    | cons b pre1 =>
      simp only [List.cons_append, List.cons.injEq] at h
      obtain ⟨rfl, rfl⟩ := h
      simp only [CdnEndpoint.faultsAtNil, Bool.and_eq_true] at hf
      refine ih (pre0 ++ [a]) pre1 post x c p hf.2 rfl ?_ hl
      simpa [List.append_assoc] using ha

theorem nilAnswered_split (w : World) :
    ∀ (tr pre0 : List Event), CdnEndpoint.nilAnswered w pre0 tr = true →
      ∃ pre x post c p, tr = pre ++ x :: post ∧ answered w (pre0 ++ pre) x = some (c, p) ∧
        CdnEndpoint.lacksPointer c p = true := by
  intro tr
  induction tr with
  | nil =>
    intro pre0 h
    simp [CdnEndpoint.nilAnswered] at h
  | cons a rest ih =>
    intro pre0 h
    simp only [CdnEndpoint.nilAnswered, Bool.or_eq_true] at h
    rcases h with h | h
    · cases ha : answered w pre0 a with
      | none => simp [ha] at h
      | some cp =>
        obtain ⟨c, p⟩ := cp
        simp only [ha] at h
        exact ⟨[], a, rest, c, p, rfl, by simpa using ha, h⟩
    · obtain ⟨pre, x, post, c, p, hd, hans, hl⟩ := ih (pre0 ++ [a]) h
      exact ⟨a :: pre, x, post, c, p, by rw [hd]; rfl, by simpa [List.append_assoc] using hans,
        hl⟩

theorem stopsAfter_answered (w : World) (pre post : List Event) (x : Event) (c : Call)
    (p : Payload) (ha : answered w pre x = some (c, p)) (hs : stopsAfter x post = true) :
    post = [] ∨ ∃ rs, post = [Event.pollUntilDone c rs none] := by
  cases x with
  | credential err => simp [answered] at ha
  | log line => simp [answered] at ha
  | pollUntilDone c1 rs err => simp [answered] at ha
  | call c1 err =>
    left
    simpa [stopsAfter] using hs
  | begin c1 err =>
    right
    cases err with
    | some e => simp [answered] at ha
    | none =>
      have hc : c1 = c := by
        simp only [answered] at ha
        split at ha <;> simp_all
      subst hc
      match post, hs with
      | [Event.pollUntilDone c2 rs none], hs =>
        have h2 : c2 = c1 := by simpa [stopsAfter] using hs
        exact ⟨rs, by rw [h2]⟩

theorem nonNil_happy : CdnEndpoint.NonNil happy := by
  refine ⟨fun tr c p h => ?_, fun tr c n p h _ _ => ?_, fun tr c n p h _ => ?_⟩
  · have hp : p = fullPayload := by
      simp only [happy, Except.ok.injEq] at h
      exact h.symm
    subst hp
    simp [fullPayload]
  · have hp : p = fullPayload := by
      simp only [happy, Except.ok.injEq, Prod.mk.injEq] at h
      exact h.2.symm
    subst hp
    simp [fullPayload]
  · have hp : p = fullPayload := by
      simp only [happy, Except.ok.injEq, Prod.mk.injEq] at h
      exact h.2.symm
    subst hp
    simp [fullPayload]

/-! ## Arguments and order of the requests, sample by sample -/

theorem load_eq (w : World) (path : String) :
    Deployment.load w path =
      match w.readFile path with
      | .ok d =>
        match w.unmarshalMap d with
        | .ok m => some m
        | .error _ => none
      | .error _ => none := by
  simp only [Deployment.load, Deployment.readJson, bind_def, pure_def, readFile_bind,
    unmarshalMap_bind, pure_run]
  cases hf : w.readFile path with
  | error e => rfl
  | ok d => cases hu : w.unmarshalMap d <;> simp [Res.value?, hu]

/-! ## The model of `json.Unmarshal` -/

theorem onDisk_decodes (content : String) : (onDisk content).DecodesIntoMap := by
  refine ⟨fun d hp => ?_, fun d j hp ho hn => ?_⟩
  · simp [onDisk, Json.unmarshalMap, hp]
  · cases j <;> simp [onDisk, Json.unmarshalMap, hp, Json.kind] at ho hn ⊢

/-! ## Arguments and order of the requests: one symbolic execution per sample -/

theorem traced_apimanagement (w : World) :
    ∀ c ∈ requests (Apimanagement.main w []).trace,
      Argued .apimanagement w (Apimanagement.main w []).trace c := by
  simp only [Apimanagement.main, Apimanagement.createResourceGroup, Apimanagement.deleteService,
    Apimanagement.createApiManagementService,
    bind_def, pure_def, bind_assoc, pure_bind, ite_run, pure_run, getenv_bind,
    logFatal_bind, logFatal_run, credential_bind, newClient_bind, fatalIf_some_bind,
    fatalIf_none_bind, logPrintln_bind, logPrintln_run, logPrintln1_bind, logPrintln1_run,
    derefID_bind, deref_bind, readFile_bind, unmarshalMap_bind, request_bind,
    beginRequest_bind, pollUntilDone_bind, Option.some_bind, Option.none_bind,
    List.nil_append, List.append_assoc, List.singleton_append, List.cons_append]
  repeat' split
  all_goals
    simp [Res.trace, requests, Event.request, Argued, Sample.constantCalls]

theorem traced_cdnManagement (w : World) :
    ∀ c ∈ requests (CdnManagement.main w []).trace,
      Argued .cdnManagement w (CdnManagement.main w []).trace c := by
  simp only [CdnManagement.main, CdnManagement.createResourceGroup, CdnManagement.createProfile,
    CdnManagement.generateSsoURI, CdnManagement.cleanup,
    bind_def, pure_def, bind_assoc, pure_bind, ite_run, pure_run, getenv_bind,
    logFatal_bind, logFatal_run, credential_bind, newClient_bind, fatalIf_some_bind,
    fatalIf_none_bind, logPrintln_bind, logPrintln_run, logPrintln1_bind, logPrintln1_run,
    derefID_bind, deref_bind, readFile_bind, unmarshalMap_bind, request_bind,
    beginRequest_bind, pollUntilDone_bind, Option.some_bind, Option.none_bind,
    List.nil_append, List.append_assoc, List.singleton_append, List.cons_append]
  repeat' split
  all_goals
    simp [Res.trace, requests, Event.request, Argued, Sample.constantCalls]

theorem traced_cdnEndpoint (w : World) :
    ∀ c ∈ requests (CdnEndpoint.main w []).trace,
      Argued .cdnEndpoint w (CdnEndpoint.main w []).trace c := by
  simp only [CdnEndpoint.main, CdnEndpoint.createResourceGroup, CdnEndpoint.createProfile,
    CdnEndpoint.createEndpoint, CdnEndpoint.purgeContent, CdnEndpoint.startEndpoint,
    CdnEndpoint.stopEndpoint, CdnEndpoint.cleanup,
    bind_def, pure_def, bind_assoc, pure_bind, ite_run, pure_run, getenv_bind,
    logFatal_bind, logFatal_run, credential_bind, newClient_bind, fatalIf_some_bind,
    fatalIf_none_bind, logPrintln_bind, logPrintln_run, logPrintln1_bind, logPrintln1_run,
    derefID_bind, deref_bind, readFile_bind, unmarshalMap_bind, request_bind,
    beginRequest_bind, pollUntilDone_bind, Option.some_bind, Option.none_bind,
    List.nil_append, List.append_assoc, List.singleton_append, List.cons_append]
  repeat' split
  all_goals
    simp [Res.trace, requests, Event.request, Argued, Sample.constantCalls]

theorem traced_containerregistry (w : World) :
    ∀ c ∈ requests (Containerregistry.main w []).trace,
      Argued .containerregistry w (Containerregistry.main w []).trace c := by
  simp only [Containerregistry.main, Containerregistry.createResourceGroup,
    Containerregistry.createRegistry, Containerregistry.createReplication,
    Containerregistry.getReplication, Containerregistry.cleanup,
    bind_def, pure_def, bind_assoc, pure_bind, ite_run, pure_run, getenv_bind,
    logFatal_bind, logFatal_run, credential_bind, newClient_bind, fatalIf_some_bind,
    fatalIf_none_bind, logPrintln_bind, logPrintln_run, logPrintln1_bind, logPrintln1_run,
    derefID_bind, deref_bind, readFile_bind, unmarshalMap_bind, request_bind,
    beginRequest_bind, pollUntilDone_bind, Option.some_bind, Option.none_bind,
    List.nil_append, List.append_assoc, List.singleton_append, List.cons_append]
  repeat' split
  all_goals
    simp [Res.trace, requests, Event.request, Argued, Sample.constantCalls]

theorem traced_deployment (w : World) :
    (∀ c ∈ requests (Deployment.main w []).trace,
      Argued .deployment w (Deployment.main w []).trace c) ∧
    Deployment.inOrder (Deployment.main w []).trace = true := by
  simp only [Deployment.main, Deployment.createResourceGroup, Deployment.checkExistDeployment,
    Deployment.readJson, Deployment.createDeployment, Deployment.validateDeployment,
    Deployment.cleanup,
    bind_def, pure_def, bind_assoc, pure_bind, ite_run, pure_run, getenv_bind,
    logFatal_bind, logFatal_run, credential_bind, newClient_bind, fatalIf_some_bind,
    fatalIf_none_bind, logPrintln_bind, logPrintln_run, logPrintln1_bind, logPrintln1_run,
    derefID_bind, deref_bind, readFile_bind, unmarshalMap_bind, request_bind,
    beginRequest_bind, pollUntilDone_bind, Option.some_bind, Option.none_bind,
    List.nil_append, List.append_assoc, List.singleton_append, List.cons_append]
  repeat' split
  all_goals
    simp_all [Res.trace, requests, Event.request, Argued, Sample.constantCalls, Deployment.inOrder,
      precededBy, Event.starts, Event.pollSucceeded, pollLoop_getLast_ok, load_eq,
      Deployment.mapOf, Deployment.createResourceGroupCall,
      Deployment.checkExistDeploymentCall, Deployment.createDeploymentCall,
      Deployment.validateDeploymentCall, Deployment.cleanupCall]

theorem traced_mysql (w : World) :
    ∀ c ∈ requests (Mysql.main w []).trace,
      Argued .mysql w (Mysql.main w []).trace c := by
  simp only [Mysql.main, Mysql.createResourceGroup, Mysql.createServer, Mysql.getServer, Mysql.cleanup,
    bind_def, pure_def, bind_assoc, pure_bind, ite_run, pure_run, getenv_bind,
    logFatal_bind, logFatal_run, credential_bind, newClient_bind, fatalIf_some_bind,
    fatalIf_none_bind, logPrintln_bind, logPrintln_run, logPrintln1_bind, logPrintln1_run,
    derefID_bind, deref_bind, readFile_bind, unmarshalMap_bind, request_bind,
    beginRequest_bind, pollUntilDone_bind, Option.some_bind, Option.none_bind,
    List.nil_append, List.append_assoc, List.singleton_append, List.cons_append]
  repeat' split
  all_goals
    simp [Res.trace, requests, Event.request, Argued, Sample.constantCalls]

theorem traced_privatedns (w : World) :
    ∀ c ∈ requests (Privatedns.main w []).trace,
      Argued .privatedns w (Privatedns.main w []).trace c := by
  simp only [Privatedns.main, Privatedns.createResourceGroup, Privatedns.createPrivateZone,
    Privatedns.cleanup,
    bind_def, pure_def, bind_assoc, pure_bind, ite_run, pure_run, getenv_bind,
    logFatal_bind, logFatal_run, credential_bind, newClient_bind, fatalIf_some_bind,
    fatalIf_none_bind, logPrintln_bind, logPrintln_run, logPrintln1_bind, logPrintln1_run,
    derefID_bind, deref_bind, readFile_bind, unmarshalMap_bind, request_bind,
    beginRequest_bind, pollUntilDone_bind, Option.some_bind, Option.none_bind,
    List.nil_append, List.append_assoc, List.singleton_append, List.cons_append]
  repeat' split
  all_goals
    simp [Res.trace, requests, Event.request, Argued, Sample.constantCalls]

theorem traced_servicebus (w : World) :
    (∀ c ∈ requests (Servicebus.main w []).trace,
      Argued .servicebus w (Servicebus.main w []).trace c) ∧
    Servicebus.inOrder (Servicebus.main w []).trace = true := by
  simp only [Servicebus.main, Servicebus.createResourceGroup, Servicebus.createVirtualNetwork,
    Servicebus.createSubnet, Servicebus.createNamespace,
    Servicebus.createNamespaceAuthorizationRule, Servicebus.createNamespaceNetworkRuleSet,
    Servicebus.cleanup,
    bind_def, pure_def, bind_assoc, pure_bind, ite_run, pure_run, getenv_bind,
    logFatal_bind, logFatal_run, credential_bind, newClient_bind, fatalIf_some_bind,
    fatalIf_none_bind, logPrintln_bind, logPrintln_run, logPrintln1_bind, logPrintln1_run,
    derefID_bind, deref_bind, readFile_bind, unmarshalMap_bind, request_bind,
    beginRequest_bind, pollUntilDone_bind, Option.some_bind, Option.none_bind,
    List.nil_append, List.append_assoc, List.singleton_append, List.cons_append]
  repeat' split
  all_goals
    simp_all [Res.trace, requests, Event.request, Argued, Sample.constantCalls, Servicebus.inOrder,
      precededBy, Event.starts, Event.pollSucceeded, pollLoop_getLast_ok,
      Servicebus.createResourceGroupCall, Servicebus.createVirtualNetworkCall,
      Servicebus.createSubnetCall, Servicebus.createNamespaceCall,
      Servicebus.createNamespaceAuthorizationRuleCall,
      Servicebus.createNamespaceNetworkRuleSetCall, Servicebus.cleanupCall]

theorem traced_staticsite (w : World) :
    ∀ c ∈ requests (Staticsite.main w []).trace,
      Argued .staticsite w (Staticsite.main w []).trace c := by
  simp only [Staticsite.main, Staticsite.createResourceGroup, Staticsite.createAppServicePlan,
    Staticsite.createWebApp, Staticsite.getAppConfiguration,
    bind_def, pure_def, bind_assoc, pure_bind, ite_run, pure_run, getenv_bind,
    logFatal_bind, logFatal_run, credential_bind, newClient_bind, fatalIf_some_bind,
    fatalIf_none_bind, logPrintln_bind, logPrintln_run, logPrintln1_bind, logPrintln1_run,
    derefID_bind, deref_bind, readFile_bind, unmarshalMap_bind, request_bind,
    beginRequest_bind, pollUntilDone_bind, Option.some_bind, Option.none_bind,
    List.nil_append, List.append_assoc, List.singleton_append, List.cons_append]
  repeat' split
  all_goals
    simp_all [Res.trace, requests, Event.request, Argued, Sample.constantCalls,
      Staticsite.createResourceGroupCall, Staticsite.createAppServicePlanCall,
      Staticsite.createWebAppCall, Staticsite.getAppConfigurationCall]

theorem traced (s : Sample) (w : World) :
    ∀ c ∈ requests (s.main w []).trace, Argued s w (s.main w []).trace c := by
  cases s
  · exact traced_apimanagement w
  · exact traced_cdnManagement w
  · exact traced_cdnEndpoint w
  · exact traced_containerregistry w
  · exact (traced_deployment w).1
  · exact traced_mysql w
  · exact traced_privatedns w
  · exact (traced_servicebus w).1
  · exact traced_staticsite w

/-! ## Claims on single samples -/

/-- C17: the source sends `BeginStart` from `stopEndpoint` and `BeginStop` from
`startEndpoint`.  On the fully successful run the endpoint actions therefore reach the
provider in the order purge, start, stop: the line "cdn endpoint stop:" is printed after a
start action, the line "cdn endpoint start:" after a stop action, and the last action before
the teardown is the stop. -/
theorem stop_and_start_are_swapped :
    (∀ sub, (CdnEndpoint.stopEndpointCall sub).method = "BeginStart" ∧
      (CdnEndpoint.startEndpointCall sub).method = "BeginStop") ∧
    (run CdnEndpoint.main happy).1 = .returned ∧
    (run CdnEndpoint.main happy).2.filterMap Event.brief =
      ["CreateOrUpdate", "resources group: /id",
       "BeginCreate", "cdn profile: /id",
       "BeginCreate", "cdn endpoint: /id",
       "BeginPurgeContent", "cdn endpoint purge content: 200 OK",
       "BeginStart", "cdn endpoint stop: /id",
       "BeginStop", "cdn endpoint start: /id",
       "BeginDelete", "cleaned up successfully."] :=
  ⟨fun _ => ⟨rfl, rfl⟩, by decide, by decide⟩

/-- C18: once `getFirstKey` has returned the key of the account and `config.UserAgent` its
text, `CustomSearch` sends exactly one request, the search with an empty custom-config id,
the query "Xbox", strict safe search and raw text format through a client authorized with
that key; if the search succeeds the result is the `WebPages` of the response with a nil
error, and if it fails with `e` the result is nil with exactly `e`. -/
theorem customSearch_sends_one_search (getFirstKey : String → Prog String)
    (configUserAgent : Prog String) (accountName : String) (w : World)
    (tr tr1 tr2 : List Event) (key agent : String)
    (hkey : getFirstKey accountName w tr = .ok key tr1)
    (hagent : configUserAgent w tr1 = .ok agent tr2) :
    Cognitiveservices.CustomSearch getFirstKey configUserAgent accountName w tr =
      match w.request tr2
          { client := "customsearch.CustomInstanceClient", method := "Search",
            subscriptionID := "", args := ["", "Xbox"],
            body := [("Authorizer", .str key), ("AddToUserAgent", .str agent),
                     ("Accept-Language", .str ""), ("User-Agent", .str ""),
                     ("X-MSEdge-ClientID", .str ""), ("X-MSEdge-ClientIP", .str ""),
                     ("X-Search-Location", .str ""), ("countryCode", .str ""),
                     ("market", .str ""), ("safeSearch", .enum "customsearch.Strict"),
                     ("setLang", .str ""), ("textFormat", .enum "customsearch.Raw")] } with
      | .ok searchResponse =>
        .ok (searchResponse.webPages, none)
          (tr2 ++ [.call (Cognitiveservices.searchCall ⟨key, agent⟩ "" "Xbox" "" "" "" "" "" ""
            none "" none "customsearch.Strict" "" none "customsearch.Raw") none])
      | .error e =>
        .ok (none, some e)
          (tr2 ++ [.call (Cognitiveservices.searchCall ⟨key, agent⟩ "" "Xbox" "" "" "" "" "" ""
            none "" none "customsearch.Strict" "" none "customsearch.Raw") (some e)]) := by
  have hcall : Cognitiveservices.searchCall ⟨key, agent⟩ "" "Xbox" "" "" "" "" "" ""
      none "" none "customsearch.Strict" "" none "customsearch.Raw" =
      { client := "customsearch.CustomInstanceClient", method := "Search",
        subscriptionID := "", args := ["", "Xbox"],
        body := [("Authorizer", .str key), ("AddToUserAgent", .str agent),
                 ("Accept-Language", .str ""), ("User-Agent", .str ""),
                 ("X-MSEdge-ClientID", .str ""), ("X-MSEdge-ClientIP", .str ""),
                 ("X-Search-Location", .str ""), ("countryCode", .str ""),
                 ("market", .str ""), ("safeSearch", .enum "customsearch.Strict"),
                 ("setLang", .str ""), ("textFormat", .enum "customsearch.Raw")] } := rfl
  rw [← hcall]
  simp only [Cognitiveservices.CustomSearch, Cognitiveservices.getCustomSearchClient, bind_def,
    pure_def, bind_assoc, pure_bind, request_bind]
  simp only [Prog.bind, hkey, hagent, request]
  cases w.request tr2 _ <;> rfl

/-- Witness of C18: with a key service that answers "key1" and the user agent "samples", in
the world where every request succeeds. -/
theorem customSearch_sends_one_search_witness :
    Cognitiveservices.CustomSearch (fun _ => pure "key1") (pure "samples") "account" happy [] =
      match happy.request []
          { client := "customsearch.CustomInstanceClient", method := "Search",
            subscriptionID := "", args := ["", "Xbox"],
            body := [("Authorizer", .str "key1"), ("AddToUserAgent", .str "samples"),
                     ("Accept-Language", .str ""), ("User-Agent", .str ""),
                     ("X-MSEdge-ClientID", .str ""), ("X-MSEdge-ClientIP", .str ""),
                     ("X-Search-Location", .str ""), ("countryCode", .str ""),
                     ("market", .str ""), ("safeSearch", .enum "customsearch.Strict"),
                     ("setLang", .str ""), ("textFormat", .enum "customsearch.Raw")] } with
      | .ok searchResponse =>
        .ok (searchResponse.webPages, none)
          ([] ++ [.call (Cognitiveservices.searchCall ⟨"key1", "samples"⟩ "" "Xbox" "" "" "" ""
            "" "" none "" none "customsearch.Strict" "" none "customsearch.Raw") none])
      | .error e =>
        .ok (none, some e)
          ([] ++ [.call (Cognitiveservices.searchCall ⟨"key1", "samples"⟩ "" "Xbox" "" "" "" ""
            "" "" none "" none "customsearch.Strict" "" none "customsearch.Raw") (some e)]) :=
  customSearch_sends_one_search (fun _ => pure "key1") (pure "samples") "account" happy
    [] [] [] "key1" "samples" rfl rfl

/-- Counterexample to C14: the text `[1, 2]` is well-formed JSON, and `readJson` returns an
error for a file that holds it, because an array cannot be stored in the map. -/
theorem readJson_rejects_a_wellformed_array :
    Json.wellFormed "[1, 2]" = true ∧
    (onDisk "[1, 2]").readFile "testdata/template.json" = .ok "[1, 2]" ∧
    (Deployment.readJson "testdata/template.json" (onDisk "[1, 2]") []).value? =
      some (none, some
        "json: cannot unmarshal array into Go value of type map[string]interface \x7b\x7d") :=
  ⟨by decide, rfl, rfl⟩

/-- C14, amended: `readJson` validates nothing beyond what `json.Unmarshal` into a map
checks.  For every readable file it hands back exactly the result of `json.Unmarshal` on the
content, sends nothing and prints nothing.  Hence it returns an error whenever the content
is not well-formed JSON or its top-level value is an array, string, number or boolean, and
it returns a map with a nil error only for well-formed JSON whose top-level value is an
object or null. -/
theorem readJson_returns_what_unmarshal_returns (w : World) (path data : String)
    (tr : List Event) (hgo : w.DecodesIntoMap) (hfile : w.readFile path = .ok data) :
    (Deployment.readJson path w tr =
      match w.unmarshalMap data with
      | .ok m => .ok (some m, none) tr
      | .error e => .ok (none, some e) tr) ∧
    ((¬ ∃ j, Json.parse data = some j ∧ (j.kind = .object ∨ j.kind = .null)) →
      ∃ e, Deployment.readJson path w tr = .ok (none, some e) tr) ∧
    ((∃ m, Deployment.readJson path w tr = .ok (some m, none) tr) →
      ∃ j, Json.parse data = some j ∧ (j.kind = .object ∨ j.kind = .null)) := by
  have h1 : Deployment.readJson path w tr =
      match w.unmarshalMap data with
      | .ok m => .ok (some m, none) tr
      | .error e => .ok (none, some e) tr := by
    simp only [Deployment.readJson, bind_def, pure_def, readFile_bind, unmarshalMap_bind,
      hfile, pure_run]
  have h2 : (¬ ∃ j, Json.parse data = some j ∧ (j.kind = .object ∨ j.kind = .null)) →
      ∃ e, Deployment.readJson path w tr = .ok (none, some e) tr := by
    intro hno
    cases hp : Json.parse data with
    | none =>
      obtain ⟨e, he⟩ := hgo.malformed data hp
      exact ⟨e, by rw [h1, he]⟩
    | some j =>
      obtain ⟨e, he⟩ := hgo.mistyped data j hp (fun hk => hno ⟨j, hp, Or.inl hk⟩)
        (fun hk => hno ⟨j, hp, Or.inr hk⟩)
      exact ⟨e, by rw [h1, he]⟩
  refine ⟨h1, h2, ?_⟩
  rintro ⟨m, hm⟩
  by_contra hno
  obtain ⟨e, he⟩ := h2 hno
  rw [he] at hm
  cases hm

/-- Witness of the amended C14: a file that holds the empty object is read without error,
and a file that holds an array is not. -/
theorem readJson_returns_what_unmarshal_returns_witness :
    Deployment.readJson "testdata/template.json" (onDisk "\x7b\x7d") [] =
      .ok (some [], none) [] ∧
    ∃ e, Deployment.readJson "testdata/template.json" (onDisk "[1, 2]") [] =
      .ok (none, some e) [] :=
  ⟨(readJson_returns_what_unmarshal_returns (onDisk "\x7b\x7d") "testdata/template.json"
      "\x7b\x7d" [] (onDisk_decodes "\x7b\x7d") rfl).1,
   (readJson_returns_what_unmarshal_returns (onDisk "[1, 2]") "testdata/template.json"
      "[1, 2]" [] (onDisk_decodes "[1, 2]") rfl).2.1 (by
        rintro ⟨j, hj, hk⟩
        have h : Json.parse "[1, 2]" = some (.array [.number "1", .number "2"]) := rfl
        rw [h] at hj
        cases hj
        rcases hk with hk | hk <;> cases hk)⟩

/-- C11: `getServer` reads with the key (client, subscription, resource group, name) that
`createServer` created with, and `getReplication` with the key that `createReplication`
created with.  Hence against a provider that echoes the stored resource of a key, whenever
the read succeeds the line printed after the read carries the ID of the stored resource,
which is the ID the create returned and the line after the create printed. -/
theorem read_returns_what_create_stored (store : String × String × List String → Payload)
    (w : World) :
    (∀ sub, (Mysql.getServerCall sub).key = (Mysql.createServerCall sub).key) ∧
    (∀ sub, (Containerregistry.getReplicationCall sub).key =
      (Containerregistry.createReplicationCall sub).key) ∧
    (Event.call (Mysql.getServerCall (w.getenv "AZURE_SUBSCRIPTION_ID")) none ∈
        (run Mysql.main (echo store w)).2 →
      ∃ id, (store (Mysql.createServerCall (w.getenv "AZURE_SUBSCRIPTION_ID")).key).id = some id ∧
        (logs (run Mysql.main (echo store w)).2)[1]? = some ("server: " ++ id) ∧
        (logs (run Mysql.main (echo store w)).2)[2]? = some ("get server: " ++ id)) ∧
    (Event.call (Containerregistry.getReplicationCall (w.getenv "AZURE_SUBSCRIPTION_ID")) none ∈
        (run Containerregistry.main (echo store w)).2 →
      ∃ id, (store (Containerregistry.createReplicationCall
            (w.getenv "AZURE_SUBSCRIPTION_ID")).key).id = some id ∧
        (logs (run Containerregistry.main (echo store w)).2)[2]? =
          some ("replication: " ++ id) ∧
        (logs (run Containerregistry.main (echo store w)).2)[3]? =
          some ("get replication: " ++ id)) :=
  ⟨key_getServer, key_getReplication, roundtrip_mysql store w, roundtrip_registry store w⟩

/-- Witness of C11: the provider that keeps `fullPayload` under every key and never fails;
both reads succeed and print the stored ID. -/
theorem read_returns_what_create_stored_witness :
    (∃ id, (logs (run Mysql.main (echo (fun _ => fullPayload) happy)).2)[1]? =
        some ("server: " ++ id) ∧
      (logs (run Mysql.main (echo (fun _ => fullPayload) happy)).2)[2]? =
        some ("get server: " ++ id)) ∧
    (∃ id, (logs (run Containerregistry.main (echo (fun _ => fullPayload) happy)).2)[2]? =
        some ("replication: " ++ id) ∧
      (logs (run Containerregistry.main (echo (fun _ => fullPayload) happy)).2)[3]? =
        some ("get replication: " ++ id)) :=
  ⟨((read_returns_what_create_stored (fun _ => fullPayload) happy).2.2.1 (by decide)).imp
      (fun _ h => h.2),
   ((read_returns_what_create_stored (fun _ => fullPayload) happy).2.2.2 (by decide)).imp
      (fun _ h => h.2)⟩

/-- C15: the answer of the existence check is only printed.  Take any provider (which sees
the remote events of a run, not what the program prints) and two runs of the deployment
sample against it that differ only in the answer `b1` or `b2` of `checkExistDeployment`:
both runs produce the same remote events -- the same requests with the same arguments and
the same results, create, validate and teardown included -- and end in the same way. -/
theorem existence_is_only_logged (w : World) (b1 b2 : Bool) :
    (∀ b sub tr, (Deployment.checkExistDeployment sub (existence b w.blind) tr).value? =
      match w.request (remote tr) (Deployment.checkExistDeploymentCall sub) with
      | .ok _ => some (b, none)
      | .error e => some (false, some e)) ∧
    remote (run Deployment.main (existence b1 w.blind)).2 =
      remote (run Deployment.main (existence b2 w.blind)).2 ∧
    (run Deployment.main (existence b1 w.blind)).1 =
      (run Deployment.main (existence b2 w.blind)).1 :=
  ⟨fun b sub tr => existence_answer w b sub tr, (existence_deployment w b1 b2).1,
    (existence_deployment w b1 b2).2⟩

/-- C20: nil safety of `main` in the CDN endpoint sample.  If every successful response
carries the pointer that `main` dereferences, no run ends in a nil dereference.  Without
that precondition: whenever a successful response of a run lacks the pointer that `main`
dereferences after it (the ID of the resource group, of the profile, of the endpoint, of
the stop or of the start result, or the raw response of the purge), the run ends in a nil
dereference right there -- nothing follows the response but, for a long-running operation,
the poll that returned it.  A run that ends in a nil dereference exits with status 2, has
no failed call in its trace, so it did not leave through the fail-fast path, its last event
is a successful response, and some successful response of the run lacks the pointer. -/
theorem nil_dereference_only_without_pointer (w : World) :
    (CdnEndpoint.NonNil w → (run CdnEndpoint.main w).1 ≠ .halted .nilDeref) ∧
    ((run CdnEndpoint.main w).1 = .halted .nilDeref →
      (run CdnEndpoint.main w).1.status = 2 ∧
      (run CdnEndpoint.main w).2.any Event.failed = false ∧
      (run CdnEndpoint.main w).2.getLast?.map Event.responded = some true ∧
      ∃ pre x post c p, (run CdnEndpoint.main w).2 = pre ++ x :: post ∧
        answered w pre x = some (c, p) ∧ CdnEndpoint.lacksPointer c p = true) ∧
    (∀ pre x post c p, (run CdnEndpoint.main w).2 = pre ++ x :: post →
      answered w pre x = some (c, p) → CdnEndpoint.lacksPointer c p = true →
      (run CdnEndpoint.main w).1 = .halted .nilDeref ∧
      (post = [] ∨ ∃ rs, post = [Event.pollUntilDone c rs none])) ∧
    run CdnEndpoint.main withoutID =
      (.halted .nilDeref,
        [.credential none, .call (CdnEndpoint.createResourceGroupCall "sub") none]) ∧
    (run CdnEndpoint.main withoutRaw).1 = .halted .nilDeref ∧
    (run CdnEndpoint.main withoutRaw).2.filterMap Event.brief =
      ["CreateOrUpdate", "resources group: /id",
       "BeginCreate", "cdn profile: /id",
       "BeginCreate", "cdn endpoint: /id",
       "BeginPurgeContent"] := by
  refine ⟨(nilsafe_cdnEndpoint w).1, fun h => ?_, fun pre x post c p hd ha hl => ?_,
    by decide, by decide, by decide⟩
  · obtain ⟨h1, h2, h3⟩ := (nilsafe_cdnEndpoint w).2.1 h
    obtain ⟨pre, x, post, c, p, hd, ha, hl⟩ := nilAnswered_split w _ [] h3
    exact ⟨by rw [h]; rfl, h1, h2, pre, x, post, c, p, hd, by simpa using ha, hl⟩
  · obtain ⟨ho, hs⟩ := faultsAtNil_split w _ _ [] pre post x c p (nilsafe_cdnEndpoint w).2.2 hd
      (by simpa using ha) hl
    exact ⟨ho, stopsAfter_answered w pre post x c p ha hs⟩

/-- Witness of C20: the fully successful world meets the precondition; the world whose
responses carry no ID ends in a nil dereference; and in the worlds in which only the result
of the profile's creation, or only the result that `stopEndpoint` receives, lacks its ID,
the run ends in a nil dereference right after the poll that returned it. -/
theorem nil_dereference_only_without_pointer_witness :
    (run CdnEndpoint.main happy).1 ≠ .halted .nilDeref ∧
    ((run CdnEndpoint.main withoutID).1.status = 2 ∧
      (run CdnEndpoint.main withoutID).2.any Event.failed = false ∧
      (run CdnEndpoint.main withoutID).2.getLast?.map Event.responded = some true) ∧
    ((run CdnEndpoint.main withoutProfileID).1 = .halted .nilDeref ∧
      ((run CdnEndpoint.main withoutProfileID).2.drop 4 = [] ∨
        ∃ rs, (run CdnEndpoint.main withoutProfileID).2.drop 4 =
          [Event.pollUntilDone (CdnEndpoint.createProfileCall "sub") rs none])) ∧
    ((run CdnEndpoint.main withoutStopID).1 = .halted .nilDeref ∧
      ((run CdnEndpoint.main withoutStopID).2.drop 13 = [] ∨
        ∃ rs, (run CdnEndpoint.main withoutStopID).2.drop 13 =
          [Event.pollUntilDone (CdnEndpoint.stopEndpointCall "sub") rs none])) :=
  ⟨(nil_dereference_only_without_pointer happy).1 nonNil_happy,
   ⟨((nil_dereference_only_without_pointer withoutID).2.1 (by decide)).1,
    ((nil_dereference_only_without_pointer withoutID).2.1 (by decide)).2.1,
    ((nil_dereference_only_without_pointer withoutID).2.1 (by decide)).2.2.1⟩,
   (nil_dereference_only_without_pointer withoutProfileID).2.2.1
     ((run CdnEndpoint.main withoutProfileID).2.take 3)
     (Event.begin (CdnEndpoint.createProfileCall "sub") none)
     ((run CdnEndpoint.main withoutProfileID).2.drop 4)
     (CdnEndpoint.createProfileCall "sub") { fullPayload with id := none }
     (by decide) (by decide) (by decide),
   (nil_dereference_only_without_pointer withoutStopID).2.2.1
     ((run CdnEndpoint.main withoutStopID).2.take 12)
     (Event.begin (CdnEndpoint.stopEndpointCall "sub") none)
     ((run CdnEndpoint.main withoutStopID).2.drop 13)
     (CdnEndpoint.stopEndpointCall "sub") { fullPayload with id := none }
     (by decide) (by decide) (by decide)⟩

/-! ## Claims on the order and the arguments of requests -/

/-- C12: in every run of the service-bus sample, the subnet create request is sent only
after a poll of the virtual network's creation returned success, the authorization-rule and
the network-rule-set requests only after a poll of the namespace's creation returned
success, and the network-rule-set request only after a poll of the subnet's creation
returned success. -/
theorem servicebus_stages_wait_for_polls (w : World) (pre post : List Event) (x : Event)
    (h : (run Servicebus.main w).2 = pre ++ x :: post) :
    (x.starts "armnetwork.SubnetsClient" "BeginCreateOrUpdate" = true →
      ∃ y ∈ pre,
        y.pollSucceeded "armnetwork.VirtualNetworksClient" "BeginCreateOrUpdate" = true) ∧
    (x.starts "armservicebus.NamespacesClient" "CreateOrUpdateAuthorizationRule" = true →
      ∃ y ∈ pre,
        y.pollSucceeded "armservicebus.NamespacesClient" "BeginCreateOrUpdate" = true) ∧
    (x.starts "armservicebus.NamespacesClient" "CreateOrUpdateNetworkRuleSet" = true →
      (∃ y ∈ pre,
        y.pollSucceeded "armservicebus.NamespacesClient" "BeginCreateOrUpdate" = true) ∧
      ∃ y ∈ pre, y.pollSucceeded "armnetwork.SubnetsClient" "BeginCreateOrUpdate" = true) := by
  have ho := (traced_servicebus w).2
  simp only [Servicebus.inOrder, Bool.and_eq_true] at ho
  obtain ⟨⟨⟨h1, h2⟩, h3⟩, h4⟩ := ho
  exact ⟨fun hx => precededBy_split _ _ _ pre post x h1 h hx,
    fun hx => precededBy_split _ _ _ pre post x h2 h hx,
    fun hx => ⟨precededBy_split _ _ _ pre post x h3 h hx,
      precededBy_split _ _ _ pre post x h4 h hx⟩⟩

/-- Witness of C12: the fully successful run, cut at the network-rule-set request. -/
theorem servicebus_stages_wait_for_polls_witness :
    (run Servicebus.main happy).2 =
      (run Servicebus.main happy).2.take 14 ++
        Event.call (Servicebus.createNamespaceNetworkRuleSetCall "sub" "/id") none ::
          (run Servicebus.main happy).2.drop 15 ∧
    (∃ y ∈ (run Servicebus.main happy).2.take 14,
      y.pollSucceeded "armservicebus.NamespacesClient" "BeginCreateOrUpdate" = true) ∧
    ∃ y ∈ (run Servicebus.main happy).2.take 14,
      y.pollSucceeded "armnetwork.SubnetsClient" "BeginCreateOrUpdate" = true :=
  ⟨by decide,
    (servicebus_stages_wait_for_polls happy ((run Servicebus.main happy).2.take 14)
      ((run Servicebus.main happy).2.drop 15)
      (Event.call (Servicebus.createNamespaceNetworkRuleSetCall "sub" "/id") none)
      (by decide)).2.2 (by decide)⟩

/-- Counterexample to C13: in the fully successful run of the apimanagement sample the
purge request of `deleteService` acts on the deleted service, and its arguments are the
service name and the location: the name of the resource group is not among them. -/
theorem purge_is_scoped_by_location :
    Apimanagement.deleteServiceCall "sub" ∈ requests (run Apimanagement.main happy).2 ∧
    isDependent (Apimanagement.deleteServiceCall "sub") = true ∧
    (Apimanagement.createResourceGroupCall "sub").args = ["sample-resource-group"] ∧
    (Apimanagement.deleteServiceCall "sub").args = ["sample-api-service", "westus"] ∧
    "sample-resource-group" ∉ (Apimanagement.deleteServiceCall "sub").args := by
  decide

/-- C13, amended: in every run of every sample, every request is sent for the subscription
of the run, and its first argument is the resource-group name that the resource-group
`CreateOrUpdate` request of the sample carries -- except the purge request of
`deleteService` in the apimanagement sample, which is scoped by service name and
location. -/
theorem requests_are_scoped_to_the_group (s : Sample) (w : World) (c : Call)
    (hc : c ∈ requests (run s.main w).2) :
    c.subscriptionID = w.getenv "AZURE_SUBSCRIPTION_ID" ∧
    (c.args.head? = (s.createResourceGroupCall (w.getenv "AZURE_SUBSCRIPTION_ID")).args.head? ∨
      (s = .apimanagement ∧
        c = Apimanagement.deleteServiceCall (w.getenv "AZURE_SUBSCRIPTION_ID"))) := by
  rcases traced s w c hc with hm | ⟨rfl, id, rfl, _⟩ | ⟨rfl, id, rfl, _⟩ |
    ⟨rfl, t, p, _, _, rfl | rfl⟩
  · cases s <;>
      simp only [Sample.constantCalls, List.mem_cons, List.mem_singleton, List.not_mem_nil,
        or_false] at hm <;>
      (repeat' (rcases hm with rfl | hm)) <;>
      first
      | exact ⟨rfl, Or.inl rfl⟩
      | exact ⟨rfl, Or.inr ⟨rfl, rfl⟩⟩
  · exact ⟨rfl, Or.inl rfl⟩
  · exact ⟨rfl, Or.inl rfl⟩
  · exact ⟨rfl, Or.inl rfl⟩
  · exact ⟨rfl, Or.inl rfl⟩

/-- Witness of the amended C13: the create request of the server in the fully successful
run of the mysql sample. -/
theorem requests_are_scoped_to_the_group_witness :
    (Mysql.createServerCall "sub").subscriptionID = happy.getenv "AZURE_SUBSCRIPTION_ID" ∧
    ((Mysql.createServerCall "sub").args.head? =
        (Sample.createResourceGroupCall .mysql (happy.getenv "AZURE_SUBSCRIPTION_ID")).args.head? ∨
      (Sample.mysql = .apimanagement ∧
        Mysql.createServerCall "sub" =
          Apimanagement.deleteServiceCall (happy.getenv "AZURE_SUBSCRIPTION_ID"))) :=
  requests_are_scoped_to_the_group .mysql happy (Mysql.createServerCall "sub") (by decide)

/-- Counterexample to C16: two fully successful runs of the CDN management sample in which
the resource-group ensure returns different identifiers ("/id" and "/other", as the printed
lines show) send the same requests with the same arguments: `createProfile`, the stage
after the ensure, takes no value that the ensure returned. -/
theorem createProfile_takes_nothing_from_the_ensure :
    Event.log "resources group: /id" ∈ (run CdnManagement.main happy).2 ∧
    Event.log "resources group: /other" ∈ (run CdnManagement.main renamed).2 ∧
    CdnManagement.createProfileCall "sub" ∈ requests (run CdnManagement.main happy).2 ∧
    requests (run CdnManagement.main happy).2 = requests (run CdnManagement.main renamed).2 := by
  decide

/-- C16, amended: in every run of every sample the remote operations follow the program
order (they are a prefix of the operations of the successful run) and nothing follows a
failed one, so the order of the stages is enforced by sequential control flow.  Data flows
from an earlier stage into a request in three places only: the network rule set of the
service-bus sample carries the ID printed for the subnet, the web app of the static-site
sample the ID printed for the app service plan, and the create and validate requests of the
deployment sample the maps that `readJson` returned.  The arguments of every other request
are fixed by the program and the subscription. -/
theorem stages_are_ordered_by_control_flow (s : Sample) (w : World) :
    ops (run s.main w).2 <+: script s ∧
    failFast (run s.main w).2 = true ∧
    ∀ c ∈ requests (run s.main w).2,
      c ∈ s.constantCalls (w.getenv "AZURE_SUBSCRIPTION_ID") ∨
      (s = .servicebus ∧ ∃ id,
        c = Servicebus.createNamespaceNetworkRuleSetCall (w.getenv "AZURE_SUBSCRIPTION_ID") id ∧
        Event.log ("subnet: " ++ id) ∈ (run s.main w).2) ∨
      (s = .staticsite ∧ ∃ id,
        c = Staticsite.createWebAppCall (w.getenv "AZURE_SUBSCRIPTION_ID") id ∧
        Event.log ("app service plan: " ++ id) ∈ (run s.main w).2) ∨
      (s = .deployment ∧ ∃ template params,
        Deployment.load w "testdata/template.json" = some template ∧
        Deployment.load w "testdata/parameters.json" = some params ∧
        (c = Deployment.createDeploymentCall (w.getenv "AZURE_SUBSCRIPTION_ID") template
            params ∨
         c = Deployment.validateDeploymentCall (w.getenv "AZURE_SUBSCRIPTION_ID") template
            params)) :=
  ⟨(checked s w).scripted, (checked s w).failFast, traced s w⟩

/-- Witness of the amended C16: in the fully successful run of the service-bus sample the
network rule set carries the ID printed for the subnet. -/
theorem stages_are_ordered_by_control_flow_witness :
    Servicebus.createNamespaceNetworkRuleSetCall "sub" "/id" ∈
        requests (run Servicebus.main happy).2 ∧
      Servicebus.createNamespaceNetworkRuleSetCall "sub" "/id" ∉
        Sample.constantCalls .servicebus "sub" ∧
      (Servicebus.createNamespaceNetworkRuleSetCall "sub" "/id" ∈
          Sample.constantCalls .servicebus (happy.getenv "AZURE_SUBSCRIPTION_ID") ∨
        (Sample.servicebus = .servicebus ∧ ∃ id,
          Servicebus.createNamespaceNetworkRuleSetCall "sub" "/id" =
            Servicebus.createNamespaceNetworkRuleSetCall
              (happy.getenv "AZURE_SUBSCRIPTION_ID") id ∧
          Event.log ("subnet: " ++ id) ∈ (run (Sample.main .servicebus) happy).2) ∨
        (Sample.servicebus = .staticsite ∧ ∃ id,
          Servicebus.createNamespaceNetworkRuleSetCall "sub" "/id" =
            Staticsite.createWebAppCall (happy.getenv "AZURE_SUBSCRIPTION_ID") id ∧
          Event.log ("app service plan: " ++ id) ∈ (run (Sample.main .servicebus) happy).2) ∨
        (Sample.servicebus = .deployment ∧ ∃ template params,
          Deployment.load happy "testdata/template.json" = some template ∧
          Deployment.load happy "testdata/parameters.json" = some params ∧
          (Servicebus.createNamespaceNetworkRuleSetCall "sub" "/id" =
              Deployment.createDeploymentCall (happy.getenv "AZURE_SUBSCRIPTION_ID") template
                params ∨
            Servicebus.createNamespaceNetworkRuleSetCall "sub" "/id" =
              Deployment.validateDeploymentCall (happy.getenv "AZURE_SUBSCRIPTION_ID") template
                params))) :=
  ⟨by decide, by decide,
    (stages_are_ordered_by_control_flow .servicebus happy).2.2
      (Servicebus.createNamespaceNetworkRuleSetCall "sub" "/id") (by decide)⟩

theorem addressSpace_eq (sub : String) : Servicebus.addressSpace sub = ["10.0.0.0/16"] := rfl

theorem subnetPrefix_eq (sub : String) : Servicebus.subnetPrefix sub = some "10.0.0.0/24" := rfl

theorem parse_network : Cidr.parse "10.0.0.0/16" = some ⟨167772160, 16⟩ := by decide

theorem parse_subnet : Cidr.parse "10.0.0.0/24" = some ⟨167772160, 24⟩ := by decide

theorem ordered_containerregistry (w : World) :
    Containerregistry.inOrder (Containerregistry.main w []).trace = true := by
  simp only [Containerregistry.main, Containerregistry.createResourceGroup,
    Containerregistry.createRegistry, Containerregistry.createReplication,
    Containerregistry.getReplication, Containerregistry.cleanup,
    bind_def, pure_def, bind_assoc, pure_bind, ite_run, pure_run, getenv_bind,
    logFatal_bind, logFatal_run, credential_bind, newClient_bind, fatalIf_some_bind,
    fatalIf_none_bind, logPrintln_bind, logPrintln_run, logPrintln1_bind, logPrintln1_run,
    derefID_bind, deref_bind, readFile_bind, unmarshalMap_bind, request_bind,
    beginRequest_bind, pollUntilDone_bind, Option.some_bind, Option.none_bind,
    List.nil_append, List.append_assoc, List.singleton_append, List.cons_append]
  repeat' split
  all_goals
    simp [Res.trace, Containerregistry.inOrder, precededBy, Event.starts, Event.pollSucceeded,
      pollLoop_getLast_ok, Containerregistry.createResourceGroupCall,
      Containerregistry.createRegistryCall, Containerregistry.createReplicationCall,
      Containerregistry.getReplicationCall, Containerregistry.cleanupCall]

/-! ## Claims on the constants of single samples -/

/-- C22: in the service-bus sample the virtual-network request carries the single address
prefix 10.0.0.0/16 and the subnet request the prefix 10.0.0.0/24; both are well-formed, the
subnet's prefix length is not shorter than the network's, and every IPv4 address in the
range of the subnet lies in the range of the virtual network. -/
theorem subnet_lies_in_the_virtual_network (sub : String) :
    ∃ net subnet : Cidr,
      Servicebus.addressSpace sub = ["10.0.0.0/16"] ∧
      Servicebus.subnetPrefix sub = some "10.0.0.0/24" ∧
      (Servicebus.addressSpace sub).map Cidr.parse = [some net] ∧
      (Servicebus.subnetPrefix sub).bind Cidr.parse = some subnet ∧
      net.len ≤ subnet.len ∧
      ∀ a, subnet.contains a = true → net.contains a = true := by
  refine ⟨⟨167772160, 16⟩, ⟨167772160, 24⟩, rfl, rfl, ?_, ?_, by decide, ?_⟩
  · rw [addressSpace_eq]
    simp [parse_network]
  · rw [subnetPrefix_eq]
    simp [parse_subnet]
  · intro a h
    simp only [Cidr.contains, Bool.and_eq_true, decide_eq_true_eq, beq_iff_eq] at h ⊢
    refine ⟨h.1, ?_⟩
    have h2 := h.2
    norm_num at h2 ⊢
    omega

/-- Witness of C22: the address 10.0.0.5 lies in the subnet, hence in the network. -/
theorem subnet_lies_in_the_virtual_network_witness :
    ∃ net subnet : Cidr,
      (Servicebus.subnetPrefix "sub").bind Cidr.parse = some subnet ∧
      subnet.contains 167772165 = true ∧ net.contains 167772165 = true := by
  obtain ⟨net, subnet, _, _, _, hs, _, hall⟩ := subnet_lies_in_the_virtual_network "sub"
  have hv : subnet = ⟨167772160, 24⟩ := by
    rw [subnetPrefix_eq] at hs
    simp only [Option.some_bind, parse_subnet, Option.some.injEq] at hs
    exact hs.symm
  have hc : subnet.contains 167772165 = true := by
    rw [hv]
    decide
  exact ⟨net, subnet, hs, hc, hall _ hc⟩

/-- C21: in every run of the static-site sample no request goes to the static-sites client,
so the request of `createStaticSite` is never sent, and neither is the resource-group
delete of `cleanup`.  Every request of a run is the resource-group ensure, the
app-service-plan create, the web-app create carrying the ID printed for the plan, or the
app-configuration read; the remote operations of a run are an initial segment of these
four stages in this order (the two creates with their polls), and the fully successful run
performs them all. -/
theorem staticsite_never_creates_the_static_site (w : World) :
    (∀ c ∈ requests (run Staticsite.main w).2,
      (c.client ≠ "armweb.StaticSitesClient" ∧
        (∀ token, c ≠ Staticsite.createStaticSiteCall (w.getenv "AZURE_SUBSCRIPTION_ID") token) ∧
        c ≠ Staticsite.cleanupCall (w.getenv "AZURE_SUBSCRIPTION_ID")) ∧
      (c = Staticsite.createResourceGroupCall (w.getenv "AZURE_SUBSCRIPTION_ID") ∨
        c = Staticsite.createAppServicePlanCall (w.getenv "AZURE_SUBSCRIPTION_ID") ∨
        (∃ id, c = Staticsite.createWebAppCall (w.getenv "AZURE_SUBSCRIPTION_ID") id ∧
          Event.log ("app service plan: " ++ id) ∈ (run Staticsite.main w).2) ∨
        c = Staticsite.getAppConfigurationCall (w.getenv "AZURE_SUBSCRIPTION_ID"))) ∧
    ops (run Staticsite.main w).2 <+:
      [⟨"armresources.ResourceGroupsClient", "CreateOrUpdate", false⟩,
       ⟨"armweb.AppServicePlansClient", "BeginCreateOrUpdate", false⟩,
       ⟨"armweb.AppServicePlansClient", "BeginCreateOrUpdate", true⟩,
       ⟨"armweb.WebAppsClient", "BeginCreateOrUpdate", false⟩,
       ⟨"armweb.WebAppsClient", "BeginCreateOrUpdate", true⟩,
       ⟨"armweb.WebAppsClient", "GetConfiguration", false⟩] ∧
    ops (run Staticsite.main happy).2 =
      [⟨"armresources.ResourceGroupsClient", "CreateOrUpdate", false⟩,
       ⟨"armweb.AppServicePlansClient", "BeginCreateOrUpdate", false⟩,
       ⟨"armweb.AppServicePlansClient", "BeginCreateOrUpdate", true⟩,
       ⟨"armweb.WebAppsClient", "BeginCreateOrUpdate", false⟩,
       ⟨"armweb.WebAppsClient", "BeginCreateOrUpdate", true⟩,
       ⟨"armweb.WebAppsClient", "GetConfiguration", false⟩] := by
  refine ⟨fun c hc => ?_, ?_, ?_⟩
  · rcases traced .staticsite w c hc with hm | ⟨hs, _⟩ | ⟨_, id, rfl, hid⟩ | ⟨hs, _⟩
    · simp only [Sample.constantCalls, List.mem_cons, List.mem_singleton, List.not_mem_nil,
        or_false] at hm
      rcases hm with rfl | rfl | rfl
      · exact ⟨by simp [Staticsite.createResourceGroupCall, Staticsite.createStaticSiteCall,
          Staticsite.cleanupCall], Or.inl rfl⟩
      · exact ⟨by simp [Staticsite.createAppServicePlanCall, Staticsite.createStaticSiteCall,
          Staticsite.cleanupCall], Or.inr (Or.inl rfl)⟩
      · exact ⟨by simp [Staticsite.getAppConfigurationCall, Staticsite.createStaticSiteCall,
          Staticsite.cleanupCall], Or.inr (Or.inr (Or.inr rfl))⟩
    · cases hs
    · exact ⟨by simp [Staticsite.createWebAppCall, Staticsite.createStaticSiteCall,
        Staticsite.cleanupCall], Or.inr (Or.inr (Or.inl ⟨id, rfl, hid⟩))⟩
    · cases hs
  · have h := (checked .staticsite w).scripted
    rw [script_staticsite] at h
    exact h
  · exact script_staticsite

/-- Witness of C21: the web-app create of the fully successful run carries the ID printed
for the plan and does not go to the static-sites client. -/
theorem staticsite_never_creates_the_static_site_witness :
    Staticsite.createWebAppCall "sub" "/id" ∈ requests (run Staticsite.main happy).2 ∧
    ((Staticsite.createWebAppCall "sub" "/id").client ≠ "armweb.StaticSitesClient" ∧
      (∀ token, Staticsite.createWebAppCall "sub" "/id" ≠
        Staticsite.createStaticSiteCall (happy.getenv "AZURE_SUBSCRIPTION_ID") token) ∧
      Staticsite.createWebAppCall "sub" "/id" ≠
        Staticsite.cleanupCall (happy.getenv "AZURE_SUBSCRIPTION_ID")) :=
  ⟨by decide,
    ((staticsite_never_creates_the_static_site happy).1 (Staticsite.createWebAppCall "sub" "/id")
      (by decide)).1⟩

/-- C23: in every run of the container-registry sample, a replication create request
carries the region "eastus" and the names of the resource group, of the registry
"sample2registry" and of the replication; a registry create request carries the region
"westus", the Premium SKU and the same group and registry names; the resource-group ensure
carries "westus" too, which differs from "eastus"; and the replication create is sent only
after a poll of the registry's creation returned success. -/
theorem replication_goes_to_another_region (w : World) :
    (∀ c ∈ requests (run Containerregistry.main w).2,
      (c.client = "armcontainerregistry.ReplicationsClient" → c.method = "BeginCreate" →
        c.field "Resource.Location" = some (.str "eastus") ∧
        c.args = ["sample-resource-group", "sample2registry", "sample2replication"]) ∧
      (c.client = "armcontainerregistry.RegistriesClient" →
        c.method = "BeginCreate" ∧
        c.field "Resource.Location" = some (.str Containerregistry.location) ∧
        c.field "SKU.Name" = some (.enum "armcontainerregistry.SKUNamePremium") ∧
        c.args = ["sample-resource-group", "sample2registry"]) ∧
      (isEnsureGroup c = true →
        c.field "Location" = some (.str Containerregistry.location))) ∧
    Containerregistry.location = "westus" ∧ "eastus" ≠ Containerregistry.location ∧
    ∀ pre x post, (run Containerregistry.main w).2 = pre ++ x :: post →
      x.starts "armcontainerregistry.ReplicationsClient" "BeginCreate" = true →
      ∃ y ∈ pre, y.pollSucceeded "armcontainerregistry.RegistriesClient" "BeginCreate" = true := by
  refine ⟨fun c hc => ?_, rfl, by decide, fun pre x post h hx =>
    precededBy_split _ _ _ pre post x (ordered_containerregistry w) h hx⟩
  rcases traced .containerregistry w c hc with hm | ⟨hs, _⟩ | ⟨hs, _⟩ | ⟨hs, _⟩
  · simp only [Sample.constantCalls, List.mem_cons, List.mem_singleton, List.not_mem_nil,
      or_false] at hm
    rcases hm with rfl | rfl | rfl | rfl | rfl <;>
      simp [Call.field, List.lookup, isEnsureGroup, Containerregistry.location,
        Containerregistry.resourceGroupName, Containerregistry.registryName,
        Containerregistry.replicationName,
        Containerregistry.createResourceGroupCall, Containerregistry.createRegistryCall,
        Containerregistry.createReplicationCall, Containerregistry.getReplicationCall,
        Containerregistry.cleanupCall]
  · cases hs
  · cases hs
  · cases hs

/-- Witness of C23: the replication create of the fully successful run. -/
theorem replication_goes_to_another_region_witness :
    Containerregistry.createReplicationCall "sub" ∈
        requests (run Containerregistry.main happy).2 ∧
      (Containerregistry.createReplicationCall "sub").field "Resource.Location" =
        some (.str "eastus") ∧
      (Containerregistry.createReplicationCall "sub").args =
        ["sample-resource-group", "sample2registry", "sample2replication"] :=
  ⟨by decide,
    ((replication_goes_to_another_region happy).1 (Containerregistry.createReplicationCall "sub")
      (by decide)).1 rfl rfl⟩

end Samples
